import Mathlib

/-!
# minko: GPU state cache (`OpenGLES2Context`) and draw-call binder (`DrawCall`)

A shallow embedding of `framework/src/minko/render/OpenGLES2Context.cpp` and
`framework/src/minko/render/DrawCall.cpp`.

* The context is a record of its cache fields plus `gl`, the list of OpenGL
  calls issued so far (oldest first).  Every member function becomes a function
  on that record.
* `uint` values are natural numbers, `int` values are integers.
* C++ exceptions are the `error` side of `Except`; the error carries the object
  as the exception left it.
* `std::map` / `std::unordered_map` are association lists read through
  `StdMap.find?`; `operator[]` inserts a value-initialized entry when the key is
  missing, as in C++.
-/

namespace minko

/-! ## Association lists standing for `std::map` / `std::unordered_map` -/

/-- A map from keys to values, as a list of bindings with at most one binding read per key. -/
abbrev StdMap (κ : Type) (α : Type) := List (κ × α)

namespace StdMap

variable {κ α : Type} [DecidableEq κ]

/-- Lookup: `m.find(k)`, `none` standing for `m.end()`. -/
def find? : StdMap κ α → κ → Option α
  | [], _ => none
  | (k1, v) :: rest, k => if k1 = k then some v else find? rest k

/-- Membership test: `m.count(k) != 0`. -/
def contains (m : StdMap κ α) (k : κ) : Bool := (find? m k).isSome

/-- Assignment `m[k] = v`: overwrite the binding of `k`, or add one. -/
def insert : StdMap κ α → κ → α → StdMap κ α
  | [], k, v => [(k, v)]
  | (k1, v1) :: rest, k, v => if k1 = k then (k, v) :: rest else (k1, v1) :: insert rest k v

/-- Removal `m.erase(k)`. -/
def erase (m : StdMap κ α) (k : κ) : StdMap κ α := m.filter (fun b => decide (b.1 ≠ k))

/-- Read through `operator[]`: the value bound to `k`, or the value-initialized `dflt`. -/
def index (m : StdMap κ α) (k : κ) (dflt : α) : α := (find? m k).getD dflt

/-- The map after a read through `operator[]`: a missing key gets bound to `dflt`. -/
def touch (m : StdMap κ α) (k : κ) (dflt : α) : StdMap κ α :=
  if contains m k then m else insert m k dflt

end StdMap

namespace render

/-! ## Enumerations named by the sources -/

/-- The comparison functions of `CompareMode.hpp`, as named in `initializeDepthFuncsMap`. -/
inductive CompareMode
  | ALWAYS | EQUAL | GREATER | GREATER_EQUAL | LESS | LESS_EQUAL | NEVER | NOT_EQUAL | UNSET
  deriving DecidableEq, Repr

/-- The stencil operations of `StencilOperation.hpp`, as named in `initializeStencilOperationsMap`. -/
inductive StencilOperation
  | KEEP | ZERO | REPLACE | INCR | INCR_WRAP | DECR | DECR_WRAP | INVERT | UNSET
  deriving DecidableEq, Repr

/-- The culling modes switched over in `setTriangleCulling`. -/
inductive TriangleCulling
  | NONE | BACK | FRONT | BOTH
  deriving DecidableEq, Repr

/-- The wrap modes switched over in `setSamplerStateAt`. -/
inductive WrapMode
  | CLAMP | REPEAT
  deriving DecidableEq, Repr

/-- The texture filters switched over in `setSamplerStateAt`. -/
inductive TextureFilter
  | NEAREST | LINEAR
  deriving DecidableEq, Repr

/-- The mip filters switched over in `setSamplerStateAt`. -/
inductive MipFilter
  | NONE | NEAREST | LINEAR
  deriving DecidableEq, Repr

/-- The triple `std::tuple<WrapMode, TextureFilter, MipFilter>` of `Common.hpp`. -/
abbrev SamplerState := WrapMode × TextureFilter × MipFilter

/-- What a C++ call can end with instead of returning. The first three are
exceptions thrown by the code itself; `missing_property`, `bad_cast` and
`missing_attribute` are raised by the lookups it calls. `write_out_of_bounds i`
is not an exception: it stands for the undefined behaviour of the unchecked
store `v[i] = x` into a vector that has no entry `i`, and `null_dereference` for
a call through a null pointer. -/
inductive Failure
  | invalid_argument (what : String)
  | logic_error (what : String)
  | rethrow_without_exception
  | missing_property (name : String)
  | bad_cast (name : String)
  | missing_attribute (name : String)
  | write_out_of_bounds (index : Nat)
  | null_dereference
  deriving DecidableEq, Repr

/-! ## The OpenGL calls the context issues -/

/-- Capabilities passed to `glEnable` / `glDisable`. -/
inductive GLCap
  | DEPTH_TEST | STENCIL_TEST | BLEND | CULL_FACE
  deriving DecidableEq, Repr

/-- Faces passed to `glCullFace`. -/
inductive GLFace
  | BACK | FRONT | FRONT_AND_BACK
  deriving DecidableEq, Repr

/-- Buffer binding points passed to `glBindBuffer`. -/
inductive GLBufferTarget
  | ARRAY_BUFFER | ELEMENT_ARRAY_BUFFER
  deriving DecidableEq, Repr

/-- Texture parameter names and values passed to `glTexParameteri`. -/
inductive GLTexParam
  | WRAP_S_CLAMP_TO_EDGE | WRAP_T_CLAMP_TO_EDGE | WRAP_S_REPEAT | WRAP_T_REPEAT
  | MIN_NEAREST | MIN_LINEAR
  | MIN_NEAREST_MIPMAP_NEAREST | MIN_NEAREST_MIPMAP_LINEAR
  | MIN_LINEAR_MIPMAP_NEAREST | MIN_LINEAR_MIPMAP_LINEAR
  | MAG_NEAREST | MAG_LINEAR
  deriving DecidableEq, Repr

/-- The calls that only read the state of a program object back from the driver. -/
inductive GLQuery
  | glGetProgramiv (program : Nat)
  | glGetProgramInfoLog (program : Nat)
  | glGetActiveUniform (program index : Nat)
  | glGetUniformLocation (program : Nat) (name : String)
  | glGetActiveAttrib (program index : Nat)
  | glGetAttribLocation (program : Nat) (name : String)
  deriving DecidableEq, Repr

/-- One call into the OpenGL driver, with the arguments the source passes.
Arguments that the source reads out of the static tables `_blendingFactors`,
`_compareFuncs` and `_stencilOps` are recorded as the key given to the table.
The float arguments of `glUniform2f` / `3f` / `4f` are the components of the
vector at the recorded address. -/
inductive GLCall
  | glEnable (cap : GLCap)
  | glDisable (cap : GLCap)
  | glCullFace (face : GLFace)
  | glFrontFaceCCW
  | glGetString
  | glGetIntegervViewport
  | glViewport (x y width height : Nat)
  | glBindBuffer (target : GLBufferTarget) (buffer : Nat)
  | glDrawElements (count : Int)
  | glEnableVertexAttribArray (position : Nat)
  | glDisableVertexAttribArray (position : Nat)
  | glVertexAttribPointer (position size strideBytes offsetBytes : Nat)
  | glGenTextures (texture : Nat)
  | glBindTexture (texture : Int)
  | glTexParameteri (param : GLTexParam)
  | glTexImage2D (level width height : Nat)
  | glGenerateMipmap
  | glDeleteTextures (texture : Nat)
  | glGenFramebuffers (frameBuffer : Nat)
  | glBindFramebuffer (frameBuffer : Nat)
  | glFramebufferTexture2D (texture : Nat)
  | glGenRenderbuffers (renderBuffer : Nat)
  | glBindRenderbuffer (renderBuffer : Nat)
  | glRenderbufferStorage (width height : Nat)
  | glFramebufferRenderbuffer (renderBuffer : Nat)
  | glCheckFramebufferStatus
  | glDeleteFramebuffers (frameBuffer : Nat)
  | glDeleteRenderbuffers (renderBuffer : Nat)
  | glActiveTexture (unit : Nat)
  | glUniform1i (location : Int) (value : Nat)
  | glUniform1f (location : Int) (bits : Nat)
  | glUniform2f (location : Int) (vector : Nat)
  | glUniform3f (location : Int) (vector : Nat)
  | glUniform4f (location : Int) (vector : Nat)
  | glUniformMatrix4fv (location : Int) (size : Nat) (transpose : Bool) (values : Nat)
  | glCreateProgram (program : Nat)
  | glLinkProgram (program : Nat)
  | glDeleteProgram (program : Nat)
  | glUseProgram (program : Nat)
  | query (q : GLQuery)
  | glBlendFunc (sourceKey destinationKey : Nat)
  | glDepthMask (flag : Bool)
  | glDepthFunc (func : CompareMode)
  | glColorMask (flag : Bool)
  | glStencilFunc (func : CompareMode) (ref : Int) (mask : Nat)
  | glStencilOp (fail zfail zpass : StencilOperation)
  deriving DecidableEq, Repr

/-! ## The state cache -/

/-- The member variables of `OpenGLES2Context` and the log `gl` of the calls issued.
The per-slot vectors have 8 entries; a cached `-1` in the vertex size, stride and
offset vectors is the `uint` it compares equal to, `4294967295`. -/
structure OpenGLES2Context where
  _errorsEnabled : Bool
  _vertexBuffers : List Nat
  _indexBuffers : List Nat
  _textures : List Nat
  _programs : List Nat
  _vertexShaders : List Nat
  _fragmentShaders : List Nat
  _textureSizes : StdMap Nat (Nat × Nat)
  _textureHasMipmaps : StdMap Nat Bool
  _frameBuffers : StdMap Nat Nat
  _renderBuffers : StdMap Nat Nat
  _viewportX : Nat
  _viewportY : Nat
  _viewportWidth : Nat
  _viewportHeight : Nat
  _currentTarget : Nat
  _currentIndexBuffer : Nat
  _currentVertexBuffer : List Nat
  _currentVertexSize : List Nat
  _currentVertexStride : List Nat
  _currentVertexOffset : List Nat
  _currentTexture : List Int
  _currentProgram : Nat
  _currentTriangleCulling : TriangleCulling
  _currentWrapMode : StdMap Int WrapMode
  _currentTextureFilter : StdMap Int TextureFilter
  _currentMipFilter : StdMap Int MipFilter
  _currentBlendMode : Nat
  _currentColorMask : Bool
  _currentDepthMask : Bool
  _currentDepthFunc : CompareMode
  _currentStencilFunc : CompareMode
  _currentStencilRef : Int
  _currentStencilMask : Nat
  _currentStencilFailOp : StencilOperation
  _currentStencilZFailOp : StencilOperation
  _currentStencilZPassOp : StencilOperation
  gl : List GLCall
  deriving DecidableEq, Repr

namespace OpenGLES2Context

/-- The `int` value `-1` read as a `uint`. -/
def minusOne : Nat := 4294967295

/-- Issue one OpenGL call. -/
def emit (s : OpenGLES2Context) (c : GLCall) : OpenGLES2Context :=
  { s with gl := s.gl ++ [c] }

/-- The calls issued between the state `before` and the later state `after`. -/
def issued (before after : OpenGLES2Context) : List GLCall :=
  after.gl.drop before.gl.length

/-- Modelled from the spec: `checkForErrors` is declared in the header
`OpenGLES2Context.hpp`, which is not among the sources. The cache is the sole
writer of hardware state and the driver reports no error, so the check changes
nothing and never throws. -/
def checkForErrors (s : OpenGLES2Context) : OpenGLES2Context := s

/-- `OpenGLES2Context::configureViewport`. -/
def configureViewport (s : OpenGLES2Context) (x y width height : Nat) : OpenGLES2Context :=
  if x ≠ s._viewportX ∨ y ≠ s._viewportY ∨ width ≠ s._viewportWidth ∨ height ≠ s._viewportHeight then
    let s := { s with _viewportX := x, _viewportY := y, _viewportWidth := width, _viewportHeight := height }
    emit s (.glViewport x y width height)
  else s

/-- `OpenGLES2Context::setVertexBufferAt`. The early-return test compares the
cached offset of the slot with `position`, as the source does. -/
def setVertexBufferAt (s : OpenGLES2Context) (position vertexBuffer size stride offset : Nat) :
    OpenGLES2Context :=
  let currentVertexBuffer := s._currentVertexBuffer.getD position 0
  if currentVertexBuffer = vertexBuffer
      ∧ s._currentVertexSize.getD position 0 = size
      ∧ s._currentVertexStride.getD position 0 = stride
      ∧ s._currentVertexOffset.getD position 0 = position then s
  else
    let s := { s with
      _currentVertexBuffer := s._currentVertexBuffer.set position vertexBuffer,
      _currentVertexSize := s._currentVertexSize.set position size,
      _currentVertexStride := s._currentVertexStride.set position stride,
      _currentVertexOffset := s._currentVertexOffset.set position offset }
    if vertexBuffer > 0 then
      let s := emit s (.glEnableVertexAttribArray position)
      let s := emit s (.glBindBuffer .ARRAY_BUFFER vertexBuffer)
      let s := emit s (.glVertexAttribPointer position size (4 * stride) (4 * offset))
      checkForErrors s
    else
      emit s (.glDisableVertexAttribArray position)

/-- `OpenGLES2Context::createRTTBuffers`. The names `frameBuffer` and
`renderBuffer` are the ones the driver generates, `complete` is whether
`glCheckFramebufferStatus` answers `GL_FRAMEBUFFER_COMPLETE`. -/
def createRTTBuffers (s : OpenGLES2Context) (texture width height : Nat)
    (frameBuffer renderBuffer : Nat) (complete : Bool) :
    Except (Failure × OpenGLES2Context) OpenGLES2Context :=
  let s := emit s (.glGenFramebuffers frameBuffer)
  let s := emit s (.glBindFramebuffer frameBuffer)
  let s := emit s (.glFramebufferTexture2D texture)
  let s := emit s (.glGenRenderbuffers renderBuffer)
  let s := emit s (.glBindRenderbuffer renderBuffer)
  let s := emit s (.glRenderbufferStorage width height)
  let s := emit s (.glFramebufferRenderbuffer renderBuffer)
  let s := emit s .glCheckFramebufferStatus
  if ¬ complete then .error (.rethrow_without_exception, s)
  else
    let s := { s with
      _frameBuffers := StdMap.insert s._frameBuffers texture frameBuffer,
      _renderBuffers := StdMap.insert s._renderBuffers texture renderBuffer }
    let s := emit s (.glBindFramebuffer 0)
    let s := emit s (.glBindRenderbuffer 0)
    .ok (checkForErrors s)

/-- The mip-level loop of `createTexture`: one `glTexImage2D` per level while
`size > 0`, halving `size`, `w` and `h`. The first argument bounds the number of
iterations; `size` iterations are enough since `size` halves each time. -/
def mipLevelCalls : Nat → Nat → Nat → Nat → Nat → List GLCall
  | 0, _, _, _, _ => []
  | fuel + 1, size, w, h, level =>
    if size > 0 then
      GLCall.glTexImage2D level w h :: mipLevelCalls fuel (size >>> 1) (w >>> 1) (h >>> 1) (level + 1)
    else []

/-- `OpenGLES2Context::createTexture`. `texture` is the name `glGenTextures`
returns; `frameBuffer`, `renderBuffer` and `complete` are the driver's answers
inside `createRTTBuffers`. -/
def createTexture (s : OpenGLES2Context) (width height : Nat) (mipMapping : Bool)
    (optimizeForRenderToTexture : Bool) (texture : Nat)
    (frameBuffer renderBuffer : Nat) (complete : Bool) :
    Except (Failure × OpenGLES2Context) (Nat × OpenGLES2Context) :=
  if ¬ (width ≠ 0 ∧ (width &&& (width - 1)) = 0) then
    .error (.invalid_argument "width", s)
  else if ¬ (height ≠ 0 ∧ (height &&& (height - 1)) = 0) then
    .error (.invalid_argument "height", s)
  else
    let s := emit s (.glGenTextures texture)
    let s := emit s (.glBindTexture texture)
    let s := emit s (.glTexParameteri .WRAP_S_CLAMP_TO_EDGE)
    let s := emit s (.glTexParameteri .WRAP_T_CLAMP_TO_EDGE)
    let s := emit s (.glTexParameteri .MIN_NEAREST)
    let s := emit s (.glTexParameteri .MAG_NEAREST)
    let s := { s with
      _textures := s._textures ++ [texture],
      _textureSizes := StdMap.insert s._textureSizes texture (width, height),
      _textureHasMipmaps := StdMap.insert s._textureHasMipmaps texture mipMapping,
      _currentWrapMode := StdMap.insert s._currentWrapMode (texture : Int) WrapMode.CLAMP,
      _currentTextureFilter := StdMap.insert s._currentTextureFilter (texture : Int) TextureFilter.NEAREST,
      _currentMipFilter := StdMap.insert s._currentMipFilter (texture : Int) MipFilter.NONE }
    let s :=
      if mipMapping then
        let size := if width > height then width else height
        { s with gl := s.gl ++ mipLevelCalls size size width height 0 }
      else emit s (.glTexImage2D 0 width height)
    if optimizeForRenderToTexture then
      match createRTTBuffers s texture width height frameBuffer renderBuffer complete with
      | .error e => .error e
      | .ok s => .ok (texture, checkForErrors s)
    else .ok (texture, checkForErrors s)

/-- `OpenGLES2Context::deleteTexture`. -/
def deleteTexture (s : OpenGLES2Context) (texture : Nat) : OpenGLES2Context :=
  let s := { s with _textures := s._textures.erase texture }
  let s := emit s (.glDeleteTextures texture)
  let s :=
    if StdMap.contains s._frameBuffers texture then
      let s := emit s (.glDeleteFramebuffers (StdMap.index s._frameBuffers texture 0))
      let s := { s with _frameBuffers := StdMap.erase s._frameBuffers texture }
      let s := emit s (.glDeleteRenderbuffers (StdMap.index s._renderBuffers texture 0))
      let s := { s with _renderBuffers := StdMap.touch s._renderBuffers texture 0 }
      { s with _renderBuffers := StdMap.erase s._renderBuffers texture }
    else s
  let s := { s with
    _textureSizes := StdMap.erase s._textureSizes texture,
    _textureHasMipmaps := StdMap.erase s._textureHasMipmaps texture,
    _currentWrapMode := StdMap.erase s._currentWrapMode (texture : Int),
    _currentTextureFilter := StdMap.erase s._currentTextureFilter (texture : Int),
    _currentMipFilter := StdMap.erase s._currentMipFilter (texture : Int) }
  checkForErrors s

/-- `OpenGLES2Context::setTextureAt`. -/
def setTextureAt (s : OpenGLES2Context) (position : Nat) (texture : Int) (location : Int) :
    OpenGLES2Context :=
  let textureIsValid := texture > 0
  let s :=
    if s._currentTexture.getD position 0 ≠ texture then
      let s := { s with _currentTexture := s._currentTexture.set position texture }
      let s := emit s (.glActiveTexture position)
      emit s (.glBindTexture texture)
    else s
  let s := if textureIsValid ∧ location ≥ 0 then emit s (.glUniform1i location position) else s
  checkForErrors s

/-- `OpenGLES2Context::setProgram`. -/
def setProgram (s : OpenGLES2Context) (program : Nat) : OpenGLES2Context :=
  if s._currentProgram = program then s
  else
    let s := { s with _currentProgram := program }
    let s := emit s (.glUseProgram program)
    checkForErrors s

/-- `OpenGLES2Context::setBlendMode(Blending::Source, Blending::Destination)`. -/
def setBlendModeSD (s : OpenGLES2Context) (source destination : Nat) : OpenGLES2Context :=
  let s :=
    if (source ||| destination) ≠ s._currentBlendMode then
      let s := { s with _currentBlendMode := source ||| destination }
      emit s (.glBlendFunc (source &&& 0x00ff) (destination &&& 0xff00))
    else s
  checkForErrors s

/-- `OpenGLES2Context::setBlendMode(Blending::Mode)`. -/
def setBlendMode (s : OpenGLES2Context) (blendMode : Nat) : OpenGLES2Context :=
  let s :=
    if blendMode ≠ s._currentBlendMode then
      let s := { s with _currentBlendMode := blendMode }
      emit s (.glBlendFunc (blendMode &&& 0x00ff) (blendMode &&& 0xff00))
    else s
  checkForErrors s

/-- `OpenGLES2Context::setDepthTest`. -/
def setDepthTest (s : OpenGLES2Context) (depthMask : Bool) (depthFunc : CompareMode) :
    OpenGLES2Context :=
  let s :=
    if depthMask ≠ s._currentDepthMask ∨ depthFunc ≠ s._currentDepthFunc then
      let s := { s with _currentDepthMask := depthMask, _currentDepthFunc := depthFunc }
      let s := emit s (.glDepthMask depthMask)
      emit s (.glDepthFunc depthFunc)
    else s
  checkForErrors s

/-- `OpenGLES2Context::setColorMask`. -/
def setColorMask (s : OpenGLES2Context) (colorMask : Bool) : OpenGLES2Context :=
  let s :=
    if s._currentColorMask ≠ colorMask then
      let s := { s with _currentColorMask := colorMask }
      emit s (.glColorMask colorMask)
    else s
  checkForErrors s

/-- `OpenGLES2Context::setStencilTest`, in a build without `MINKO_NO_STENCIL`. -/
def setStencilTest (s : OpenGLES2Context) (stencilFunc : CompareMode) (stencilRef : Int)
    (stencilMask : Nat) (stencilFailOp stencilZFailOp stencilZPassOp : StencilOperation) :
    OpenGLES2Context :=
  let s :=
    if stencilFunc ≠ s._currentStencilFunc ∨ stencilRef ≠ s._currentStencilRef
        ∨ stencilMask ≠ s._currentStencilMask then
      let s := { s with
        _currentStencilFunc := stencilFunc,
        _currentStencilRef := stencilRef,
        _currentStencilMask := stencilMask }
      emit s (.glStencilFunc stencilFunc stencilRef stencilMask)
    else s
  let s := checkForErrors s
  let s :=
    if stencilFailOp ≠ s._currentStencilFailOp ∨ stencilZFailOp ≠ s._currentStencilZFailOp
        ∨ stencilZPassOp ≠ s._currentStencilZPassOp then
      let s := { s with
        _currentStencilFailOp := stencilFailOp,
        _currentStencilZFailOp := stencilZFailOp,
        _currentStencilZPassOp := stencilZPassOp }
      emit s (.glStencilOp stencilFailOp stencilZFailOp stencilZPassOp)
    else s
  checkForErrors s

/-- `OpenGLES2Context::setTriangleCulling`. -/
def setTriangleCulling (s : OpenGLES2Context) (triangleCulling : TriangleCulling) :
    OpenGLES2Context :=
  if triangleCulling = s._currentTriangleCulling then s
  else
    let s := if s._currentTriangleCulling = TriangleCulling.NONE then emit s (.glEnable .CULL_FACE) else s
    let s := { s with _currentTriangleCulling := triangleCulling }
    let s :=
      match triangleCulling with
      | .NONE => emit s (.glDisable .CULL_FACE)
      | .BACK => emit s (.glCullFace .BACK)
      | .FRONT => emit s (.glCullFace .FRONT)
      | .BOTH => emit s (.glCullFace .FRONT_AND_BACK)
    checkForErrors s

/-- `OpenGLES2Context::setRenderToBackBuffer`. -/
def setRenderToBackBuffer (s : OpenGLES2Context) : OpenGLES2Context :=
  if s._currentTarget = 0 then s
  else
    let s := emit s (.glBindFramebuffer 0)
    let s := emit s (.glBindRenderbuffer 0)
    let s := emit s (.glViewport s._viewportX s._viewportY s._viewportWidth s._viewportHeight)
    let s := { s with _currentTarget := 0 }
    checkForErrors s

/-- `OpenGLES2Context::setRenderToTexture`. -/
def setRenderToTexture (s : OpenGLES2Context) (texture : Nat) (enableDepthAndStencil : Bool) :
    Except (Failure × OpenGLES2Context) OpenGLES2Context :=
  if texture = s._currentTarget then .ok s
  else if ¬ StdMap.contains s._frameBuffers texture then
    .error (.logic_error "this texture cannot be used for RTT", s)
  else
    let s := { s with _currentTarget := texture }
    let s := emit s (.glBindFramebuffer (StdMap.index s._frameBuffers texture 0))
    let s := checkForErrors s
    let s :=
      if enableDepthAndStencil then
        let s := emit s (.glBindRenderbuffer (StdMap.index s._renderBuffers texture 0))
        { s with _renderBuffers := StdMap.touch s._renderBuffers texture 0 }
      else s
    let s := checkForErrors s
    let textureSize := StdMap.index s._textureSizes texture (0, 0)
    let s := { s with _textureSizes := StdMap.touch s._textureSizes texture (0, 0) }
    let s := emit s (.glViewport 0 0 textureSize.1 textureSize.2)
    .ok (checkForErrors s)

/-- The constructor `OpenGLES2Context::OpenGLES2Context`. `DEFAULT` is the value
of `Blending::Mode::DEFAULT` (declared in `Blending.hpp`, not among the sources)
and `viewport` is what `glGetIntegerv(GL_VIEWPORT)` answers. -/
def create (DEFAULT : Nat) (viewport : Nat × Nat × Nat × Nat) : OpenGLES2Context :=
  let s : OpenGLES2Context :=
    { _errorsEnabled := false
      _vertexBuffers := []
      _indexBuffers := []
      _textures := []
      _programs := []
      _vertexShaders := []
      _fragmentShaders := []
      _textureSizes := []
      _textureHasMipmaps := []
      _frameBuffers := []
      _renderBuffers := []
      _viewportX := 0
      _viewportY := 0
      _viewportWidth := 0
      _viewportHeight := 0
      _currentTarget := 0
      _currentIndexBuffer := 0
      _currentVertexBuffer := List.replicate 8 0
      _currentVertexSize := List.replicate 8 minusOne
      _currentVertexStride := List.replicate 8 minusOne
      _currentVertexOffset := List.replicate 8 minusOne
      _currentTexture := List.replicate 8 0
      _currentProgram := 0
      _currentTriangleCulling := TriangleCulling.BACK
      _currentWrapMode := []
      _currentTextureFilter := []
      _currentMipFilter := []
      _currentBlendMode := DEFAULT
      _currentColorMask := true
      _currentDepthMask := true
      _currentDepthFunc := CompareMode.UNSET
      _currentStencilFunc := CompareMode.UNSET
      _currentStencilRef := 0
      _currentStencilMask := 0x1
      _currentStencilFailOp := StencilOperation.UNSET
      _currentStencilZFailOp := StencilOperation.UNSET
      _currentStencilZPassOp := StencilOperation.UNSET
      gl := [] }
  let s := emit s (.glEnable .DEPTH_TEST)
  let s := emit s (.glEnable .STENCIL_TEST)
  let s := emit s (.glEnable .BLEND)
  let s := emit s (.glEnable .CULL_FACE)
  let s := emit s (.glCullFace .BACK)
  let s := emit s .glFrontFaceCCW
  let s := emit s .glGetString
  let s := emit s .glGetString
  let s := emit s .glGetString
  let s := emit s .glGetIntegervViewport
  let s := { s with
    _viewportX := viewport.1,
    _viewportY := viewport.2.1,
    _viewportWidth := viewport.2.2.1,
    _viewportHeight := viewport.2.2.2 }
  let s := setColorMask s true
  let s := setDepthTest s true CompareMode.LESS
  setStencilTest s CompareMode.ALWAYS 0 0x1 StencilOperation.KEEP StencilOperation.KEEP StencilOperation.KEEP

/-- The arguments of a `glViewport` call. -/
def viewportArgs : GLCall → Option (Nat × Nat × Nat × Nat)
  | .glViewport x y w h => some (x, y, w, h)
  | _ => none

/-- The arguments of the most recent `glViewport` call of a log. -/
def lastViewport (log : List GLCall) : Option (Nat × Nat × Nat × Nat) :=
  (log.filterMap viewportArgs).getLast?

/-- Whether a call is `glBlendFunc`. -/
def isBlendFunc : GLCall → Bool
  | .glBlendFunc _ _ => true
  | _ => false

/-- Whether a call binds a texture to a unit: `glActiveTexture` or `glBindTexture`. -/
def isTextureBind : GLCall → Bool
  | .glActiveTexture _ => true
  | .glBindTexture _ => true
  | _ => false

end OpenGLES2Context

end render
end minko

namespace minko
namespace render

/-! ## Collaborators of the draw-call binder

`DrawCall.cpp` reads program inputs, data containers, GPU resources and render
states through headers that are not among the sources. They are modelled here
from the data model of the specification and from the way `DrawCall.cpp` uses
them. -/

/-- The semantic types `ProgramInputs::Type` named in `DrawCall.cpp` and
`OpenGLES2Context::fillUniformInputs`. -/
inductive InputType
  | unknown | int1 | int2 | int3 | int4
  | float1 | float2 | float3 | float4 | float9 | float16
  | sampler2d | attribute
  deriving DecidableEq, Repr

/-- One program input: name, semantic type, hardware location. -/
structure ProgramInput where
  name : String
  type : InputType
  location : Int
  deriving DecidableEq, Repr

/-- Modelled from the spec: `ProgramInputs` (header not among the sources) is the
ordered list of (name, semantic type, hardware location) introspected from a
program, queried by name. -/
structure ProgramInputs where
  inputs : List ProgramInput
  deriving DecidableEq, Repr

namespace ProgramInputs

/-- `ProgramInputs::names()`: the input names in declaration order. -/
def names (p : ProgramInputs) : List String := p.inputs.map (fun i => i.name)

/-- The first input declared under `name`. -/
def lookup (p : ProgramInputs) (name : String) : Option ProgramInput :=
  p.inputs.find? (fun i => decide (i.name = name))

/-- `ProgramInputs::hasName(name)`. -/
def hasName (p : ProgramInputs) (name : String) : Bool := (p.lookup name).isSome

/-- `ProgramInputs::type(name)`; an undeclared name has type `unknown`. -/
def type (p : ProgramInputs) (name : String) : InputType :=
  match p.lookup name with
  | some i => i.type
  | none => InputType.unknown

/-- `ProgramInputs::location(name)`; an undeclared name has location `-1`. -/
def location (p : ProgramInputs) (name : String) : Int :=
  match p.lookup name with
  | some i => i.location
  | none => -1

end ProgramInputs

/-- A `Program`: its id and its inputs (`inputs()` may be null). -/
structure Program where
  id : Nat
  inputs : Option ProgramInputs
  deriving DecidableEq, Repr

/-- An `IndexBuffer`: its id and `data().size()`. -/
structure IndexBuffer where
  id : Int
  numIndices : Nat
  deriving DecidableEq, Repr

/-- One vertex attribute `std::tuple<name, size, offset>` of a vertex buffer. -/
structure VertexAttribute where
  name : String
  size : Int
  offset : Int
  deriving DecidableEq, Repr

/-- A `VertexBuffer`: its id, `vertexSize()` and its attributes. -/
structure VertexBuffer where
  id : Int
  vertexSize : Int
  vertexAttributes : List VertexAttribute
  deriving DecidableEq, Repr

/-- Modelled from the spec: `VertexBuffer::attribute(name)` (header not among the
sources) finds the attribute declared under `name`; `none` stands for the
exception it raises when there is none. -/
def VertexBuffer.attribute (vb : VertexBuffer) (name : String) : Option VertexAttribute :=
  vb.vertexAttributes.find? (fun a => decide (a.name = name))

/-- A `Texture`: its id and whether it has been realized on the hardware. -/
structure Texture where
  id : Int
  isReady : Bool
  deriving DecidableEq, Repr

/-- Modelled from the spec: `Texture::upload()` (header not among the sources)
realizes the texture on the hardware; afterwards the texture is ready. The id
the context gives it is not modelled. -/
def Texture.upload (t : Texture) : Texture := { t with isReady := true }

/-- The values a data container holds. A `float` is its bit pattern; vectors and
matrices are the address of the shared object, which is what the draw call
stores. -/
inductive Value
  | indexBuffer (b : IndexBuffer)
  | vertexBuffer (b : VertexBuffer)
  | texture (t : Texture)
  | float (bits : Nat)
  | vector2 (ptr : Nat)
  | vector3 (ptr : Nat)
  | vector4 (ptr : Nat)
  | matrix4x4 (ptr : Nat)
  | blendingMode (mode : Nat)
  | bool (b : Bool)
  | compareMode (c : CompareMode)
  | triangleCulling (t : TriangleCulling)
  deriving DecidableEq, Repr

/-- Modelled from the spec: a `data::Container` (header not among the sources) is
a key to value store queried by dotted name. -/
structure Container where
  properties : StdMap String Value
  deriving DecidableEq, Repr

/-- `Container::hasProperty(name)`. -/
def Container.hasProperty (c : Container) (name : String) : Bool :=
  StdMap.contains c.properties name

/-- `Container::get(name)`; `none` stands for the exception raised on a missing property. -/
def Container.get (c : Container) (name : String) : Option Value :=
  StdMap.find? c.properties name

/-- The `States` of a pass, through the accessors `DrawCall.cpp` calls. -/
structure States where
  blendingSourceFactor : Nat
  blendingDestinationFactor : Nat
  depthMask : Bool
  depthFun : CompareMode
  triangleCulling : TriangleCulling
  target : Option Texture
  samplers : StdMap String SamplerState
  deriving DecidableEq, Repr

/-! ## The draw call -/

/-- The member variables of `DrawCall`. The ten slot vectors have
`MAX_NUM_TEXTURES` / `MAX_NUM_VERTEXBUFFERS` entries. `_data` and `_rootData` are
read only after `bind` has assigned them. -/
structure DrawCall where
  _attributeBindings : StdMap String String
  _uniformBindings : StdMap String String
  _stateBindings : StdMap String String
  _states : States
  _program : Option Program
  _data : Container
  _rootData : Container
  _indexBuffer : Int
  _numIndices : Nat
  _textures : List Int
  _textureLocations : List Int
  _textureWrapMode : List WrapMode
  _textureFilters : List TextureFilter
  _textureMipFilters : List MipFilter
  _vertexBuffers : List Int
  _vertexBufferLocations : List Int
  _vertexSizes : List Int
  _vertexAttributeSizes : List Int
  _vertexAttributeOffsets : List Int
  _uniformFloat : StdMap Int Nat
  _uniformFloat2 : StdMap Int Nat
  _uniformFloat3 : StdMap Int Nat
  _uniformFloat4 : StdMap Int Nat
  _uniformFloat16 : StdMap Int Nat
  _blendMode : Nat
  _depthMask : Bool
  _depthFunc : CompareMode
  _triangleCulling : TriangleCulling
  _target : Option Texture
  deriving DecidableEq, Repr

namespace DrawCall

/-- `DrawCall::_defaultSamplerState`. -/
def _defaultSamplerState : SamplerState := (WrapMode.CLAMP, TextureFilter.NEAREST, MipFilter.NONE)

/-- `DrawCall::MAX_NUM_TEXTURES`. -/
def MAX_NUM_TEXTURES : Nat := 8

/-- `DrawCall::MAX_NUM_VERTEXBUFFERS`. -/
def MAX_NUM_VERTEXBUFFERS : Nat := 8

/-- What a member function of `DrawCall` ends with: the draw call it leaves, or
a failure together with the draw call at the point of failure. -/
abbrev Outcome (α : Type) := Except (Failure × DrawCall) α

/-- `DrawCall::dataHasProperty`. -/
def dataHasProperty (dc : DrawCall) (propertyName : String) : Bool :=
  dc._data.hasProperty propertyName || dc._rootData.hasProperty propertyName

/-- Modelled from the spec: `DrawCall::getDataProperty<T>(name)` (a template of
the header `DrawCall.hpp`, not among the sources) queries the local container,
then the global one; `none` stands for the exception raised when the property
is in neither. -/
def getDataProperty (dc : DrawCall) (propertyName : String) : Option Value :=
  if dc._data.hasProperty propertyName then dc._data.get propertyName
  else dc._rootData.get propertyName

/-- Modelled from the spec: `DrawCall::getDataProperty<T>(name, defaultValue)`
(same header) is the same lookup, falling back to the caller-supplied default
when the property is in neither container. -/
def getDataPropertyOr (dc : DrawCall) (propertyName : String) (defaultValue : Value) :
    Option Value :=
  if dataHasProperty dc propertyName then getDataProperty dc propertyName
  else some defaultValue

/-- The name an override map gives to `name`, else `name` itself:
`found != end ? found->second : name`. -/
def resolve (bindings : StdMap String String) (name : String) : String :=
  match StdMap.find? bindings name with
  | some propertyName => propertyName
  | none => name

/-- `std::string::find_last_of(c)`: the index of the last occurrence of `c`,
`none` standing for `npos`. -/
def find_last_of (s : List Char) (c : Char) : Option Nat :=
  let fromEnd := s.reverse.indexOf c
  if fromEnd < s.length then some (s.length - 1 - fromEnd) else none

/-- The attribute name `propertyName.substr(propertyName.find_last_of('.') + 1)`;
`npos + 1` wraps to `0`. -/
def attributeNameOf (propertyName : String) : String :=
  match find_last_of propertyName.data '.' with
  | some i => String.mk (propertyName.data.drop (i + 1))
  | none => String.mk (propertyName.data.drop 0)

/-- `DrawCall::reset`. -/
def reset (dc : DrawCall) : DrawCall :=
  { dc with
    _target := none,
    _uniformFloat := [],
    _uniformFloat2 := [],
    _uniformFloat3 := [],
    _uniformFloat4 := [],
    _uniformFloat16 := [],
    _textures := List.replicate MAX_NUM_TEXTURES (-1),
    _textureLocations := List.replicate MAX_NUM_TEXTURES (-1),
    _textureWrapMode := List.replicate MAX_NUM_TEXTURES WrapMode.CLAMP,
    _textureFilters := List.replicate MAX_NUM_TEXTURES TextureFilter.NEAREST,
    _textureMipFilters := List.replicate MAX_NUM_TEXTURES MipFilter.NONE,
    _vertexBuffers := List.replicate MAX_NUM_VERTEXBUFFERS (-1),
    _vertexBufferLocations := List.replicate MAX_NUM_VERTEXBUFFERS (-1),
    _vertexSizes := List.replicate MAX_NUM_VERTEXBUFFERS (-1),
    _vertexAttributeSizes := List.replicate MAX_NUM_VERTEXBUFFERS (-1),
    _vertexAttributeOffsets := List.replicate MAX_NUM_VERTEXBUFFERS (-1) }

/-- `DrawCall::bindVertexAttribute`. `DEBUG` is whether the build defines
`DEBUG`; without it a slot index past the end of the vectors is written out of
bounds, which is reported as `write_out_of_bounds`. -/
def bindVertexAttribute (DEBUG : Bool) (dc : DrawCall) (name : String) (vertexBufferId : Nat) :
    Outcome DrawCall :=
  if DEBUG ∧ vertexBufferId ≥ MAX_NUM_VERTEXBUFFERS then
    .error (.invalid_argument "vertexBufferId", dc)
  else
    match dc._program with
    | none => .ok dc
    | some program =>
      match program.inputs with
      | none => .error (.null_dereference, dc)
      | some inputs =>
        let location := inputs.location name
        if location < 0 then .ok dc
        else
          let propertyName := resolve dc._attributeBindings name
          if ¬ dataHasProperty dc propertyName then .ok dc
          else
            match getDataProperty dc propertyName with
            | none => .error (.missing_property propertyName, dc)
            | some (.vertexBuffer vertexBuffer) =>
              let attributeName := attributeNameOf propertyName
              match vertexBuffer.attribute attributeName with
              | none => .error (.missing_attribute attributeName, dc)
              | some attr =>
                if vertexBufferId ≥ MAX_NUM_VERTEXBUFFERS then
                  .error (.write_out_of_bounds vertexBufferId, dc)
                else
                  .ok { dc with
                    _vertexBuffers := dc._vertexBuffers.set vertexBufferId vertexBuffer.id,
                    _vertexBufferLocations := dc._vertexBufferLocations.set vertexBufferId location,
                    _vertexAttributeSizes := dc._vertexAttributeSizes.set vertexBufferId attr.size,
                    _vertexSizes := dc._vertexSizes.set vertexBufferId vertexBuffer.vertexSize,
                    _vertexAttributeOffsets :=
                      dc._vertexAttributeOffsets.set vertexBufferId attr.offset }
            | some _ => .error (.bad_cast propertyName, dc)

/-- `DrawCall::bindTextureSampler2D`. -/
def bindTextureSampler2D (DEBUG : Bool) (dc : DrawCall) (name : String) (textureId : Nat) :
    Outcome DrawCall :=
  if DEBUG ∧ textureId ≥ MAX_NUM_TEXTURES then
    .error (.invalid_argument "textureId", dc)
  else
    match dc._program with
    | none => .ok dc
    | some program =>
      match program.inputs with
      | none => .error (.null_dereference, dc)
      | some inputs =>
        let location := inputs.location name
        if location < 0 then .ok dc
        else
          let propertyName := resolve dc._uniformBindings name
          match getDataProperty dc propertyName with
          | none => .error (.missing_property propertyName, dc)
          | some (.texture t) =>
            let texture := t.id
            let samplerState :=
              if StdMap.contains dc._states.samplers name
              then StdMap.index dc._states.samplers name _defaultSamplerState
              else _defaultSamplerState
            if textureId ≥ MAX_NUM_TEXTURES then
              .error (.write_out_of_bounds textureId, dc)
            else
              .ok { dc with
                _textures := dc._textures.set textureId texture,
                _textureLocations := dc._textureLocations.set textureId location,
                _textureWrapMode := dc._textureWrapMode.set textureId samplerState.1,
                _textureFilters := dc._textureFilters.set textureId samplerState.2.1,
                _textureMipFilters := dc._textureMipFilters.set textureId samplerState.2.2 }
          | some _ => .error (.bad_cast propertyName, dc)

/-- `DrawCall::bindUniform`. -/
def bindUniform (DEBUG : Bool) (dc : DrawCall) (name : String) : Outcome DrawCall :=
  match dc._program with
  | none => .ok dc
  | some program =>
    match program.inputs with
    | none => .error (.null_dereference, dc)
    | some inputs =>
      let type := inputs.type name
      let location := inputs.location name
      if type = InputType.unknown ∨ location < 0 then .ok dc
      else if DEBUG ∧ (type = InputType.sampler2d ∨ type = InputType.attribute) then
        .error (.rethrow_without_exception, dc)
      else
        let propertyName := resolve dc._uniformBindings name
        if ¬ dataHasProperty dc propertyName then .ok dc
        else
          match type, getDataProperty dc propertyName with
          | _, none => .error (.missing_property propertyName, dc)
          | .float1, some (.float v) =>
            .ok { dc with _uniformFloat := StdMap.insert dc._uniformFloat location v }
          | .float2, some (.vector2 v) =>
            .ok { dc with _uniformFloat2 := StdMap.insert dc._uniformFloat2 location v }
          | .float3, some (.vector3 v) =>
            .ok { dc with _uniformFloat3 := StdMap.insert dc._uniformFloat3 location v }
          | .float4, some (.vector4 v) =>
            .ok { dc with _uniformFloat4 := StdMap.insert dc._uniformFloat4 location v }
          | .float16, some (.matrix4x4 v) =>
            .ok { dc with _uniformFloat16 := StdMap.insert dc._uniformFloat16 location v }
          | .float1, some _ => .error (.bad_cast propertyName, dc)
          | .float2, some _ => .error (.bad_cast propertyName, dc)
          | .float3, some _ => .error (.bad_cast propertyName, dc)
          | .float4, some _ => .error (.bad_cast propertyName, dc)
          | .float16, some _ => .error (.bad_cast propertyName, dc)
          | _, some _ => .error (.logic_error "unsupported uniform type.", dc)

/-- `DrawCall::bindProperty`: the type of the input and the draw call after binding it. -/
def bindProperty (DEBUG : Bool) (dc : DrawCall) (name : String)
    (vertexBufferId textureId : Nat) : Outcome (InputType × DrawCall) :=
  match dc._program with
  | none => .ok (InputType.unknown, dc)
  | some program =>
    match program.inputs with
    | none => .error (.null_dereference, dc)
    | some inputs =>
      if ¬ inputs.hasName name then .ok (InputType.unknown, dc)
      else
        let type := inputs.type name
        match type with
        | .attribute =>
          match bindVertexAttribute DEBUG dc name vertexBufferId with
          | .error e => .error e
          | .ok dc => .ok (type, dc)
        | .sampler2d =>
          match bindTextureSampler2D DEBUG dc name textureId with
          | .error e => .error e
          | .ok dc => .ok (type, dc)
        | .unknown => .ok (type, dc)
        | _ =>
          match bindUniform DEBUG dc name with
          | .error e => .error e
          | .ok dc => .ok (type, dc)

/-- The loop of `DrawCall::bind` over the input names, with its two counters. -/
def bindInputs (DEBUG : Bool) : List String → DrawCall → Nat → Nat → Outcome DrawCall
  | [], dc, _, _ => .ok dc
  | name :: rest, dc, numVertexBuffers, numTextures =>
    match bindProperty DEBUG dc name numVertexBuffers numTextures with
    | .error e => .error e
    | .ok (type, dc) =>
      if type = InputType.attribute then
        bindInputs DEBUG rest dc (numVertexBuffers + 1) numTextures
      else if type = InputType.sampler2d then
        bindInputs DEBUG rest dc numVertexBuffers (numTextures + 1)
      else
        bindInputs DEBUG rest dc numVertexBuffers numTextures

/-- `DrawCall::bindStates`. -/
def bindStates (dc : DrawCall) : Outcome DrawCall :=
  let blendName :=
    if StdMap.contains dc._stateBindings "blendMode"
    then StdMap.index dc._stateBindings "blendMode" "" else "blendMode"
  match getDataPropertyOr dc blendName
      (.blendingMode (dc._states.blendingSourceFactor ||| dc._states.blendingDestinationFactor)) with
  | some (.blendingMode blendMode) =>
    let dc := { dc with _blendMode := blendMode }
    let depthMaskName :=
      if StdMap.contains dc._stateBindings "depthMask"
      then StdMap.index dc._stateBindings "depthMask" "" else "depthMask"
    match getDataPropertyOr dc depthMaskName (.bool dc._states.depthMask) with
    | some (.bool depthMask) =>
      let dc := { dc with _depthMask := depthMask }
      let depthFuncName :=
        if StdMap.contains dc._stateBindings "depthFunc"
        then StdMap.index dc._stateBindings "depthFunc" "" else "depthFunc"
      match getDataPropertyOr dc depthFuncName (.compareMode dc._states.depthFun) with
      | some (.compareMode depthFunc) =>
        let dc := { dc with _depthFunc := depthFunc }
        let cullingName :=
          if StdMap.contains dc._stateBindings "triangleCulling"
          then StdMap.index dc._stateBindings "triangleCulling" "" else "triangleCulling"
        match getDataPropertyOr dc cullingName (.triangleCulling dc._states.triangleCulling) with
        | some (.triangleCulling triangleCulling) =>
          let dc := { dc with _triangleCulling := triangleCulling }
          let targetName :=
            if StdMap.contains dc._stateBindings "target"
            then StdMap.index dc._stateBindings "target" "" else "target"
          if dataHasProperty dc targetName then
            match getDataProperty dc targetName with
            | some (.texture target) =>
              .ok { dc with _target := some (if ¬ target.isReady then target.upload else target) }
            | some _ => .error (.bad_cast targetName, dc)
            | none => .error (.missing_property targetName, dc)
          else
            match dc._states.target with
            | some target =>
              .ok { dc with _target := some (if ¬ target.isReady then target.upload else target) }
            | none => .ok { dc with _target := none }
        | some _ => .error (.bad_cast cullingName, dc)
        | none => .error (.missing_property cullingName, dc)
      | some _ => .error (.bad_cast depthFuncName, dc)
      | none => .error (.missing_property depthFuncName, dc)
    | some _ => .error (.bad_cast depthMaskName, dc)
    | none => .error (.missing_property depthMaskName, dc)
  | some _ => .error (.bad_cast blendName, dc)
  | none => .error (.missing_property blendName, dc)

/-- `DrawCall::bind`. -/
def bind (DEBUG : Bool) (dc : DrawCall) (data rootData : Container) : Outcome DrawCall :=
  let dc := reset dc
  let dc := { dc with _data := data, _rootData := rootData }
  match getDataProperty dc "geometry.indices" with
  | none => .error (.missing_property "geometry.indices", dc)
  | some (.indexBuffer indexBuffer) =>
    let dc := { dc with _indexBuffer := indexBuffer.id, _numIndices := indexBuffer.numIndices }
    match dc._program with
    | none => .error (.null_dereference, dc)
    | some program =>
      match program.inputs with
      | none => .error (.rethrow_without_exception, dc)
      | some programInputs =>
        match bindInputs DEBUG programInputs.names dc 0 0 with
        | .error e => .error e
        | .ok dc => bindStates dc
  | some _ => .error (.bad_cast "geometry.indices", dc)

/-- `DrawCall::configure`. -/
def configure (DEBUG : Bool) (dc : DrawCall) (program : Program) (data rootData : Container) :
    Outcome DrawCall :=
  let dc := { dc with _program := some program }
  bind DEBUG dc data rootData

/-- The constructor `DrawCall::DrawCall`. The members it leaves uninitialized
(`_indexBuffer`, `_numIndices` and the four state values) and the null
containers are given fixed values here. -/
def create (attributeBindings uniformBindings stateBindings : StdMap String String)
    (states : States) : DrawCall :=
  { _attributeBindings := attributeBindings
    _uniformBindings := uniformBindings
    _stateBindings := stateBindings
    _states := states
    _program := none
    _data := { properties := [] }
    _rootData := { properties := [] }
    _indexBuffer := 0
    _numIndices := 0
    _textures := List.replicate MAX_NUM_TEXTURES (-1)
    _textureLocations := List.replicate MAX_NUM_TEXTURES (-1)
    _textureWrapMode := List.replicate MAX_NUM_TEXTURES WrapMode.CLAMP
    _textureFilters := List.replicate MAX_NUM_TEXTURES TextureFilter.NEAREST
    _textureMipFilters := List.replicate MAX_NUM_TEXTURES MipFilter.NONE
    _vertexBuffers := List.replicate MAX_NUM_VERTEXBUFFERS (-1)
    _vertexBufferLocations := List.replicate MAX_NUM_VERTEXBUFFERS (-1)
    _vertexSizes := List.replicate MAX_NUM_VERTEXBUFFERS (-1)
    _vertexAttributeSizes := List.replicate MAX_NUM_VERTEXBUFFERS (-1)
    _vertexAttributeOffsets := List.replicate MAX_NUM_VERTEXBUFFERS (-1)
    _uniformFloat := []
    _uniformFloat2 := []
    _uniformFloat3 := []
    _uniformFloat4 := []
    _uniformFloat16 := []
    _blendMode := 0
    _depthMask := false
    _depthFunc := CompareMode.UNSET
    _triangleCulling := TriangleCulling.NONE
    _target := none }

end DrawCall

end render
end minko

namespace minko
namespace render

/-! ## Concrete inputs used by the evaluations -/

namespace OpenGLES2Context

/-- The context of the concrete evaluations: a fresh context in which texture 1
(4 x 4, no mip maps, with offscreen buffers 1 and 1) has been created. -/
def sampleContext : OpenGLES2Context :=
  match createTexture (create 258 (0, 0, 640, 480)) 4 4 false true 1 1 1 true with
  | .ok r => r.2
  | .error e => e.2

end OpenGLES2Context

namespace DrawCall

/-- A program with the inputs attribute "position", sampler "uDiffuseMap" and
float4 uniform "uColor". -/
def sampleProgram : Program :=
  { id := 3, inputs := some { inputs := [
      { name := "position", type := InputType.attribute, location := 0 },
      { name := "uDiffuseMap", type := InputType.sampler2d, location := 1 },
      { name := "uColor", type := InputType.float4, location := 2 } ] } }

/-- Render states with no sampler override and no target. -/
def sampleStates : States :=
  { blendingSourceFactor := 2, blendingDestinationFactor := 256, depthMask := true,
    depthFun := CompareMode.LESS, triangleCulling := TriangleCulling.BACK, target := none,
    samplers := [] }

/-- A local container supplying the index buffer and the three inputs of `sampleProgram`. -/
def sampleLocal : Container :=
  { properties := [
      ("geometry.indices", Value.indexBuffer { id := 7, numIndices := 36 }),
      ("position", Value.vertexBuffer { id := 11, vertexSize := 5, vertexAttributes := [{ name := "position", size := 3, offset := 0 }, { name := "uv", size := 2, offset := 3 }] }),
      ("uDiffuseMap", Value.texture { id := 21, isReady := true }),
      ("uColor", Value.vector4 4096) ] }

/-- The local container of `sampleLocal` without "uColor". -/
def sampleLocalNoColor : Container :=
  { properties := [
      ("geometry.indices", Value.indexBuffer { id := 7, numIndices := 36 }),
      ("position", Value.vertexBuffer { id := 11, vertexSize := 5, vertexAttributes := [{ name := "position", size := 3, offset := 0 }, { name := "uv", size := 2, offset := 3 }] }),
      ("uDiffuseMap", Value.texture { id := 21, isReady := true }) ] }

/-- A container with no property. -/
def emptyContainer : Container := { properties := [] }

/-- A never-configured draw call with identity bindings. -/
def sampleDrawCall : DrawCall := create [] [] [] sampleStates

/-- The draw call `sampleDrawCall` after a successful `configure` on the sample inputs. -/
def sampleConfigured : DrawCall :=
  match configure false sampleDrawCall sampleProgram sampleLocal emptyContainer with
  | .ok dc => dc
  | .error e => e.2

/-- The draw call with its four state values replaced. -/
def withStateValues (dc : DrawCall) (b : Nat) (m : Bool) (f : CompareMode)
    (c : TriangleCulling) : DrawCall :=
  { dc with _blendMode := b, _depthMask := m, _depthFunc := f, _triangleCulling := c }

/-- Apply a change of draw call to whatever draw call an outcome carries. -/
def mapOutcome (g : DrawCall → DrawCall) : Outcome DrawCall → Outcome DrawCall
  | .ok dc => .ok (g dc)
  | .error (e, dc) => .error (e, g dc)

end DrawCall

namespace DrawCall

/-- Whether a semantic type is one of float1, float2, float3, float4, float16. -/
def isFloatUniform : InputType → Bool
  | .float1 => true
  | .float2 => true
  | .float3 => true
  | .float4 => true
  | .float16 => true
  | _ => false

/-- The sampler state `bindTextureSampler2D` uses for the input `name`: the
override the `States` register under that name, else `_defaultSamplerState`. -/
def samplerStateOf (states : States) (name : String) : SamplerState :=
  if StdMap.contains states.samplers name
  then StdMap.index states.samplers name _defaultSamplerState
  else _defaultSamplerState

/-- What one returning call `bindProperty(n, k, j)` has done to the draw call
`dc`, case by case: nothing, one attribute slot written, one texture slot
written, or one entry stored in a uniform map. -/
inductive BindStep (inputs : ProgramInputs) (dc : DrawCall) (n : String) (k j : Nat) :
    DrawCall → Prop
  | skips
      (h : inputs.hasName n = false ∨ inputs.type n = InputType.unknown
        ∨ inputs.location n < 0
        ∨ (inputs.type n = InputType.attribute
            ∧ dataHasProperty dc (resolve dc._attributeBindings n) = false)
        ∨ (inputs.type n ≠ InputType.attribute ∧ inputs.type n ≠ InputType.sampler2d
            ∧ dataHasProperty dc (resolve dc._uniformBindings n) = false)) :
      BindStep inputs dc n k j dc
  | bindsAttribute (vb : VertexBuffer) (a : VertexAttribute)
      (ht : inputs.type n = InputType.attribute) (hl : 0 ≤ inputs.location n)
      (hh : dataHasProperty dc (resolve dc._attributeBindings n) = true)
      (hv : getDataProperty dc (resolve dc._attributeBindings n) = some (Value.vertexBuffer vb))
      (ha : vb.attribute (attributeNameOf (resolve dc._attributeBindings n)) = some a)
      (hk : k < MAX_NUM_VERTEXBUFFERS) :
      BindStep inputs dc n k j
        { dc with
          _vertexBuffers := dc._vertexBuffers.set k vb.id,
          _vertexBufferLocations := dc._vertexBufferLocations.set k (inputs.location n),
          _vertexAttributeSizes := dc._vertexAttributeSizes.set k a.size,
          _vertexSizes := dc._vertexSizes.set k vb.vertexSize,
          _vertexAttributeOffsets := dc._vertexAttributeOffsets.set k a.offset }
  | bindsSampler (t : Texture)
      (ht : inputs.type n = InputType.sampler2d) (hl : 0 ≤ inputs.location n)
      (hv : getDataProperty dc (resolve dc._uniformBindings n) = some (Value.texture t))
      (hj : j < MAX_NUM_TEXTURES) :
      BindStep inputs dc n k j
        { dc with
          _textures := dc._textures.set j t.id,
          _textureLocations := dc._textureLocations.set j (inputs.location n),
          _textureWrapMode := dc._textureWrapMode.set j (samplerStateOf dc._states n).1,
          _textureFilters := dc._textureFilters.set j (samplerStateOf dc._states n).2.1,
          _textureMipFilters := dc._textureMipFilters.set j (samplerStateOf dc._states n).2.2 }
  | bindsFloat1 (v : Nat)
      (ht : inputs.type n = InputType.float1) (hl : 0 ≤ inputs.location n)
      (hv : getDataProperty dc (resolve dc._uniformBindings n) = some (Value.float v)) :
      BindStep inputs dc n k j
        { dc with _uniformFloat := StdMap.insert dc._uniformFloat (inputs.location n) v }
  | bindsFloat2 (v : Nat)
      (ht : inputs.type n = InputType.float2) (hl : 0 ≤ inputs.location n)
      (hv : getDataProperty dc (resolve dc._uniformBindings n) = some (Value.vector2 v)) :
      BindStep inputs dc n k j
        { dc with _uniformFloat2 := StdMap.insert dc._uniformFloat2 (inputs.location n) v }
  | bindsFloat3 (v : Nat)
      (ht : inputs.type n = InputType.float3) (hl : 0 ≤ inputs.location n)
      (hv : getDataProperty dc (resolve dc._uniformBindings n) = some (Value.vector3 v)) :
      BindStep inputs dc n k j
        { dc with _uniformFloat3 := StdMap.insert dc._uniformFloat3 (inputs.location n) v }
  | bindsFloat4 (v : Nat)
      (ht : inputs.type n = InputType.float4) (hl : 0 ≤ inputs.location n)
      (hv : getDataProperty dc (resolve dc._uniformBindings n) = some (Value.vector4 v)) :
      BindStep inputs dc n k j
        { dc with _uniformFloat4 := StdMap.insert dc._uniformFloat4 (inputs.location n) v }
  | bindsFloat16 (v : Nat)
      (ht : inputs.type n = InputType.float16) (hl : 0 ≤ inputs.location n)
      (hv : getDataProperty dc (resolve dc._uniformBindings n) = some (Value.matrix4x4 v)) :
      BindStep inputs dc n k j
        { dc with _uniformFloat16 := StdMap.insert dc._uniformFloat16 (inputs.location n) v }

/-- The draw call `bind` hands to its input loop: reset, with the containers and
the index buffer assigned. -/
def prepared (dc : DrawCall) (program : Program) (data rootData : Container)
    (indexBuffer : IndexBuffer) : DrawCall :=
  { reset { dc with _program := some program } with
    _data := data,
    _rootData := rootData,
    _indexBuffer := indexBuffer.id,
    _numIndices := indexBuffer.numIndices }

end DrawCall

namespace DrawCall

/-- Two draw calls have the same binding maps, states, program and containers. -/
def sameEnvironment (a b : DrawCall) : Prop :=
  a._attributeBindings = b._attributeBindings ∧ a._uniformBindings = b._uniformBindings
    ∧ a._stateBindings = b._stateBindings ∧ a._states = b._states
    ∧ a._program = b._program ∧ a._data = b._data ∧ a._rootData = b._rootData

end DrawCall

namespace DrawCall

/-- The outcome of configuring the never-configured `sampleDrawCall` with the
local container that lacks "uColor". -/
def sampleReconfigured : DrawCall :=
  match configure false sampleDrawCall sampleProgram sampleLocalNoColor emptyContainer with
  | .ok dc => dc
  | .error e => e.2

end DrawCall

namespace DrawCall

/-- No uniform map of the draw call has an entry at `location`. -/
def noUniformAt (dc : DrawCall) (location : Int) : Prop :=
  StdMap.find? dc._uniformFloat location = none
    ∧ StdMap.find? dc._uniformFloat2 location = none
    ∧ StdMap.find? dc._uniformFloat3 location = none
    ∧ StdMap.find? dc._uniformFloat4 location = none
    ∧ StdMap.find? dc._uniformFloat16 location = none

end DrawCall

namespace DrawCall

/-- The names among `names` whose input is an attribute, in order. -/
def attributeInputsOf (inputs : ProgramInputs) (names : List String) : List String :=
  names.filter (fun n => decide (inputs.type n = InputType.attribute))

/-- The names among `names` whose input is a sampler2d, in order. -/
def samplerInputsOf (inputs : ProgramInputs) (names : List String) : List String :=
  names.filter (fun n => decide (inputs.type n = InputType.sampler2d))

/-- Attribute slot `i` holds the vertex buffer supplied for the input `n`: its
id, the input's location, the attribute's size, the vertex size and the
attribute's offset. -/
def attributeSlotHolds (inputs : ProgramInputs) (dc : DrawCall) (i : Nat) (n : String) : Prop :=
  ∃ vb a, getDataProperty dc (resolve dc._attributeBindings n) = some (Value.vertexBuffer vb)
    ∧ vb.attribute (attributeNameOf (resolve dc._attributeBindings n)) = some a
    ∧ dc._vertexBuffers[i]? = some vb.id
    ∧ dc._vertexBufferLocations[i]? = some (inputs.location n)
    ∧ dc._vertexAttributeSizes[i]? = some a.size
    ∧ dc._vertexSizes[i]? = some vb.vertexSize
    ∧ dc._vertexAttributeOffsets[i]? = some a.offset

/-- Texture slot `j` holds the texture supplied for the input `n`: its id, the
input's location and the sampler state `samplerStateOf` gives the input. -/
def textureSlotHolds (inputs : ProgramInputs) (dc : DrawCall) (j : Nat) (n : String) : Prop :=
  ∃ t, getDataProperty dc (resolve dc._uniformBindings n) = some (Value.texture t)
    ∧ dc._textures[j]? = some t.id
    ∧ dc._textureLocations[j]? = some (inputs.location n)
    ∧ dc._textureWrapMode[j]? = some (samplerStateOf dc._states n).1
    ∧ dc._textureFilters[j]? = some (samplerStateOf dc._states n).2.1
    ∧ dc._textureMipFilters[j]? = some (samplerStateOf dc._states n).2.2

/-- When the input `n` is a float1/2/3/4/16 uniform, the map of its type holds
the value supplied for it under the input's location. -/
def uniformHolds (inputs : ProgramInputs) (dc : DrawCall) (n : String) : Prop :=
  (inputs.type n = InputType.float1 →
      ∃ v, getDataProperty dc (resolve dc._uniformBindings n) = some (Value.float v)
        ∧ StdMap.find? dc._uniformFloat (inputs.location n) = some v)
    ∧ (inputs.type n = InputType.float2 →
      ∃ v, getDataProperty dc (resolve dc._uniformBindings n) = some (Value.vector2 v)
        ∧ StdMap.find? dc._uniformFloat2 (inputs.location n) = some v)
    ∧ (inputs.type n = InputType.float3 →
      ∃ v, getDataProperty dc (resolve dc._uniformBindings n) = some (Value.vector3 v)
        ∧ StdMap.find? dc._uniformFloat3 (inputs.location n) = some v)
    ∧ (inputs.type n = InputType.float4 →
      ∃ v, getDataProperty dc (resolve dc._uniformBindings n) = some (Value.vector4 v)
        ∧ StdMap.find? dc._uniformFloat4 (inputs.location n) = some v)
    ∧ (inputs.type n = InputType.float16 →
      ∃ v, getDataProperty dc (resolve dc._uniformBindings n) = some (Value.matrix4x4 v)
        ∧ StdMap.find? dc._uniformFloat16 (inputs.location n) = some v)

/-- The ten slot vectors have their 8 entries. -/
def slotVectorsSized (dc : DrawCall) : Prop :=
  dc._textures.length = 8 ∧ dc._textureLocations.length = 8
    ∧ dc._textureWrapMode.length = 8 ∧ dc._textureFilters.length = 8
    ∧ dc._textureMipFilters.length = 8
    ∧ dc._vertexBuffers.length = 8 ∧ dc._vertexBufferLocations.length = 8
    ∧ dc._vertexSizes.length = 8 ∧ dc._vertexAttributeSizes.length = 8
    ∧ dc._vertexAttributeOffsets.length = 8

/-- What the input loop of `bind` has established once the inputs `done` are
processed: the i-th attribute among them fills attribute slot i, the j-th
sampler fills texture slot j, the float uniforms are in their maps. -/
def boundSoFar (inputs : ProgramInputs) (done : List String) (dc : DrawCall) : Prop :=
  slotVectorsSized dc
    ∧ (∀ i n, (attributeInputsOf inputs done)[i]? = some n → attributeSlotHolds inputs dc i n)
    ∧ (∀ j n, (samplerInputsOf inputs done)[j]? = some n → textureSlotHolds inputs dc j n)
    ∧ (∀ n ∈ done, uniformHolds inputs dc n)

end DrawCall

namespace OpenGLES2Context

/-- An `int` read as a `uint`: the value modulo 2^32. -/
def asUInt (v : Int) : Nat := (v % 4294967296).toNat

/-- The enumerators of `WrapMode`, `TextureFilter` and `MipFilter` whose value
is 0 (the enum headers are not among the sources): what `operator[]` inserts
into the sampler-state maps for a texture that has no entry. -/
structure SamplerZero where
  wrap : WrapMode
  filter : TextureFilter
  mip : MipFilter
  deriving DecidableEq, Repr

/-- The `glTexParameteri` calls of the `switch (wrapping)` in `setSamplerStateAt`. -/
def wrapCalls : WrapMode → List GLCall
  | .CLAMP => [.glTexParameteri .WRAP_S_CLAMP_TO_EDGE, .glTexParameteri .WRAP_T_CLAMP_TO_EDGE]
  | .REPEAT => [.glTexParameteri .WRAP_S_REPEAT, .glTexParameteri .WRAP_T_REPEAT]

/-- The `glTexParameteri` calls of the `switch (filtering)` in `setSamplerStateAt`. -/
def filterCalls : TextureFilter → MipFilter → List GLCall
  | .NEAREST, .NONE => [.glTexParameteri .MIN_NEAREST, .glTexParameteri .MAG_NEAREST]
  | .NEAREST, .NEAREST =>
    [.glTexParameteri .MIN_NEAREST_MIPMAP_NEAREST, .glTexParameteri .MAG_NEAREST]
  | .NEAREST, .LINEAR =>
    [.glTexParameteri .MIN_NEAREST_MIPMAP_LINEAR, .glTexParameteri .MAG_NEAREST]
  | .LINEAR, .NONE => [.glTexParameteri .MIN_LINEAR, .glTexParameteri .MAG_LINEAR]
  | .LINEAR, .NEAREST =>
    [.glTexParameteri .MIN_LINEAR_MIPMAP_NEAREST, .glTexParameteri .MAG_LINEAR]
  | .LINEAR, .LINEAR =>
    [.glTexParameteri .MIN_LINEAR_MIPMAP_LINEAR, .glTexParameteri .MAG_LINEAR]

/-- The first block of `setSamplerStateAt`: the wrap mode of `texture` is
compared with the request (the read through `operator[]` leaves an entry behind
for a texture that had none) and applied on difference. -/
def samplerWrapBlock (zero : SamplerZero) (s : OpenGLES2Context) (position : Nat)
    (texture : Int) (wrapping : WrapMode) : OpenGLES2Context :=
  if StdMap.index s._currentWrapMode texture zero.wrap ≠ wrapping then
    { s with
      _currentWrapMode :=
        StdMap.insert (StdMap.touch s._currentWrapMode texture zero.wrap) texture wrapping,
      gl := s.gl ++ GLCall.glActiveTexture position :: wrapCalls wrapping }
  else { s with _currentWrapMode := StdMap.touch s._currentWrapMode texture zero.wrap }

/-- The second block of `setSamplerStateAt`: the filter and the mip filter of
`texture` are compared with the request and applied on difference; `active` is
whether the first block has already selected the unit. The mip-filter map is
read only when the filters are equal. -/
def samplerFilterBlock (zero : SamplerZero) (s : OpenGLES2Context) (position : Nat)
    (texture : Int) (active : Bool) (filtering : TextureFilter) (mipFiltering : MipFilter) :
    OpenGLES2Context :=
  if StdMap.index s._currentTextureFilter texture zero.filter ≠ filtering then
    { s with
      _currentTextureFilter :=
        StdMap.insert (StdMap.touch s._currentTextureFilter texture zero.filter) texture filtering,
      _currentMipFilter := StdMap.insert s._currentMipFilter texture mipFiltering,
      gl := s.gl ++ (if active then [] else [GLCall.glActiveTexture position])
        ++ filterCalls filtering mipFiltering }
  else if StdMap.index s._currentMipFilter texture zero.mip ≠ mipFiltering then
    { s with
      _currentTextureFilter :=
        StdMap.insert (StdMap.touch s._currentTextureFilter texture zero.filter) texture filtering,
      _currentMipFilter :=
        StdMap.insert (StdMap.touch s._currentMipFilter texture zero.mip) texture mipFiltering,
      gl := s.gl ++ (if active then [] else [GLCall.glActiveTexture position])
        ++ filterCalls filtering mipFiltering }
  else
    { s with
      _currentTextureFilter := StdMap.touch s._currentTextureFilter texture zero.filter,
      _currentMipFilter := StdMap.touch s._currentMipFilter texture zero.mip }

/-- `OpenGLES2Context::setSamplerStateAt`. -/
def setSamplerStateAt (zero : SamplerZero) (s : OpenGLES2Context) (position : Nat)
    (wrapping : WrapMode) (filtering : TextureFilter) (mipFiltering : MipFilter) :
    OpenGLES2Context :=
  let texture := s._currentTexture.getD position 0
  let hasMipmaps := StdMap.index s._textureHasMipmaps (asUInt texture) false
  let s1 := { s with
    _textureHasMipmaps := StdMap.touch s._textureHasMipmaps (asUInt texture) false }
  let mipFiltering := if ¬ hasMipmaps then MipFilter.NONE else mipFiltering
  let active := decide (StdMap.index s1._currentWrapMode texture zero.wrap ≠ wrapping)
  let s2 := samplerWrapBlock zero s1 position texture wrapping
  checkForErrors (samplerFilterBlock zero s2 position texture active filtering mipFiltering)

/-- `OpenGLES2Context::createProgram`; `handle` is what `glCreateProgram` returns. -/
def createProgram (s : OpenGLES2Context) (handle : Nat) : Nat × OpenGLES2Context :=
  let s := emit s (.glCreateProgram handle)
  let s := checkForErrors s
  let s := { s with _programs := s._programs ++ [handle] }
  (handle, s)

/-- `OpenGLES2Context::deleteProgram`. -/
def deleteProgram (s : OpenGLES2Context) (program : Nat) : OpenGLES2Context :=
  let s := { s with _programs := s._programs.erase program }
  let s := emit s (.glDeleteProgram program)
  checkForErrors s

/-- `OpenGLES2Context::drawTriangles`. -/
def drawTriangles (s : OpenGLES2Context) (indexBuffer : Nat) (numTriangles : Int) :
    OpenGLES2Context :=
  let s :=
    if s._currentIndexBuffer ≠ indexBuffer then
      let s := { s with _currentIndexBuffer := indexBuffer }
      emit s (.glBindBuffer .ELEMENT_ARRAY_BUFFER indexBuffer)
    else s
  let s := emit s (.glDrawElements (numTriangles * 3))
  checkForErrors s

/-- `setUniform(location, float)`. -/
def setUniform1f (s : OpenGLES2Context) (location : Int) (bits : Nat) : OpenGLES2Context :=
  checkForErrors (emit s (.glUniform1f location bits))

/-- `setUniform(location, float, float)`, on the components of the vector at `vector`. -/
def setUniform2f (s : OpenGLES2Context) (location : Int) (vector : Nat) : OpenGLES2Context :=
  checkForErrors (emit s (.glUniform2f location vector))

/-- `setUniform(location, float, float, float)`, on the components of the vector at `vector`. -/
def setUniform3f (s : OpenGLES2Context) (location : Int) (vector : Nat) : OpenGLES2Context :=
  checkForErrors (emit s (.glUniform3f location vector))

/-- `setUniform(location, float, float, float, float)`, on the components of the vector at `vector`. -/
def setUniform4f (s : OpenGLES2Context) (location : Int) (vector : Nat) : OpenGLES2Context :=
  checkForErrors (emit s (.glUniform4f location vector))

/-- `setUniform(location, size, transpose, values)`: one `glUniformMatrix4fv` in
either build (with `GL_ES_VERSION_2_0` the transposition is done on a copy). -/
def setUniformMatrix (s : OpenGLES2Context) (location : Int) (size : Nat) (transpose : Bool)
    (values : Nat) : OpenGLES2Context :=
  checkForErrors (emit s (.glUniformMatrix4fv location size transpose values))

/-- Whether a call submits a draw: `glDrawElements`. -/
def isDraw : GLCall → Bool
  | .glDrawElements _ => true
  | _ => false

/-- Whether a call sets a sampler parameter or selects a unit:
`glTexParameteri` or `glActiveTexture`. -/
def isSamplerCall : GLCall → Bool
  | .glTexParameteri _ => true
  | .glActiveTexture _ => true
  | _ => false

/-- Whether a call sets the minification filter (`GL_TEXTURE_MIN_FILTER`). -/
def isMinFilterCall : GLCall → Bool
  | .glTexParameteri .MIN_NEAREST => true
  | .glTexParameteri .MIN_LINEAR => true
  | .glTexParameteri .MIN_NEAREST_MIPMAP_NEAREST => true
  | .glTexParameteri .MIN_NEAREST_MIPMAP_LINEAR => true
  | .glTexParameteri .MIN_LINEAR_MIPMAP_NEAREST => true
  | .glTexParameteri .MIN_LINEAR_MIPMAP_LINEAR => true
  | _ => false

/-- The minification filter without mip maps: `GL_NEAREST` for `NEAREST`,
`GL_LINEAR` for `LINEAR`. -/
def plainMinFilter : TextureFilter → GLTexParam
  | .NEAREST => GLTexParam.MIN_NEAREST
  | .LINEAR => GLTexParam.MIN_LINEAR

/-- The enumerators taken to have value 0 in the concrete evaluations. -/
def sampleZero : SamplerZero :=
  { wrap := WrapMode.CLAMP, filter := TextureFilter.NEAREST, mip := MipFilter.NONE }

end OpenGLES2Context

namespace OpenGLES2Context

/-- The mip filter `setSamplerStateAt` works with at a unit: `NONE` when the
texture of the unit has no mip maps, else the requested one. -/
def effectiveMip (s : OpenGLES2Context) (position : Nat) (mipFiltering : MipFilter) : MipFilter :=
  if ¬ StdMap.index s._textureHasMipmaps (asUInt (s._currentTexture.getD position 0)) false
  then MipFilter.NONE else mipFiltering

/-- The calls `setSamplerStateAt` issues. -/
def samplerCalls (zero : SamplerZero) (s : OpenGLES2Context) (position : Nat)
    (w : WrapMode) (f : TextureFilter) (m : MipFilter) : List GLCall :=
  (if StdMap.index s._currentWrapMode (s._currentTexture.getD position 0) zero.wrap ≠ w
    then GLCall.glActiveTexture position :: wrapCalls w else [])
  ++ (if (StdMap.index s._currentTextureFilter (s._currentTexture.getD position 0) zero.filter ≠ f
      ∨ StdMap.index s._currentMipFilter (s._currentTexture.getD position 0) zero.mip
          ≠ effectiveMip s position m) then
        (if StdMap.index s._currentWrapMode (s._currentTexture.getD position 0) zero.wrap ≠ w
          then [] else [GLCall.glActiveTexture position])
        ++ filterCalls f (effectiveMip s position m)
      else [])

end OpenGLES2Context

namespace OpenGLES2Context

/-- The sample context after `setRenderToTexture(1, true)`: texture 1 is the render target. -/
def sampleTargeted : OpenGLES2Context :=
  match setRenderToTexture sampleContext 1 true with
  | .ok s => s
  | .error e => e.2

end OpenGLES2Context

namespace DrawCall

open OpenGLES2Context in
/-- The five uniform loops of `DrawCall::render`, each map in the order of its bindings. -/
def renderUniforms (dc : DrawCall) (context : OpenGLES2Context) : OpenGLES2Context :=
  let context := dc._uniformFloat.foldl (fun c e => setUniform1f c e.1 e.2) context
  let context := dc._uniformFloat2.foldl (fun c e => setUniform2f c e.1 e.2) context
  let context := dc._uniformFloat3.foldl (fun c e => setUniform3f c e.1 e.2) context
  let context := dc._uniformFloat4.foldl (fun c e => setUniform4f c e.1 e.2) context
  dc._uniformFloat16.foldl (fun c e => setUniformMatrix c e.1 1 true e.2) context

open OpenGLES2Context in
/-- The texture loop of `DrawCall::render` over the slot indices `textureId`. -/
def renderTextures (zero : SamplerZero) (dc : DrawCall) :
    List Nat → OpenGLES2Context → OpenGLES2Context
  | [], context => context
  | textureId :: rest, context =>
    let texture := dc._textures.getD textureId (-1)
    let context := setTextureAt context textureId texture (dc._textureLocations.getD textureId (-1))
    let context :=
      if texture > 0 then
        setSamplerStateAt zero context textureId
          (dc._textureWrapMode.getD textureId WrapMode.CLAMP)
          (dc._textureFilters.getD textureId TextureFilter.NEAREST)
          (dc._textureMipFilters.getD textureId MipFilter.NONE)
      else context
    renderTextures zero dc rest context

open OpenGLES2Context in
/-- The vertex-buffer loop of `DrawCall::render` over the slot indices
`vertexBufferId`. `setVertexBufferAt` indexes the 8-entry cache vectors with the
attribute location; a location past their end is reported as
`write_out_of_bounds`. -/
def renderVertexBuffers (dc : DrawCall) :
    List Nat → OpenGLES2Context → Except (Failure × OpenGLES2Context) OpenGLES2Context
  | [], context => .ok context
  | vertexBufferId :: rest, context =>
    let vertexBuffer := dc._vertexBuffers.getD vertexBufferId (-1)
    if vertexBuffer > 0 then
      let position := asUInt (dc._vertexBufferLocations.getD vertexBufferId (-1))
      if position ≥ context._currentVertexBuffer.length then
        .error (.write_out_of_bounds position, context)
      else
        renderVertexBuffers dc rest
          (setVertexBufferAt context position (asUInt vertexBuffer)
            (asUInt (dc._vertexAttributeSizes.getD vertexBufferId (-1)))
            (asUInt (dc._vertexSizes.getD vertexBufferId (-1)))
            (asUInt (dc._vertexAttributeOffsets.getD vertexBufferId (-1))))
    else renderVertexBuffers dc rest context

open OpenGLES2Context in
/-- `DrawCall::render`. -/
def render (zero : SamplerZero) (dc : DrawCall) (context : OpenGLES2Context) :
    Except (Failure × OpenGLES2Context) OpenGLES2Context :=
  let targeted :=
    match dc._target with
    | some target => setRenderToTexture context (asUInt target.id) true
    | none => .ok (setRenderToBackBuffer context)
  match targeted with
  | .error e => .error e
  | .ok context =>
    match dc._program with
    | none => .error (.null_dereference, context)
    | some program =>
      let context := setProgram context program.id
      let context := renderUniforms dc context
      let context := renderTextures zero dc (List.range dc._textures.length) context
      match renderVertexBuffers dc (List.range dc._vertexBuffers.length) context with
      | .error e => .error e
      | .ok context =>
        let context := setBlendMode context dc._blendMode
        let context := setDepthTest context dc._depthMask dc._depthFunc
        let context := setTriangleCulling context dc._triangleCulling
        .ok (drawTriangles context (asUInt dc._indexBuffer) ((dc._numIndices / 3 : Nat) : Int))

/-- The sample inputs resolved under `States` whose target is a ready texture of id 5. -/
def sampleWithTarget : DrawCall :=
  match configure false
      (create [] [] [] { sampleStates with target := some { id := 5, isReady := true } })
      sampleProgram sampleLocal emptyContainer with
  | .ok dc => dc
  | .error e => e.2

end DrawCall

namespace OpenGLES2Context

/-- Between `s` and `t` calls were only added to the log, none of them a draw. -/
def noDrawSince (s t : OpenGLES2Context) : Prop :=
  ∃ l, t.gl = s.gl ++ l ∧ l.filter isDraw = []

end OpenGLES2Context

/-- A fresh context in which texture 5 (4 x 4, no mip maps) has been created
without offscreen buffers (`optimizeForRenderToTexture = false`). -/
def OpenGLES2Context.samplePlainTexture : OpenGLES2Context :=
  match OpenGLES2Context.createTexture (OpenGLES2Context.create 258 (0, 0, 640, 480))
      4 4 false false 5 0 0 true with
  | .ok r => r.2
  | .error e => e.2

/-- Attribute slot `i` is unbound: its five entries hold the `-1` of `reset`. -/
def DrawCall.attributeSlotUnbound (dc : DrawCall) (i : Nat) : Prop :=
  dc._vertexBuffers[i]? = some (-1)
    ∧ dc._vertexBufferLocations[i]? = some (-1)
    ∧ dc._vertexAttributeSizes[i]? = some (-1)
    ∧ dc._vertexSizes[i]? = some (-1)
    ∧ dc._vertexAttributeOffsets[i]? = some (-1)

/-- The attribute input `n` is one `bindVertexAttribute` binds rather than
skips: its location is non-negative and its property, resolved under the
attribute bindings `ab`, is in the local or in the global container. -/
def DrawCall.attributeSupplied (inputs : ProgramInputs) (ab : StdMap String String)
    (data rootData : Container) (n : String) : Prop :=
  0 ≤ inputs.location n
    ∧ (data.hasProperty (DrawCall.resolve ab n)
        || rootData.hasProperty (DrawCall.resolve ab n)) = true

/-- What the input loop of `bind` has done to the attribute slots once the
inputs `done` are processed: the i-th attribute input among them, bound or
skipped, owns slot i (filled when it was bound, still unbound when it was
skipped) and every slot from their number on is unbound. -/
def DrawCall.attributeSlotsSoFar (inputs : ProgramInputs) (ab : StdMap String String)
    (data rootData : Container) (done : List String) (dc : DrawCall) : Prop :=
  DrawCall.slotVectorsSized dc
    ∧ (∀ i n, (DrawCall.attributeInputsOf inputs done)[i]? = some n →
        (DrawCall.attributeSupplied inputs ab data rootData n →
            DrawCall.attributeSlotHolds inputs dc i n)
        ∧ (¬ DrawCall.attributeSupplied inputs ab data rootData n → i < 8 →
            DrawCall.attributeSlotUnbound dc i))
    ∧ (∀ i, (DrawCall.attributeInputsOf inputs done).length ≤ i → i < 8 →
        DrawCall.attributeSlotUnbound dc i)

/-- A program with the attribute inputs "normal" and "position", in that order. -/
def DrawCall.gapProgram : Program :=
  { id := 4, inputs := some { inputs := [
      { name := "normal", type := InputType.attribute, location := 0 },
      { name := "position", type := InputType.attribute, location := 1 } ] } }

/-- The never-configured `sampleDrawCall` configured with `gapProgram` on
`sampleLocal`, which supplies "position" and not "normal". -/
def DrawCall.gapConfigured : DrawCall :=
  match DrawCall.configure false DrawCall.sampleDrawCall DrawCall.gapProgram
      DrawCall.sampleLocal DrawCall.emptyContainer with
  | .ok dc => dc
  | .error e => e.2

/-- A program declaring the nine attribute inputs "a0" to "a8" at locations 0 to 8. -/
def DrawCall.nineAttributes : Program :=
  { id := 6, inputs := some { inputs := [
      { name := "a0", type := InputType.attribute, location := 0 },
      { name := "a1", type := InputType.attribute, location := 1 },
      { name := "a2", type := InputType.attribute, location := 2 },
      { name := "a3", type := InputType.attribute, location := 3 },
      { name := "a4", type := InputType.attribute, location := 4 },
      { name := "a5", type := InputType.attribute, location := 5 },
      { name := "a6", type := InputType.attribute, location := 6 },
      { name := "a7", type := InputType.attribute, location := 7 },
      { name := "a8", type := InputType.attribute, location := 8 } ] } }

/-- A local container supplying the index buffer and a vertex buffer for each of
the nine inputs of `nineAttributes`. -/
def DrawCall.nineLocal : Container :=
  { properties := [
      ("geometry.indices", Value.indexBuffer { id := 7, numIndices := 36 }),
      ("a0", Value.vertexBuffer { id := 10, vertexSize := 3, vertexAttributes := [{ name := "a0", size := 3, offset := 0 }] }),
      ("a1", Value.vertexBuffer { id := 11, vertexSize := 3, vertexAttributes := [{ name := "a1", size := 3, offset := 0 }] }),
      ("a2", Value.vertexBuffer { id := 12, vertexSize := 3, vertexAttributes := [{ name := "a2", size := 3, offset := 0 }] }),
      ("a3", Value.vertexBuffer { id := 13, vertexSize := 3, vertexAttributes := [{ name := "a3", size := 3, offset := 0 }] }),
      ("a4", Value.vertexBuffer { id := 14, vertexSize := 3, vertexAttributes := [{ name := "a4", size := 3, offset := 0 }] }),
      ("a5", Value.vertexBuffer { id := 15, vertexSize := 3, vertexAttributes := [{ name := "a5", size := 3, offset := 0 }] }),
      ("a6", Value.vertexBuffer { id := 16, vertexSize := 3, vertexAttributes := [{ name := "a6", size := 3, offset := 0 }] }),
      ("a7", Value.vertexBuffer { id := 17, vertexSize := 3, vertexAttributes := [{ name := "a7", size := 3, offset := 0 }] }),
      ("a8", Value.vertexBuffer { id := 18, vertexSize := 3, vertexAttributes := [{ name := "a8", size := 3, offset := 0 }] }) ] }

/-- The inputs of `sampleProgram` followed by an input "uMystery" of semantic type `unknown`. -/
def DrawCall.unknownProgram : Program :=
  { id := 8, inputs := some { inputs := [
      { name := "position", type := InputType.attribute, location := 0 },
      { name := "uDiffuseMap", type := InputType.sampler2d, location := 1 },
      { name := "uColor", type := InputType.float4, location := 2 },
      { name := "uMystery", type := InputType.unknown, location := 3 } ] } }

/-- The never-configured `sampleDrawCall` holding `unknownProgram`, as `configure` assigns it. -/
def DrawCall.sampleWithUnknown : DrawCall :=
  { DrawCall.sampleDrawCall with _program := some DrawCall.unknownProgram }

/-- The local container of `sampleLocal` without the texture "uDiffuseMap". -/
def DrawCall.sampleLocalNoTexture : Container :=
  { properties := [
      ("geometry.indices", Value.indexBuffer { id := 7, numIndices := 36 }),
      ("position", Value.vertexBuffer { id := 11, vertexSize := 5, vertexAttributes := [{ name := "position", size := 3, offset := 0 }, { name := "uv", size := 2, offset := 3 }] }),
      ("uColor", Value.vector4 4096) ] }

/-- The draw call `bind` hands to its input loop when `sampleDrawCall` is
configured with `sampleProgram` on `sampleLocalNoTexture`. -/
def DrawCall.sampleNoTexturePrepared : DrawCall :=
  DrawCall.prepared DrawCall.sampleDrawCall DrawCall.sampleProgram DrawCall.sampleLocalNoTexture
    DrawCall.emptyContainer { id := 7, numIndices := 36 }

/-- The failure an outcome carries, if it is one. -/
def DrawCall.failureOf {α : Type} : DrawCall.Outcome α → Option Failure
  | .ok _ => none
  | .error e => some e.1

/-- The draw call an outcome of `configure` or of a binder leaves behind. -/
def DrawCall.leftBy : DrawCall.Outcome DrawCall → DrawCall
  | .ok dc => dc
  | .error e => e.2

namespace OpenGLES2Context

/-- `OpenGLES2Context::linkProgram`. `DEBUG` is whether the build defines
`DEBUG`; `infoLogLength` is the `GL_INFO_LOG_LENGTH` the driver answers in
`getProgramInfoLogs`, whose text is only printed. -/
def linkProgram (DEBUG : Bool) (s : OpenGLES2Context) (program : Nat) (infoLogLength : Int) :
    OpenGLES2Context :=
  let s := emit s (.glLinkProgram program)
  let s :=
    if DEBUG then
      let s := emit s (.query (.glGetProgramiv program))
      if infoLogLength ≤ 0 then s else emit s (.query (.glGetProgramInfoLog program))
    else s
  checkForErrors s

/-- One active uniform as the driver reports it: its name, the input type the
`switch` of `fillUniformInputs` maps its `GLenum` type to (`none` for a type
outside the switch) and the location `glGetUniformLocation` answers. -/
structure ActiveUniform where
  name : String
  type : Option InputType
  location : Int
  deriving DecidableEq, Repr

/-- One active attribute as the driver reports it: its name and the location
`glGetAttribLocation` answers. -/
structure ActiveAttrib where
  name : String
  location : Int
  deriving DecidableEq, Repr

/-- The loop of `OpenGLES2Context::fillUniformInputs` from index `i` on. -/
def fillUniformLoop (program : Nat) :
    List ActiveUniform → Nat → List ProgramInput → OpenGLES2Context →
      Except (Failure × OpenGLES2Context) (List ProgramInput × OpenGLES2Context)
  | [], _, acc, s => .ok (acc, s)
  | u :: rest, i, acc, s =>
    let s := emit s (.query (.glGetActiveUniform program i))
    let s := checkForErrors s
    match u.type with
    | none => .error (.logic_error "unsupported type", s)
    | some inputType =>
      let s := emit s (.query (.glGetUniformLocation program u.name))
      if u.location ≥ 0 ∧ inputType ≠ InputType.unknown then
        fillUniformLoop program rest (i + 1)
          (acc ++ [{ name := u.name, type := inputType, location := u.location }]) s
      else fillUniformLoop program rest (i + 1) acc s

/-- `OpenGLES2Context::fillUniformInputs`; `uniforms` are the active uniforms of the program. -/
def fillUniformInputs (s : OpenGLES2Context) (program : Nat) (uniforms : List ActiveUniform)
    (acc : List ProgramInput) :
    Except (Failure × OpenGLES2Context) (List ProgramInput × OpenGLES2Context) :=
  let s := emit s (.query (.glGetProgramiv program))
  let s := emit s (.query (.glGetProgramiv program))
  fillUniformLoop program uniforms 0 acc s

/-- The loop of `OpenGLES2Context::fillAttributeInputs` from index `i` on. -/
def fillAttributeLoop (program : Nat) :
    List ActiveAttrib → Nat → List ProgramInput → OpenGLES2Context →
      List ProgramInput × OpenGLES2Context
  | [], _, acc, s => (acc, s)
  | a :: rest, i, acc, s =>
    let s := emit s (.query (.glGetActiveAttrib program i))
    let s := checkForErrors s
    let s := emit s (.query (.glGetAttribLocation program a.name))
    if a.location ≥ 0 then
      fillAttributeLoop program rest (i + 1)
        (acc ++ [{ name := a.name, type := InputType.attribute, location := a.location }]) s
    else fillAttributeLoop program rest (i + 1) acc s

/-- `OpenGLES2Context::fillAttributeInputs`; `attribs` are the active attributes of the program. -/
def fillAttributeInputs (s : OpenGLES2Context) (program : Nat) (attribs : List ActiveAttrib)
    (acc : List ProgramInput) : List ProgramInput × OpenGLES2Context :=
  let s := emit s (.query (.glGetProgramiv program))
  let s := emit s (.query (.glGetProgramiv program))
  fillAttributeLoop program attribs 0 acc s

/-- `OpenGLES2Context::getProgramInputs`: the inputs it returns and the context it leaves. -/
def getProgramInputs (s : OpenGLES2Context) (program : Nat) (uniforms : List ActiveUniform)
    (attribs : List ActiveAttrib) :
    Except (Failure × OpenGLES2Context) (ProgramInputs × OpenGLES2Context) :=
  let s := emit s (.glUseProgram program)
  match fillUniformInputs s program uniforms [] with
  | .error e => .error e
  | .ok (acc, s) =>
    let r := fillAttributeInputs s program attribs acc
    .ok ({ inputs := r.1 }, r.2)

/-- `OpenGLES2Context::uploadTextureData`. -/
def uploadTextureData (s : OpenGLES2Context) (texture width height mipLevel : Nat) :
    OpenGLES2Context :=
  let s := emit s (.glBindTexture texture)
  let s := emit s (.glTexImage2D mipLevel width height)
  checkForErrors s

/-- `OpenGLES2Context::generateMipmaps`. -/
def generateMipmaps (s : OpenGLES2Context) (texture : Nat) : OpenGLES2Context :=
  let s := emit s (.glBindTexture texture)
  let s := emit s .glGenerateMipmap
  checkForErrors s

/-! ### The hardware state the issued calls produce -/

/-- The program in use on the hardware after the calls of `log`: the argument
of the most recent `glUseProgram`, `0` (no program) before the first. -/
def activeProgram (log : List GLCall) : Nat :=
  log.foldl (fun p c => match c with
    | .glUseProgram q => q
    | _ => p) 0

/-- The effect of one call on the active texture unit and on the `GL_TEXTURE_2D`
binding of the 8 units: `glActiveTexture` selects the unit, `glBindTexture`
binds on the selected unit, `glDeleteTextures` reverts the bindings of the
deleted texture to `0`. -/
def textureStep (h : Nat × List Int) : GLCall → Nat × List Int
  | .glActiveTexture unit => (unit, h.2)
  | .glBindTexture texture => (h.1, h.2.set h.1 texture)
  | .glDeleteTextures texture =>
    (h.1, h.2.map (fun t => if t = (texture : Int) then 0 else t))
  | _ => h

/-- The active texture unit and the texture bound to `GL_TEXTURE_2D` on each of
the 8 units after the calls of `log`, from the initial state of the hardware
(unit 0 active, nothing bound). -/
def boundTextures (log : List GLCall) : Nat × List Int :=
  log.foldl textureStep (0, List.replicate 8 0)

/-- The effect of one call on whether `GL_CULL_FACE` is enabled and on the cull face. -/
def cullStep (h : Bool × GLFace) : GLCall → Bool × GLFace
  | .glEnable .CULL_FACE => (true, h.2)
  | .glDisable .CULL_FACE => (false, h.2)
  | .glCullFace face => (h.1, face)
  | _ => h

/-- Whether `GL_CULL_FACE` is enabled and which face is culled after the calls
of `log`, from the initial state of the hardware (disabled, `GL_BACK`). -/
def hardwareCulling (log : List GLCall) : Bool × GLFace :=
  log.foldl cullStep (false, GLFace.BACK)

/-- The face `setTriangleCulling` passes to `glCullFace` for a culling mode. -/
def cullFaceOf : TriangleCulling → Option GLFace
  | .NONE => none
  | .BACK => some GLFace.BACK
  | .FRONT => some GLFace.FRONT
  | .BOTH => some GLFace.FRONT_AND_BACK

/-- The cached culling mode agrees with the hardware: `GL_CULL_FACE` is enabled
exactly when the cached mode is not `NONE`, and then the cull face is the one
of the cached mode. -/
def cullingCoherent (s : OpenGLES2Context) : Prop :=
  ((hardwareCulling s.gl).1 = true ↔ s._currentTriangleCulling ≠ TriangleCulling.NONE)
    ∧ ∀ face, cullFaceOf s._currentTriangleCulling = some face →
        (hardwareCulling s.gl).2 = face

/-- A power of two, in the words of the claim: `2 ^ k` for some `k`. -/
def isPowerOfTwo (n : Nat) : Prop := ∃ k, n = 2 ^ k

end OpenGLES2Context

namespace OpenGLES2Context

/-- A fresh context in which programs 1 and 2 have been created and linked and
program 1 has been made current with `setProgram`. -/
def twoPrograms : OpenGLES2Context :=
  let s := create 258 (0, 0, 640, 480)
  let s := (createProgram s 1).2
  let s := linkProgram false s 1 0
  let s := (createProgram s 2).2
  let s := linkProgram false s 2 0
  setProgram s 1

/-- The context `twoPrograms` after `getProgramInputs(2)`, the driver reporting
one float4 uniform "uColor" at location 0 and one attribute "position" at location 0. -/
def twoProgramsIntrospected : OpenGLES2Context :=
  match getProgramInputs twoPrograms 2
      [{ name := "uColor", type := some InputType.float4, location := 0 }]
      [{ name := "position", location := 0 }] with
  | .ok r => r.2
  | .error e => e.2

/-- A fresh context in which texture 1 (4 x 4, no mip maps, no offscreen buffers)
has been created and bound to unit 0 with `setTextureAt(0, 1, 0)`. -/
def textureOnUnit : OpenGLES2Context :=
  match createTexture (create 258 (0, 0, 640, 480)) 4 4 false false 1 0 0 true with
  | .ok r => setTextureAt r.2 0 1 0
  | .error e => e.2

/-- The context `textureOnUnit` after a second `createTexture(4, 4, false, false)` returning 2. -/
def secondTextureCreated : OpenGLES2Context :=
  match createTexture textureOnUnit 4 4 false false 2 0 0 true with
  | .ok r => r.2
  | .error e => e.2

end OpenGLES2Context

/-- A program declaring the single attribute input "uv". -/
def DrawCall.uvProgram : Program :=
  { id := 10, inputs := some { inputs := [
      { name := "uv", type := InputType.attribute, location := 0 } ] } }

/-- A draw call holding `uvProgram`, binding "uv" to the property
"geometry.vertices.uv", with a local container that holds under that name a
vertex buffer declaring "position" and "uv". -/
def DrawCall.uvDrawCall : DrawCall :=
  { DrawCall.create [("uv", "geometry.vertices.uv")] [] [] DrawCall.sampleStates with
    _program := some DrawCall.uvProgram,
    _data := { properties := [
      ("geometry.vertices.uv", Value.vertexBuffer { id := 12, vertexSize := 5, vertexAttributes := [{ name := "position", size := 3, offset := 0 }, { name := "uv", size := 2, offset := 3 }] }) ] } }

end render

namespace component

/-! ## The particle system

`ParticleSystem.cpp` and `ParticleSystem.hpp`: the playing flag, the update
loops and the vertex format. A `float` is modelled by the rational number it
denotes (rounding is not modelled). The particles, the material and the
geometry are not modelled: `updateSystem`, `updateVertexBuffer`, `reset` and
`initStreams` are recorded as events in the order they are performed. -/

/-- What the particle system asks of the particles and the geometry. -/
inductive ParticleEvent
  | updateSystem (timeStep : ℚ) (emit : Bool)
  | updateVertexBuffer
  | reset
  | initStreams
  deriving DecidableEq, Repr

/-- The values of the enumerators of `VertexComponentFlags`
(`minko/particle/tools/VertexComponentFlags.hpp`, not among the sources). -/
structure VertexComponentFlags where
  DEFAULT : Nat
  SIZE : Nat
  COLOR : Nat
  TIME : Nat
  OLD_POSITION : Nat
  ROTATION : Nat
  SPRITE_INDEX : Nat
  deriving DecidableEq, Repr

/-- The members of `ParticleSystem` the embedded functions read or write, the
particle vertex buffer of the geometry and the events performed so far. -/
structure ParticleSystem where
  _format : Nat
  _updateStep : ℚ
  _playing : Bool
  _emitting : Bool
  _time : ℚ
  particleVertices : render.VertexBuffer
  events : List ParticleEvent
  deriving DecidableEq, Repr

/-- Modelled from the spec: `VertexBuffer::hasAttribute(name)` (`VertexBuffer.hpp`
is not among the sources): whether an attribute is declared under `name`. -/
def hasAttribute (vb : render.VertexBuffer) (name : String) : Bool :=
  vb.vertexAttributes.any (fun a => decide (a.name = name))

/-- Modelled from the spec: `VertexBuffer::removeAttribute(name)` (same header)
drops the attribute declared under `name`. -/
def removeAttribute (vb : render.VertexBuffer) (name : String) : render.VertexBuffer :=
  { vb with vertexAttributes := vb.vertexAttributes.filter (fun a => decide (a.name ≠ name)) }

/-- Modelled from the spec: `VertexBuffer::addAttribute(name, size, offset)` (same
header) declares one more attribute with the given size and offset. -/
def addAttribute (vb : render.VertexBuffer) (name : String) (size offset : Nat) :
    render.VertexBuffer :=
  { vb with vertexAttributes :=
      vb.vertexAttributes ++ [{ name := name, size := size, offset := offset }] }

/-- The body of `ParticleVertexBuffer::initialize`: the two mandatory attributes. -/
def ParticleVertexBuffer.mandatoryAttributes (vb : render.VertexBuffer) : render.VertexBuffer :=
  addAttribute (addAttribute vb "offset" 2 0) "position" 3 2

namespace ParticleSystem

/-- The constructor `ParticleSystem::ParticleSystem`, as far as the modelled
members go: format `DEFAULT`, update step 0, not playing, emitting, time 0. -/
def create (flags : VertexComponentFlags) : ParticleSystem :=
  { _format := flags.DEFAULT
    _updateStep := 0
    _playing := false
    _emitting := true
    _time := 0
    particleVertices :=
      ParticleVertexBuffer.mandatoryAttributes { id := 0, vertexSize := 0, vertexAttributes := [] }
    events := [] }

/-- `ParticleSystem::updateSystem`: recorded as an event. It writes the create
timer, the material and the particles, none of which is modelled. -/
def updateSystem (ps : ParticleSystem) (timeStep : ℚ) (emit : Bool) : ParticleSystem :=
  { ps with events := ps.events ++ [ParticleEvent.updateSystem timeStep emit] }

/-- `ParticleSystem::updateVertexBuffer`: recorded as an event; what it writes
for one particle is `particleWrites`. -/
def updateVertexBuffer (ps : ParticleSystem) : ParticleSystem :=
  { ps with events := ps.events ++ [ParticleEvent.updateVertexBuffer] }

/-- `ParticleSystem::reset`: kills every particle; recorded as an event. -/
def reset (ps : ParticleSystem) : ParticleSystem :=
  { ps with events := ps.events ++ [ParticleEvent.reset] }

/-- `ParticleSystem::updateRate`. -/
def updateRate (ps : ParticleSystem) (updatesPerSecond : Nat) : ParticleSystem :=
  { ps with _updateStep := 1 / (updatesPerSecond : ℚ) }

/-- `ParticleSystem::playing(bool value)`: the body is `_playing = true;`, the
assignment from `value` being commented out in the source. -/
def playing (ps : ParticleSystem) (_value : Bool) : ParticleSystem :=
  { ps with _playing := true }

/-- `ParticleSystem::emitting`. -/
def emitting (ps : ParticleSystem) (value : Bool) : ParticleSystem :=
  { ps with _emitting := value }

/-- `ParticleSystem::play`. -/
def play (ps : ParticleSystem) : ParticleSystem := playing (reset ps) true

/-- `ParticleSystem::stop`. -/
def stop (ps : ParticleSystem) : ParticleSystem :=
  updateVertexBuffer (playing (reset ps) false)

/-- `ParticleSystem::pause`. -/
def pause (ps : ParticleSystem) : ParticleSystem := playing ps false

/-- `ParticleSystem::resume`. -/
def resume (ps : ParticleSystem) : ParticleSystem := playing ps true

/-- The loop `while (_time > _updateStep)` of `frameBeginHandler`, run for at
most `fuel` tests of its condition; `none` when the loop is still running then.
The result carries whether the body ran (`changed`). -/
def frameLoop : Nat → ParticleSystem → Bool → Option (ParticleSystem × Bool)
  | 0, _, _ => none
  | fuel + 1, ps, changed =>
    if ps._time > ps._updateStep then
      let ps := updateSystem ps ps._updateStep ps._emitting
      frameLoop fuel { ps with _time := ps._time - ps._updateStep } true
    else some (ps, changed)

/-- `ParticleSystem::frameBeginHandler(sceneManager, time, deltaTime)`; `none`
when its loop is still running after `fuel` tests. The world transform it
fetches when `_isInWorldSpace` is set is not modelled. -/
def frameBeginHandler (fuel : Nat) (ps : ParticleSystem) (_time deltaTime : ℚ) :
    Option ParticleSystem :=
  if ¬ ps._playing then some ps
  else
    let deltaT := (1 / 1000 : ℚ) * deltaTime
    if ps._updateStep = 0 then
      some (updateVertexBuffer (updateSystem ps deltaT ps._emitting))
    else
      let ps := { ps with _time := ps._time + deltaT }
      match frameLoop fuel ps false with
      | none => none
      | some (ps, changed) => some (if changed then updateVertexBuffer ps else ps)

/-- The loop `while (time > updateStep)` of `fastForward`, run for at most
`fuel` tests of its condition; `none` when the loop is still running then. -/
def fastForwardLoop : Nat → ℚ → ℚ → ParticleSystem → Option ParticleSystem
  | 0, _, _, _ => none
  | fuel + 1, time, updateStep, ps =>
    if time > updateStep then
      fastForwardLoop fuel (time - updateStep) updateStep (updateSystem ps updateStep ps._emitting)
    else some ps

/-- `ParticleSystem::fastForward(time, updatesPerSecond)`; `none` when its loop
is still running after `fuel` tests of the condition. -/
def fastForward (fuel : Nat) (ps : ParticleSystem) (time : ℚ) (updatesPerSecond : Nat) :
    Option ParticleSystem :=
  let updateStep := if updatesPerSecond ≠ 0 then 1 / (updatesPerSecond : ℚ) else ps._updateStep
  fastForwardLoop fuel time updateStep ps

/-- The table `OPTIONAL_COMPONENTS` of `addComponents`: name, flag, size. -/
def OPTIONAL_COMPONENTS (flags : VertexComponentFlags) : List (String × Nat × Nat) :=
  [ ("size", flags.SIZE, 1),
    ("color", flags.COLOR, 3),
    ("time", flags.TIME, 1),
    ("oldPosition", flags.OLD_POSITION, 3),
    ("rotation", flags.ROTATION, 1),
    ("spriteIndex", flags.SPRITE_INDEX, 1) ]

/-- The first loop of `addComponents`: remove the optional attributes the vertex buffer has. -/
def removeOptional : List (String × Nat × Nat) → render.VertexBuffer → render.VertexBuffer
  | [], vb => vb
  | component :: rest, vb =>
    if hasAttribute vb component.1 then removeOptional rest (removeAttribute vb component.1)
    else removeOptional rest vb

/-- The second loop of `addComponents`: declare the enabled optional components
from `attrOffset` on. -/
def addOptional (format : Nat) :
    List (String × Nat × Nat) → render.VertexBuffer → Nat → render.VertexBuffer
  | [], vb, _ => vb
  | component :: rest, vb, attrOffset =>
    if (format &&& component.2.1) ≠ 0 then
      addOptional format rest (addAttribute vb component.1 component.2.2 attrOffset)
        (attrOffset + component.2.2)
    else addOptional format rest vb attrOffset

/-- `ParticleSystem::addComponents(components, blockVSInit)`. The `assert` on
the two mandatory attributes is not modelled. -/
def addComponents (flags : VertexComponentFlags) (ps : ParticleSystem) (components : Nat)
    (blockVSInit : Bool) : ParticleSystem :=
  if ps._format = components then ps
  else
    let ps := { ps with _format := ps._format ||| components }
    let vertexBuffer := removeOptional (OPTIONAL_COMPONENTS flags) ps.particleVertices
    let vertexBuffer := addOptional ps._format (OPTIONAL_COMPONENTS flags) vertexBuffer 5
    let ps := { ps with particleVertices := vertexBuffer }
    if ¬ blockVSInit then { ps with events := ps.events ++ [ParticleEvent.initStreams] }
    else ps

/-- The members of `ParticleData` that `updateVertexBuffer` copies; `time` is
the quotient `timeLived / lifetime`. -/
inductive ParticleField
  | x | y | z | size | r | g | b | time | oldx | oldy | oldz | rotation | spriteIndex
  deriving DecidableEq, Repr

/-- The calls `setInVertexBuffer(vertexIterator, offset, value)` that
`updateVertexBuffer` makes for one live particle, in order, as (offset, value). -/
def particleWrites (flags : VertexComponentFlags) (format : Nat) : List (Nat × ParticleField) :=
  let i := 5
  let w := [(2, ParticleField.x), (3, ParticleField.y), (4, ParticleField.z)]
  let (w, i) :=
    if (format &&& flags.SIZE) ≠ 0 then (w ++ [(i, ParticleField.size)], i + 1) else (w, i)
  let (w, i) :=
    if (format &&& flags.COLOR) ≠ 0 then
      (w ++ [(i, ParticleField.r), (i + 1, ParticleField.g), (i + 2, ParticleField.b)], i + 3)
    else (w, i)
  let (w, i) :=
    if (format &&& flags.TIME) ≠ 0 then (w ++ [(i, ParticleField.time)], i + 1) else (w, i)
  let (w, i) :=
    if (format &&& flags.OLD_POSITION) ≠ 0 then
      (w ++ [(i, ParticleField.oldx), (i + 1, ParticleField.oldy), (i + 2, ParticleField.oldz)],
        i + 3)
    else (w, i)
  let (w, i) :=
    if (format &&& flags.ROTATION) ≠ 0 then (w ++ [(i, ParticleField.rotation)], i + 1)
    else (w, i)
  let (w, _) :=
    if (format &&& flags.SPRITE_INDEX) ≠ 0 then (w ++ [(i, ParticleField.spriteIndex)], i + 1)
    else (w, i)
  w

/-- The particle members that make up the optional component of a given
attribute name, in the order `updateVertexBuffer` writes them. -/
def componentFields (name : String) : List ParticleField :=
  if name = "size" then [ParticleField.size]
  else if name = "color" then [ParticleField.r, ParticleField.g, ParticleField.b]
  else if name = "time" then [ParticleField.time]
  else if name = "oldPosition" then [ParticleField.oldx, ParticleField.oldy, ParticleField.oldz]
  else if name = "rotation" then [ParticleField.rotation]
  else if name = "spriteIndex" then [ParticleField.spriteIndex]
  else []

/-- The fields `fields` laid out from the float offset `offset` on, one float each. -/
def laidOutFrom : Nat → List ParticleField → List (Nat × ParticleField)
  | _, [] => []
  | offset, f :: rest => (offset, f) :: laidOutFrom (offset + 1) rest

/-- The writes a list of declared attributes calls for: each attribute's
fields, laid out from the attribute's declared offset. -/
def writesDeclaredBy : List render.VertexAttribute → List (Nat × ParticleField)
  | [] => []
  | a :: rest => laidOutFrom a.offset.toNat (componentFields a.name) ++ writesDeclaredBy rest

/-- Whether an attribute is one of the six optional components. -/
def isOptional (a : render.VertexAttribute) : Bool :=
  decide (a.name ∈ ["size", "color", "time", "oldPosition", "rotation", "spriteIndex"])

/-- Sample flag values: one bit per optional component. -/
def sampleFlags : VertexComponentFlags :=
  { DEFAULT := 0, SIZE := 1, COLOR := 2, TIME := 4, OLD_POSITION := 8, ROTATION := 16,
    SPRITE_INDEX := 32 }

end ParticleSystem

end component

namespace math

/-- `minko::math::clp2` of `Common.hpp` on `unsigned int`: `x - 1` and `x + 1`
wrap modulo 2^32; the shifts and ors of a value below 2^32 stay below 2^32. -/
def clp2 (x : Nat) : Nat :=
  let x := (x + 4294967295) % 4294967296
  let x := x ||| (x >>> 1)
  let x := x ||| (x >>> 2)
  let x := x ||| (x >>> 4)
  let x := x ||| (x >>> 8)
  let x := x ||| (x >>> 16)
  (x + 1) % 4294967296

end math

end minko

namespace minko
namespace render
namespace OpenGLES2Context

/-! ## Theorems about the state cache -/

theorem issued_append (s t : OpenGLES2Context) (l : List GLCall) (h : t.gl = s.gl ++ l) :
    issued s t = l := by
  simp [issued, h]

theorem setBlendMode_twice (s : OpenGLES2Context) (b : Nat) :
    setBlendMode (setBlendMode s b) b = setBlendMode s b := by
  unfold setBlendMode checkForErrors emit
  by_cases h : b = s._currentBlendMode <;> simp [h]

theorem setBlendModeSD_twice (s : OpenGLES2Context) (a b : Nat) :
    setBlendModeSD (setBlendModeSD s a b) a b = setBlendModeSD s a b := by
  unfold setBlendModeSD checkForErrors emit
  by_cases h : a ||| b = s._currentBlendMode <;> simp [h]

theorem setDepthTest_twice (s : OpenGLES2Context) (m : Bool) (f : CompareMode) :
    setDepthTest (setDepthTest s m f) m f = setDepthTest s m f := by
  unfold setDepthTest checkForErrors emit
  by_cases h : m ≠ s._currentDepthMask ∨ f ≠ s._currentDepthFunc <;> simp [h]

theorem setColorMask_twice (s : OpenGLES2Context) (m : Bool) :
    setColorMask (setColorMask s m) m = setColorMask s m := by
  unfold setColorMask checkForErrors emit
  by_cases h : s._currentColorMask = m <;> simp [h]

theorem setTriangleCulling_twice (s : OpenGLES2Context) (t : TriangleCulling) :
    setTriangleCulling (setTriangleCulling s t) t = setTriangleCulling s t := by
  unfold setTriangleCulling checkForErrors emit
  by_cases h : t = s._currentTriangleCulling
  · simp [h]
  · cases t <;> simp [h]

theorem setProgram_twice (s : OpenGLES2Context) (p : Nat) :
    setProgram (setProgram s p) p = setProgram s p := by
  unfold setProgram checkForErrors emit
  by_cases h : s._currentProgram = p <;> simp [h]

theorem configureViewport_twice (s : OpenGLES2Context) (x y w h : Nat) :
    configureViewport (configureViewport s x y w h) x y w h = configureViewport s x y w h := by
  unfold configureViewport emit
  by_cases h : x ≠ s._viewportX ∨ y ≠ s._viewportY ∨ w ≠ s._viewportWidth ∨ h ≠ s._viewportHeight
    <;> simp [h]

theorem setStencilTest_twice (s : OpenGLES2Context) (f : CompareMode) (r : Int) (m : Nat)
    (a b c : StencilOperation) :
    setStencilTest (setStencilTest s f r m a b c) f r m a b c = setStencilTest s f r m a b c := by
  unfold setStencilTest checkForErrors emit
  by_cases h1 : f ≠ s._currentStencilFunc ∨ r ≠ s._currentStencilRef ∨ m ≠ s._currentStencilMask
    <;> by_cases h2 : a ≠ s._currentStencilFailOp ∨ b ≠ s._currentStencilZFailOp
          ∨ c ≠ s._currentStencilZPassOp
    <;> simp [h1, h2]

theorem lastViewport_append_viewport (log : List GLCall) (x y w h : Nat) :
    lastViewport (log ++ [GLCall.glViewport x y w h]) = some (x, y, w, h) := by
  simp [lastViewport, List.filterMap_append, viewportArgs]

theorem setRenderToTexture_ok (c : OpenGLES2Context) (T : Nat) (d : Bool)
    (hne : T ≠ c._currentTarget) (hfb : StdMap.contains c._frameBuffers T = true) :
    ∃ s1, setRenderToTexture c T d = .ok s1
      ∧ s1._currentTarget = T
      ∧ s1._viewportX = c._viewportX ∧ s1._viewportY = c._viewportY
      ∧ s1._viewportWidth = c._viewportWidth ∧ s1._viewportHeight = c._viewportHeight := by
  unfold setRenderToTexture
  rw [if_neg hne, if_neg (by simp [hfb])]
  refine ⟨_, rfl, ?_⟩
  cases d <;> simp [emit, checkForErrors]

/-- C1 (code at the failing input): texture 1 is created, bound on unit 0 and
deleted; the unit-0 cache entry still holds 1 afterwards, and a new
`setTextureAt(0, 1, 0)` issues only `glUniform1i`, no `glActiveTexture` /
`glBindTexture`. -/
theorem deleteTexture_leaves_unit_cache_stale :
    1 ∈ sampleContext._textures
    ∧ (setTextureAt sampleContext 0 1 0)._currentTexture.getD 0 0 = 1
    ∧ (deleteTexture (setTextureAt sampleContext 0 1 0) 1)._currentTexture.getD 0 0 = 1
    ∧ issued (deleteTexture (setTextureAt sampleContext 0 1 0) 1)
        (setTextureAt (deleteTexture (setTextureAt sampleContext 0 1 0) 1) 0 1 0)
        = [GLCall.glUniform1i 0 0] := by
  decide

/-- C2 (counterexample): on a fresh cache whose initial blend mode is 258, the
sequence `setBlendMode(258); setBlendMode(258)` issues no `glBlendFunc` at all,
not exactly one. -/
theorem setBlendMode_default_twice_issues_none :
    ((issued (create 258 (0, 0, 640, 480))
        (setBlendMode (setBlendMode (create 258 (0, 0, 640, 480)) 258) 258)).filter
          isBlendFunc).length ≠ 1 := by
  decide

/-- C2 (amended): from a freshly constructed cache, `setBlendMode(X); setBlendMode(Y)`
issues one `glBlendFunc` for the first call exactly when `X` differs from the
initial cached mode `DEFAULT`, plus one for the second call exactly when `Y`
differs from `X`. -/
theorem setBlendMode_fresh_call_count (DEFAULT : Nat) (viewport : Nat × Nat × Nat × Nat)
    (X Y : Nat) :
    ((issued (create DEFAULT viewport)
        (setBlendMode (setBlendMode (create DEFAULT viewport) X) Y)).filter isBlendFunc).length
      = (if X = DEFAULT then 0 else 1) + (if Y = X then 0 else 1) := by
  have hc : (create DEFAULT viewport)._currentBlendMode = DEFAULT := rfl
  generalize create DEFAULT viewport = s at hc
  have key : (setBlendMode (setBlendMode s X) Y).gl
      = s.gl ++ ((if X = DEFAULT then [] else [GLCall.glBlendFunc (X &&& 0x00ff) (X &&& 0xff00)])
          ++ (if Y = X then [] else [GLCall.glBlendFunc (Y &&& 0x00ff) (Y &&& 0xff00)])) := by
    subst hc
    unfold setBlendMode checkForErrors emit
    by_cases h1 : X = s._currentBlendMode
    · subst h1
      by_cases h2 : Y = s._currentBlendMode <;> simp [h2]
    · by_cases h2 : Y = X <;> simp [h1, h2]
  rw [issued_append s _ _ key]
  by_cases h1 : X = DEFAULT
  · subst h1
    by_cases h2 : Y = X <;> simp [h2, isBlendFunc]
  · by_cases h2 : Y = X <;> simp [h1, h2, isBlendFunc]

/-- C3: with the back buffer current, after `configureViewport(x, y, w, h)`, a
`setRenderToTexture(T, d)` on a texture `T != 0` that has a framebuffer succeeds,
and the following `setRenderToBackBuffer()` issues `glViewport(x, y, w, h)` as its
last call, leaves the cached viewport equal to `(x, y, w, h)` and the cached
target equal to 0. -/
theorem renderTarget_roundTrip_restores_viewport (s : OpenGLES2Context) (x y w h T : Nat)
    (d : Bool) (hback : s._currentTarget = 0) (hT : T ≠ 0)
    (hfb : StdMap.contains s._frameBuffers T = true) :
    ∃ s1, setRenderToTexture (configureViewport s x y w h) T d = .ok s1
      ∧ s1._currentTarget = T
      ∧ lastViewport (setRenderToBackBuffer s1).gl = some (x, y, w, h)
      ∧ (setRenderToBackBuffer s1).gl.getLast? = some (GLCall.glViewport x y w h)
      ∧ (setRenderToBackBuffer s1)._viewportX = x
      ∧ (setRenderToBackBuffer s1)._viewportY = y
      ∧ (setRenderToBackBuffer s1)._viewportWidth = w
      ∧ (setRenderToBackBuffer s1)._viewportHeight = h
      ∧ (setRenderToBackBuffer s1)._currentTarget = 0 := by
  have hv : (configureViewport s x y w h)._viewportX = x
      ∧ (configureViewport s x y w h)._viewportY = y
      ∧ (configureViewport s x y w h)._viewportWidth = w
      ∧ (configureViewport s x y w h)._viewportHeight = h
      ∧ (configureViewport s x y w h)._currentTarget = 0
      ∧ (configureViewport s x y w h)._frameBuffers = s._frameBuffers := by
    unfold configureViewport emit
    by_cases hc : x ≠ s._viewportX ∨ y ≠ s._viewportY ∨ w ≠ s._viewportWidth
        ∨ h ≠ s._viewportHeight
    · simp [hc, hback]
    · rw [if_neg hc]
      simp only [not_or, not_not] at hc
      obtain ⟨h1, h2, h3, h4⟩ := hc
      exact ⟨h1.symm, h2.symm, h3.symm, h4.symm, hback, rfl⟩
  generalize configureViewport s x y w h = c at hv
  obtain ⟨hx, hy, hw, hh, ht, hf⟩ := hv
  have hne : T ≠ c._currentTarget := by rw [ht]; exact hT
  have hfb2 : StdMap.contains c._frameBuffers T = true := by rw [hf]; exact hfb
  obtain ⟨s1, hs1, ht1, hx1, hy1, hw1, hh1⟩ := setRenderToTexture_ok c T d hne hfb2
  refine ⟨s1, hs1, ht1, ?_⟩
  have hT1 : ¬ s1._currentTarget = 0 := by rw [ht1]; exact hT
  simp [setRenderToBackBuffer, checkForErrors, emit, hT1, hx1, hy1, hw1, hh1, hx, hy, hw, hh,
    lastViewport_append_viewport, ← List.append_assoc]

/-- C3 (witness): the round trip on the sample context, texture 1, viewport (10, 20, 320, 240). -/
theorem renderTarget_roundTrip_restores_viewport_witness :
    ∃ s1, setRenderToTexture (configureViewport sampleContext 10 20 320 240) 1 true = .ok s1
      ∧ s1._currentTarget = 1
      ∧ lastViewport (setRenderToBackBuffer s1).gl = some (10, 20, 320, 240)
      ∧ (setRenderToBackBuffer s1).gl.getLast? = some (GLCall.glViewport 10 20 320 240)
      ∧ (setRenderToBackBuffer s1)._viewportX = 10
      ∧ (setRenderToBackBuffer s1)._viewportY = 20
      ∧ (setRenderToBackBuffer s1)._viewportWidth = 320
      ∧ (setRenderToBackBuffer s1)._viewportHeight = 240
      ∧ (setRenderToBackBuffer s1)._currentTarget = 0 :=
  renderTarget_roundTrip_restores_viewport sampleContext 10 20 320 240 1 true
    (by decide) (by decide) (by decide)

/-- C8: for each of the setters `setBlendMode` (both overloads), `setDepthTest`,
`setColorMask`, `setStencilTest`, `setTriangleCulling`, `setProgram` and
`configureViewport`, in every cache state and for every argument tuple, a second
call with the same arguments returns the state the first call produced: no call
is added to the log and no cache field changes. -/
theorem setters_idempotent (s : OpenGLES2Context) :
    (∀ b, setBlendMode (setBlendMode s b) b = setBlendMode s b)
    ∧ (∀ a b, setBlendModeSD (setBlendModeSD s a b) a b = setBlendModeSD s a b)
    ∧ (∀ m f, setDepthTest (setDepthTest s m f) m f = setDepthTest s m f)
    ∧ (∀ m, setColorMask (setColorMask s m) m = setColorMask s m)
    ∧ (∀ f r m a b c,
        setStencilTest (setStencilTest s f r m a b c) f r m a b c = setStencilTest s f r m a b c)
    ∧ (∀ t, setTriangleCulling (setTriangleCulling s t) t = setTriangleCulling s t)
    ∧ (∀ p, setProgram (setProgram s p) p = setProgram s p)
    ∧ (∀ x y w h,
        configureViewport (configureViewport s x y w h) x y w h = configureViewport s x y w h) :=
  ⟨setBlendMode_twice s, setBlendModeSD_twice s, setDepthTest_twice s, setColorMask_twice s,
    setStencilTest_twice s, setTriangleCulling_twice s, setProgram_twice s,
    configureViewport_twice s⟩

/-- C9 (code at the failing input): on a fresh context, after
`setVertexBufferAt(1, 5, 3, 8, 1)` the request `setVertexBufferAt(1, 5, 3, 8, 4)`,
which differs in its offset, issues nothing and leaves the cached offset at 1;
and after `setVertexBufferAt(0, 5, 3, 8, 4)` the identical request issues the
enable / bind / pointer calls again. -/
theorem setVertexBufferAt_compares_offset_with_position :
    issued (setVertexBufferAt (create 258 (0, 0, 640, 480)) 1 5 3 8 1)
        (setVertexBufferAt (setVertexBufferAt (create 258 (0, 0, 640, 480)) 1 5 3 8 1) 1 5 3 8 4)
      = []
    ∧ (setVertexBufferAt (setVertexBufferAt (create 258 (0, 0, 640, 480)) 1 5 3 8 1)
        1 5 3 8 4)._currentVertexOffset.getD 1 0 = 1
    ∧ issued (setVertexBufferAt (create 258 (0, 0, 640, 480)) 0 5 3 8 4)
        (setVertexBufferAt (setVertexBufferAt (create 258 (0, 0, 640, 480)) 0 5 3 8 4) 0 5 3 8 4)
      = [GLCall.glEnableVertexAttribArray 0, GLCall.glBindBuffer GLBufferTarget.ARRAY_BUFFER 5,
          GLCall.glVertexAttribPointer 0 3 32 16] := by
  decide

/-- C10: for a unit `position < 8`, `setTextureAt(position, t, location)` issues
`glActiveTexture(GL_TEXTURE0 + position)` followed by `glBindTexture(t)` when `t`
differs from the cached texture of the unit and neither call otherwise;
afterwards the cached texture of the unit is `t` and the entries of the other
units are unchanged. -/
theorem setTextureAt_binds_iff_differs (s : OpenGLES2Context) (position : Nat)
    (t location : Int) (hpos : position < 8) (hlen : s._currentTexture.length = 8) :
    (issued s (setTextureAt s position t location)).filter isTextureBind
        = (if s._currentTexture.getD position 0 ≠ t
            then [GLCall.glActiveTexture position, GLCall.glBindTexture t] else [])
    ∧ (setTextureAt s position t location)._currentTexture.getD position 0 = t
    ∧ (setTextureAt s position t location)._currentTexture.length = 8
    ∧ ∀ u, u ≠ position →
        (setTextureAt s position t location)._currentTexture.getD u 0
          = s._currentTexture.getD u 0 := by
  have hp : position < s._currentTexture.length := by omega
  simp only [List.getD_eq_getElem?_getD]
  by_cases hd : s._currentTexture[position]?.getD 0 = t
    <;> by_cases hu : t > 0 ∧ location ≥ 0
  · refine ⟨?_, ?_, ?_, ?_⟩
    · rw [issued_append s _ [GLCall.glUniform1i location position]
        (by simp [setTextureAt, checkForErrors, emit, hd, hu])]
      simp [hd, isTextureBind]
    all_goals simp [setTextureAt, checkForErrors, emit, hd, hu, hlen]
  · refine ⟨?_, ?_, ?_, ?_⟩
    · rw [issued_append s _ [] (by simp [setTextureAt, checkForErrors, emit, hd, hu])]
      simp [hd]
    all_goals simp [setTextureAt, checkForErrors, emit, hd, hu, hlen]
  · refine ⟨?_, ?_, ?_, ?_⟩
    · rw [issued_append s _ [GLCall.glActiveTexture position, GLCall.glBindTexture t,
          GLCall.glUniform1i location position]
        (by simp [setTextureAt, checkForErrors, emit, hd, hu])]
      simp [hd, isTextureBind]
    · have hd2 : ¬ s._currentTexture[position] = t := by simpa [hp] using hd
      simp [setTextureAt, checkForErrors, emit, hd2, hu, hp]
    · simp [setTextureAt, checkForErrors, emit, hd, hu, hlen]
    · intro u hne
      simp [setTextureAt, checkForErrors, emit, hd, hu, List.getElem?_set_ne (Ne.symm hne)]
  · refine ⟨?_, ?_, ?_, ?_⟩
    · rw [issued_append s _ [GLCall.glActiveTexture position, GLCall.glBindTexture t]
        (by simp [setTextureAt, checkForErrors, emit, hd, hu])]
      simp [hd, isTextureBind]
    · have hd2 : ¬ s._currentTexture[position] = t := by simpa [hp] using hd
      simp [setTextureAt, checkForErrors, emit, hd2, hu, hp]
    · simp [setTextureAt, checkForErrors, emit, hd, hu, hlen]
    · intro u hne
      simp [setTextureAt, checkForErrors, emit, hd, hu, List.getElem?_set_ne (Ne.symm hne)]

/-- C10 (witness): unit 3 of the sample context, texture 1, location 2. -/
theorem setTextureAt_binds_iff_differs_witness :
    (issued sampleContext (setTextureAt sampleContext 3 1 2)).filter isTextureBind
        = (if sampleContext._currentTexture.getD 3 0 ≠ 1
            then [GLCall.glActiveTexture 3, GLCall.glBindTexture 1] else [])
    ∧ (setTextureAt sampleContext 3 1 2)._currentTexture.getD 3 0 = 1
    ∧ (setTextureAt sampleContext 3 1 2)._currentTexture.length = 8
    ∧ ∀ u, u ≠ 3 →
        (setTextureAt sampleContext 3 1 2)._currentTexture.getD u 0
          = sampleContext._currentTexture.getD u 0 :=
  setTextureAt_binds_iff_differs sampleContext 3 1 2 (by decide) (by decide)

end OpenGLES2Context
end render
end minko

namespace minko

/-! ## Lemmas about association lists -/

theorem StdMap.find?_insert_self {κ α : Type} [DecidableEq κ] (m : StdMap κ α) (k : κ) (v : α) :
    StdMap.find? (StdMap.insert m k v) k = some v := by
  induction m with
  | nil => simp [StdMap.insert, StdMap.find?]
  | cons b rest ih =>
    obtain ⟨k1, v1⟩ := b
    by_cases h : k1 = k
    · simp [StdMap.insert, StdMap.find?, h]
    · simp [StdMap.insert, StdMap.find?, h, ih]

theorem StdMap.find?_insert_ne {κ α : Type} [DecidableEq κ] (m : StdMap κ α) (k k2 : κ) (v : α)
    (hne : k ≠ k2) : StdMap.find? (StdMap.insert m k v) k2 = StdMap.find? m k2 := by
  induction m with
  | nil => simp [StdMap.insert, StdMap.find?, hne]
  | cons b rest ih =>
    obtain ⟨k1, v1⟩ := b
    by_cases h : k1 = k
    · subst h
      simp [StdMap.insert, StdMap.find?, hne]
    · simp only [StdMap.insert, h, if_false, StdMap.find?, ih]

end minko

namespace minko
namespace render
namespace DrawCall

/-! ## Theorems about the draw-call binder -/

theorem bindVertexAttribute_withStateValues (D : Bool) (dc : DrawCall) (n : String) (k : Nat)
    (b : Nat) (m : Bool) (f : CompareMode) (c : TriangleCulling) :
    bindVertexAttribute D (withStateValues dc b m f c) n k
      = mapOutcome (fun x => withStateValues x b m f c) (bindVertexAttribute D dc n k) := by
  unfold bindVertexAttribute
  simp only [withStateValues, dataHasProperty, getDataProperty]
  repeat' split
  all_goals rfl

theorem bindTextureSampler2D_withStateValues (D : Bool) (dc : DrawCall) (n : String) (k : Nat)
    (b : Nat) (m : Bool) (f : CompareMode) (c : TriangleCulling) :
    bindTextureSampler2D D (withStateValues dc b m f c) n k
      = mapOutcome (fun x => withStateValues x b m f c) (bindTextureSampler2D D dc n k) := by
  unfold bindTextureSampler2D
  simp only [withStateValues, dataHasProperty, getDataProperty]
  repeat' split
  all_goals rfl

theorem bindUniform_withStateValues (D : Bool) (dc : DrawCall) (n : String)
    (b : Nat) (m : Bool) (f : CompareMode) (c : TriangleCulling) :
    bindUniform D (withStateValues dc b m f c) n
      = mapOutcome (fun x => withStateValues x b m f c) (bindUniform D dc n) := by
  unfold bindUniform
  simp only [withStateValues, dataHasProperty, getDataProperty]
  repeat' split
  all_goals rfl

theorem bindVertexAttribute_step (D : Bool) (dc dc1 : DrawCall) (program : Program)
    (inputs : ProgramInputs) (n : String) (k j : Nat)
    (hp : dc._program = some program) (hi : program.inputs = some inputs)
    (ht : inputs.type n = InputType.attribute)
    (h : bindVertexAttribute D dc n k = .ok dc1) : BindStep inputs dc n k j dc1 := by
  unfold bindVertexAttribute at h
  simp only [hp, hi] at h
  split at h
  · cases h
  · split at h
    · cases h
      exact BindStep.skips (Or.inr (Or.inr (Or.inl (by assumption))))
    · split at h
      · rename_i hh
        cases h
        exact BindStep.skips (Or.inr (Or.inr (Or.inr (Or.inl ⟨ht, by simpa using hh⟩))))
      · rename_i hl hh
        split at h
        · cases h
        · rename_i vb hv
          split at h
          · cases h
          · rename_i a ha
            split at h
            · cases h
            · rename_i hk
              cases h
              have hstep : BindStep inputs dc n k j _ :=
                BindStep.bindsAttribute vb a ht (not_lt.mp hl) (by simpa using hh) hv ha
                  (Nat.lt_of_not_ge hk)
              simp only [hp] at hstep
              exact hstep
        · cases h

theorem bindTextureSampler2D_step (D : Bool) (dc dc1 : DrawCall) (program : Program)
    (inputs : ProgramInputs) (n : String) (k j : Nat)
    (hp : dc._program = some program) (hi : program.inputs = some inputs)
    (ht : inputs.type n = InputType.sampler2d)
    (h : bindTextureSampler2D D dc n j = .ok dc1) : BindStep inputs dc n k j dc1 := by
  unfold bindTextureSampler2D at h
  simp only [hp, hi] at h
  split at h
  · cases h
  · split at h
    · cases h
      exact BindStep.skips (Or.inr (Or.inr (Or.inl (by assumption))))
    · rename_i hl
      split at h
      · cases h
      · rename_i t hv
        split at h
        · cases h
        · rename_i hj
          cases h
          have hstep : BindStep inputs dc n k j _ :=
            BindStep.bindsSampler t ht (not_lt.mp hl) hv (Nat.lt_of_not_ge hj)
          simp only [hp] at hstep
          exact hstep
      · cases h

theorem bindUniform_step (D : Bool) (dc dc1 : DrawCall) (program : Program)
    (inputs : ProgramInputs) (n : String) (k j : Nat)
    (hp : dc._program = some program) (hi : program.inputs = some inputs)
    (hta : inputs.type n ≠ InputType.attribute) (hts : inputs.type n ≠ InputType.sampler2d)
    (h : bindUniform D dc n = .ok dc1) : BindStep inputs dc n k j dc1 := by
  unfold bindUniform at h
  simp only [hp, hi] at h
  split at h
  · rename_i h1
    cases h
    rcases h1 with h1 | h1
    · exact BindStep.skips (Or.inr (Or.inl h1))
    · exact BindStep.skips (Or.inr (Or.inr (Or.inl h1)))
  · rename_i h1
    simp only [not_or, not_lt] at h1
    split at h
    · cases h
    · split at h
      · rename_i hh
        cases h
        exact BindStep.skips (Or.inr (Or.inr (Or.inr (Or.inr ⟨hta, hts, by simpa using hh⟩))))
      · split at h
        any_goals (first | (cases h; done) | skip)
        all_goals
            (rename_i v ht hv
             cases h
             first
              | (have hstep : BindStep inputs dc n k j _ := BindStep.bindsFloat1 v ht h1.2 hv
                 simp only [hp] at hstep
                 exact hstep)
              | (have hstep : BindStep inputs dc n k j _ := BindStep.bindsFloat2 v ht h1.2 hv
                 simp only [hp] at hstep
                 exact hstep)
              | (have hstep : BindStep inputs dc n k j _ := BindStep.bindsFloat3 v ht h1.2 hv
                 simp only [hp] at hstep
                 exact hstep)
              | (have hstep : BindStep inputs dc n k j _ := BindStep.bindsFloat4 v ht h1.2 hv
                 simp only [hp] at hstep
                 exact hstep)
              | (have hstep : BindStep inputs dc n k j _ := BindStep.bindsFloat16 v ht h1.2 hv
                 simp only [hp] at hstep
                 exact hstep))

theorem bindProperty_step (D : Bool) (dc dc1 : DrawCall) (program : Program)
    (inputs : ProgramInputs) (n : String) (k j : Nat) (ty : InputType)
    (hp : dc._program = some program) (hi : program.inputs = some inputs)
    (h : bindProperty D dc n k j = .ok (ty, dc1)) :
    ty = (if inputs.hasName n then inputs.type n else InputType.unknown)
      ∧ BindStep inputs dc n k j dc1 := by
  unfold bindProperty at h
  simp only [hp, hi] at h
  split at h
  · rename_i hn
    cases h
    have hn2 : inputs.hasName n = false := by simpa using hn
    exact ⟨by simp [hn2], BindStep.skips (Or.inl hn2)⟩
  · rename_i hn
    have hn2 : inputs.hasName n = true := by simpa using hn
    simp only [hn2, if_true]
    split at h
    · rename_i ht
      split at h
      · cases h
      · rename_i dc2 hb
        cases h
        exact ⟨rfl, bindVertexAttribute_step D dc dc1 program inputs n k j hp hi ht hb⟩
    · rename_i ht
      split at h
      · cases h
      · rename_i dc2 hb
        cases h
        exact ⟨rfl, bindTextureSampler2D_step D dc dc1 program inputs n k j hp hi ht hb⟩
    · rename_i ht
      cases h
      exact ⟨rfl, BindStep.skips (Or.inr (Or.inl ht))⟩
    · rename_i hta hts htu
      split at h
      · cases h
      · rename_i dc2 hb
        cases h
        exact ⟨rfl, bindUniform_step D dc dc1 program inputs n k j hp hi hta hts hb⟩

theorem bindProperty_withStateValues (D : Bool) (dc : DrawCall) (n : String) (k j : Nat)
    (b : Nat) (m : Bool) (f : CompareMode) (c : TriangleCulling) :
    bindProperty D (withStateValues dc b m f c) n k j
      = match bindProperty D dc n k j with
        | .ok (ty, x) => .ok (ty, withStateValues x b m f c)
        | .error (e, x) => .error (e, withStateValues x b m f c) := by
  unfold bindProperty
  rw [bindVertexAttribute_withStateValues, bindTextureSampler2D_withStateValues,
    bindUniform_withStateValues]
  rcases dc with ⟨a1, a2, a3, a4, prog⟩
  simp only [withStateValues]
  rcases prog with _ | ⟨pid, ins⟩
  · rfl
  rcases ins with _ | inputs
  · rfl
  dsimp only
  by_cases hn : inputs.hasName n = true
  · simp only [hn, not_true_eq_false, if_false]
    cases inputs.type n <;> dsimp only <;>
      first
        | rfl
        | (generalize bindVertexAttribute D _ n k = r
           rcases r with ⟨e, x⟩ | x <;> rfl)
        | (generalize bindTextureSampler2D D _ n j = r
           rcases r with ⟨e, x⟩ | x <;> rfl)
        | (generalize bindUniform D _ n = r
           rcases r with ⟨e, x⟩ | x <;> rfl)
  · simp [hn]

theorem bindInputs_withStateValues (D : Bool) (names : List String) (b : Nat) (m : Bool)
    (f : CompareMode) (c : TriangleCulling) :
    ∀ (dc : DrawCall) (k j : Nat),
      bindInputs D names (withStateValues dc b m f c) k j
        = mapOutcome (fun x => withStateValues x b m f c) (bindInputs D names dc k j) := by
  induction names with
  | nil => intro dc k j; rfl
  | cons n rest ih =>
    intro dc k j
    simp only [bindInputs]
    rw [bindProperty_withStateValues]
    rcases bindProperty D dc n k j with ⟨e, x⟩ | ⟨ty, x⟩
    · rfl
    · dsimp only
      split_ifs
      · exact ih x (k + 1) j
      · exact ih x k (j + 1)
      · exact ih x k j

theorem bindStates_withStateValues (dc : DrawCall) (b : Nat) (m : Bool) (f : CompareMode)
    (c : TriangleCulling) :
    (bindStates (withStateValues dc b m f c)).toOption = (bindStates dc).toOption := by
  unfold bindStates
  simp only [withStateValues, dataHasProperty, getDataProperty, getDataPropertyOr]
  repeat' split
  all_goals rfl

theorem toOption_eq_some {ε α : Type} (r : Except ε α) (x : α) :
    r.toOption = some x ↔ r = .ok x := by
  cases r <;> simp [Except.toOption]

theorem configure_ok_iff (D : Bool) (dc : DrawCall) (program : Program)
    (data rootData : Container) (res : DrawCall) :
    configure D dc program data rootData = .ok res ↔
      ∃ ib inputs mid,
        getDataProperty { dc with _data := data, _rootData := rootData } "geometry.indices"
            = some (Value.indexBuffer ib)
        ∧ program.inputs = some inputs
        ∧ bindInputs D inputs.names (prepared dc program data rootData ib) 0 0 = .ok mid
        ∧ bindStates mid = .ok res := by
  unfold configure bind
  simp only [getDataProperty, reset, prepared]
  constructor
  · intro h
    split at h
    · cases h
    · rename_i ib hib
      split at h
      · cases h
      · rename_i ins hins
        split at h
        · cases h
        · rename_i mid hmid
          exact ⟨ib, ins, mid, hib, hins, hmid, h⟩
    · cases h
  · rintro ⟨ib, ins, mid, hib, hins, hmid, h⟩
    simp only [hib, hins, hmid]
    exact h

theorem BindStep.sameEnvironment {inputs : ProgramInputs} {dc dc1 : DrawCall} {n : String}
    {k j : Nat} (h : BindStep inputs dc n k j dc1) : sameEnvironment dc1 dc := by
  cases h <;> exact ⟨rfl, rfl, rfl, rfl, rfl, rfl, rfl⟩

theorem sameEnvironment_trans {a b c : DrawCall} (h1 : sameEnvironment a b)
    (h2 : sameEnvironment b c) : sameEnvironment a c := by
  obtain ⟨p1, p2, p3, p4, p5, p6, p7⟩ := h1
  obtain ⟨q1, q2, q3, q4, q5, q6, q7⟩ := h2
  exact ⟨p1.trans q1, p2.trans q2, p3.trans q3, p4.trans q4, p5.trans q5, p6.trans q6,
    p7.trans q7⟩

theorem bindInputs_sameEnvironment (D : Bool) (program : Program) (inputs : ProgramInputs)
    (hi : program.inputs = some inputs) (names : List String) :
    ∀ (dc res : DrawCall) (k j : Nat), dc._program = some program →
      bindInputs D names dc k j = .ok res → sameEnvironment res dc := by
  induction names with
  | nil =>
    intro dc res k j _ h
    simp only [bindInputs] at h
    cases h
    exact ⟨rfl, rfl, rfl, rfl, rfl, rfl, rfl⟩
  | cons n rest ih =>
    intro dc res k j hp h
    simp only [bindInputs] at h
    split at h
    · cases h
    · rename_i ty x hx
      have hstep := (bindProperty_step D dc x program inputs n k j ty hp hi hx).2
      have henv := hstep.sameEnvironment
      have hpx : x._program = some program := by rw [henv.2.2.2.2.1]; exact hp
      split_ifs at h
      · exact sameEnvironment_trans (ih x res _ _ hpx h) henv
      · exact sameEnvironment_trans (ih x res _ _ hpx h) henv
      · exact sameEnvironment_trans (ih x res _ _ hpx h) henv

theorem bindStates_ok (dc res : DrawCall) (h : bindStates dc = .ok res) :
    ∃ b m f c t, res = { dc with
      _blendMode := b, _depthMask := m, _depthFunc := f, _triangleCulling := c, _target := t } := by
  unfold bindStates at h
  simp only [] at h
  repeat' split at h
  all_goals first
    | (cases h; done)
    | (cases h; exact ⟨_, _, _, _, _, rfl⟩)

theorem prepared_withStateValues (dc1 dc2 : DrawCall) (program : Program)
    (data rootData : Container) (ib : IndexBuffer)
    (hA : dc1._attributeBindings = dc2._attributeBindings)
    (hU : dc1._uniformBindings = dc2._uniformBindings)
    (hS : dc1._stateBindings = dc2._stateBindings) (hSt : dc1._states = dc2._states) :
    prepared dc2 program data rootData ib
      = withStateValues (prepared dc1 program data rootData ib)
          dc2._blendMode dc2._depthMask dc2._depthFunc dc2._triangleCulling := by
  simp [prepared, reset, withStateValues, hA, hU, hS, hSt]

theorem configure_transfer (D : Bool) (dc1 dc2 : DrawCall) (program : Program)
    (data rootData : Container) (res : DrawCall)
    (hA : dc1._attributeBindings = dc2._attributeBindings)
    (hU : dc1._uniformBindings = dc2._uniformBindings)
    (hS : dc1._stateBindings = dc2._stateBindings) (hSt : dc1._states = dc2._states)
    (h1 : configure D dc1 program data rootData = .ok res) :
    configure D dc2 program data rootData = .ok res := by
  obtain ⟨ib, ins, mid, hib, hins, hmid, hst⟩ := (configure_ok_iff _ _ _ _ _ _).mp h1
  refine (configure_ok_iff _ _ _ _ _ _).mpr
    ⟨ib, ins, withStateValues mid dc2._blendMode dc2._depthMask dc2._depthFunc
      dc2._triangleCulling, hib, hins, ?_, ?_⟩
  · rw [prepared_withStateValues dc1 dc2 program data rootData ib hA hU hS hSt,
      bindInputs_withStateValues, hmid]
    rfl
  · rw [← toOption_eq_some, bindStates_withStateValues, toOption_eq_some]
    exact hst

theorem configure_sameEnvironment (D : Bool) (dc : DrawCall) (program : Program)
    (data rootData : Container) (res : DrawCall)
    (h : configure D dc program data rootData = .ok res) :
    res._attributeBindings = dc._attributeBindings ∧ res._uniformBindings = dc._uniformBindings
      ∧ res._stateBindings = dc._stateBindings ∧ res._states = dc._states
      ∧ res._program = some program ∧ res._data = data ∧ res._rootData = rootData := by
  obtain ⟨ib, ins, mid, hib, hins, hmid, hst⟩ := (configure_ok_iff _ _ _ _ _ _).mp h
  have h1 := bindInputs_sameEnvironment D program ins hins ins.names
    (prepared dc program data rootData ib) mid 0 0 rfl hmid
  obtain ⟨b, m, f, c, t, hres⟩ := bindStates_ok mid res hst
  obtain ⟨p1, p2, p3, p4, p5, p6, p7⟩ := h1
  subst hres
  exact ⟨p1, p2, p3, p4, p5, p6, p7⟩

/-- C4: when `configure` succeeds on a draw call, it succeeds with the very same
resulting draw call (index buffer id and count, texture and attribute slots,
uniform maps, state values and target included) on every other draw call that
has the same binding maps and `States`, whatever that draw call held before;
in particular configuring the result again with the same arguments returns it
unchanged. -/
theorem configure_depends_only_on_arguments (DEBUG : Bool) (dc1 dc2 : DrawCall)
    (program : Program) (data rootData : Container) (res : DrawCall)
    (hA : dc1._attributeBindings = dc2._attributeBindings)
    (hU : dc1._uniformBindings = dc2._uniformBindings)
    (hS : dc1._stateBindings = dc2._stateBindings) (hSt : dc1._states = dc2._states)
    (h1 : configure DEBUG dc1 program data rootData = .ok res) :
    configure DEBUG dc2 program data rootData = .ok res
      ∧ configure DEBUG res program data rootData = .ok res := by
  have henv := configure_sameEnvironment DEBUG dc1 program data rootData res h1
  exact ⟨configure_transfer DEBUG dc1 dc2 program data rootData res hA hU hS hSt h1,
    configure_transfer DEBUG dc1 res program data rootData res henv.1.symm henv.2.1.symm
      henv.2.2.1.symm henv.2.2.2.1.symm h1⟩

/-- C4 (witness): the never-configured sample draw call and the one already
configured on other data give the same result on the container without "uColor". -/
theorem configure_depends_only_on_arguments_witness :
    configure false sampleConfigured sampleProgram sampleLocalNoColor emptyContainer
        = .ok sampleReconfigured
      ∧ configure false sampleReconfigured sampleProgram sampleLocalNoColor emptyContainer
        = .ok sampleReconfigured :=
  configure_depends_only_on_arguments false sampleDrawCall sampleConfigured sampleProgram
    sampleLocalNoColor emptyContainer sampleReconfigured rfl rfl rfl rfl rfl

/-- C5 (counterexample): `sampleConfigured` holds a successful configuration with
index buffer 7, 36 indices and blend mode 258; configuring it again with
containers that lack "geometry.indices" fails, and the failed draw call still
holds index buffer 7, 36 indices and blend mode 258. -/
theorem configure_failure_keeps_stale_index_and_states :
    configure false sampleDrawCall sampleProgram sampleLocal emptyContainer = .ok sampleConfigured
    ∧ sampleConfigured._indexBuffer = 7
    ∧ ∃ e dc, configure false sampleConfigured sampleProgram emptyContainer emptyContainer
          = .error (e, dc)
        ∧ dc._indexBuffer = 7 ∧ dc._numIndices = 36 ∧ dc._blendMode = 258
        ∧ dc._depthMask = true ∧ dc._depthFunc = CompareMode.LESS
        ∧ dc._triangleCulling = TriangleCulling.BACK := by
  refine ⟨rfl, by decide, _, _, rfl, ?_⟩
  decide

/-- C5 (amended): when neither container has "geometry.indices", `configure`
fails with the missing-property failure and leaves every texture and attribute
slot unbound, every uniform map empty and no target; the index buffer id, the
index count and the blend, depth and culling values are not reset, they keep the
values the draw call held before. -/
theorem configure_without_indices_fails (DEBUG : Bool) (dc : DrawCall) (program : Program)
    (data rootData : Container)
    (hlocal : data.hasProperty "geometry.indices" = false)
    (hglobal : rootData.hasProperty "geometry.indices" = false) :
    ∃ dc1, configure DEBUG dc program data rootData
        = .error (Failure.missing_property "geometry.indices", dc1)
      ∧ dc1._textures = List.replicate 8 (-1)
      ∧ dc1._textureLocations = List.replicate 8 (-1)
      ∧ dc1._textureWrapMode = List.replicate 8 WrapMode.CLAMP
      ∧ dc1._textureFilters = List.replicate 8 TextureFilter.NEAREST
      ∧ dc1._textureMipFilters = List.replicate 8 MipFilter.NONE
      ∧ dc1._vertexBuffers = List.replicate 8 (-1)
      ∧ dc1._vertexBufferLocations = List.replicate 8 (-1)
      ∧ dc1._vertexSizes = List.replicate 8 (-1)
      ∧ dc1._vertexAttributeSizes = List.replicate 8 (-1)
      ∧ dc1._vertexAttributeOffsets = List.replicate 8 (-1)
      ∧ dc1._uniformFloat = [] ∧ dc1._uniformFloat2 = [] ∧ dc1._uniformFloat3 = []
      ∧ dc1._uniformFloat4 = [] ∧ dc1._uniformFloat16 = []
      ∧ dc1._target = none
      ∧ dc1._indexBuffer = dc._indexBuffer ∧ dc1._numIndices = dc._numIndices
      ∧ dc1._blendMode = dc._blendMode ∧ dc1._depthMask = dc._depthMask
      ∧ dc1._depthFunc = dc._depthFunc ∧ dc1._triangleCulling = dc._triangleCulling := by
  have hget : rootData.get "geometry.indices" = none := by
    simpa [Container.hasProperty, Container.get, StdMap.contains] using hglobal
  refine ⟨{ reset { dc with _program := some program } with
      _data := data, _rootData := rootData }, ?_, ?_⟩
  · simp [configure, bind, getDataProperty, hlocal, hget]
  · simp [reset, MAX_NUM_TEXTURES, MAX_NUM_VERTEXBUFFERS]

/-- C5 (witness): the configured sample draw call, configured again with empty containers. -/
theorem configure_without_indices_fails_witness :
    ∃ dc1, configure false sampleConfigured sampleProgram emptyContainer emptyContainer
        = .error (Failure.missing_property "geometry.indices", dc1)
      ∧ dc1._textures = List.replicate 8 (-1)
      ∧ dc1._textureLocations = List.replicate 8 (-1)
      ∧ dc1._textureWrapMode = List.replicate 8 WrapMode.CLAMP
      ∧ dc1._textureFilters = List.replicate 8 TextureFilter.NEAREST
      ∧ dc1._textureMipFilters = List.replicate 8 MipFilter.NONE
      ∧ dc1._vertexBuffers = List.replicate 8 (-1)
      ∧ dc1._vertexBufferLocations = List.replicate 8 (-1)
      ∧ dc1._vertexSizes = List.replicate 8 (-1)
      ∧ dc1._vertexAttributeSizes = List.replicate 8 (-1)
      ∧ dc1._vertexAttributeOffsets = List.replicate 8 (-1)
      ∧ dc1._uniformFloat = [] ∧ dc1._uniformFloat2 = [] ∧ dc1._uniformFloat3 = []
      ∧ dc1._uniformFloat4 = [] ∧ dc1._uniformFloat16 = []
      ∧ dc1._target = none
      ∧ dc1._indexBuffer = sampleConfigured._indexBuffer
      ∧ dc1._numIndices = sampleConfigured._numIndices
      ∧ dc1._blendMode = sampleConfigured._blendMode
      ∧ dc1._depthMask = sampleConfigured._depthMask
      ∧ dc1._depthFunc = sampleConfigured._depthFunc
      ∧ dc1._triangleCulling = sampleConfigured._triangleCulling :=
  configure_without_indices_fails false sampleConfigured sampleProgram emptyContainer
    emptyContainer (by decide) (by decide)

theorem hasName_of_mem (inputs : ProgramInputs) (n : String) (h : n ∈ inputs.names) :
    inputs.hasName n = true := by
  simp only [ProgramInputs.names, List.mem_map] at h
  obtain ⟨i, hi, hn⟩ := h
  simp only [ProgramInputs.hasName, ProgramInputs.lookup, List.find?_isSome]
  exact ⟨i, hi, by simpa using hn⟩

theorem getDataProperty_absent (dc : DrawCall) (p : String)
    (hl : dc._data.hasProperty p = false) (hg : dc._rootData.hasProperty p = false) :
    getDataProperty dc p = none ∧ dataHasProperty dc p = false := by
  refine ⟨?_, by simp [dataHasProperty, hl, hg]⟩
  simp only [getDataProperty, hl, Bool.false_eq_true, if_false]
  simpa [Container.hasProperty, Container.get, StdMap.contains] using hg

theorem bindProperty_absent_uniform (D : Bool) (dc : DrawCall) (program : Program)
    (inputs : ProgramInputs) (name : String) (k j : Nat)
    (hp : dc._program = some program) (hi : program.inputs = some inputs)
    (hname : name ∈ inputs.names) (ht : isFloatUniform (inputs.type name) = true)
    (hl : dc._data.hasProperty (resolve dc._uniformBindings name) = false)
    (hg : dc._rootData.hasProperty (resolve dc._uniformBindings name) = false) :
    bindProperty D dc name k j = .ok (inputs.type name, dc) := by
  have hn := hasName_of_mem inputs name hname
  have hd := (getDataProperty_absent dc _ hl hg).2
  unfold bindProperty
  simp only [hp, hi, hn]
  cases hty : inputs.type name <;> simp [hty, isFloatUniform] at ht ⊢ <;>
    · unfold bindUniform
      simp only [hp, hi, hty, hd]
      by_cases hloc : inputs.location name < 0 <;> simp [hloc]

theorem BindStep.noUniformAt {inputs : ProgramInputs} {dc dc1 : DrawCall} {n name : String}
    {k j : Nat} (h : BindStep inputs dc n k j dc1)
    (hl : dc._data.hasProperty (resolve dc._uniformBindings name) = false)
    (hg : dc._rootData.hasProperty (resolve dc._uniformBindings name) = false)
    (hother : n ≠ name → isFloatUniform (inputs.type n) = true →
      inputs.location n ≠ inputs.location name)
    (hinv : noUniformAt dc (inputs.location name)) :
    noUniformAt dc1 (inputs.location name) := by
  have habs := (getDataProperty_absent dc _ hl hg).1
  obtain ⟨i1, i2, i3, i4, i5⟩ := hinv
  cases h with
  | skips _ => exact ⟨i1, i2, i3, i4, i5⟩
  | bindsAttribute => exact ⟨i1, i2, i3, i4, i5⟩
  | bindsSampler => exact ⟨i1, i2, i3, i4, i5⟩
  | bindsFloat1 v ht _ hv =>
    have hne : n ≠ name := by rintro rfl; rw [habs] at hv; cases hv
    have hloc := hother hne (by simp [ht, isFloatUniform])
    exact ⟨by simp only [StdMap.find?_insert_ne _ _ _ _ hloc, i1], i2, i3, i4, i5⟩
  | bindsFloat2 v ht _ hv =>
    have hne : n ≠ name := by rintro rfl; rw [habs] at hv; cases hv
    have hloc := hother hne (by simp [ht, isFloatUniform])
    exact ⟨i1, by simp only [StdMap.find?_insert_ne _ _ _ _ hloc, i2], i3, i4, i5⟩
  | bindsFloat3 v ht _ hv =>
    have hne : n ≠ name := by rintro rfl; rw [habs] at hv; cases hv
    have hloc := hother hne (by simp [ht, isFloatUniform])
    exact ⟨i1, i2, by simp only [StdMap.find?_insert_ne _ _ _ _ hloc, i3], i4, i5⟩
  | bindsFloat4 v ht _ hv =>
    have hne : n ≠ name := by rintro rfl; rw [habs] at hv; cases hv
    have hloc := hother hne (by simp [ht, isFloatUniform])
    exact ⟨i1, i2, i3, by simp only [StdMap.find?_insert_ne _ _ _ _ hloc, i4], i5⟩
  | bindsFloat16 v ht _ hv =>
    have hne : n ≠ name := by rintro rfl; rw [habs] at hv; cases hv
    have hloc := hother hne (by simp [ht, isFloatUniform])
    exact ⟨i1, i2, i3, i4, by simp only [StdMap.find?_insert_ne _ _ _ _ hloc, i5]⟩

theorem bindInputs_noUniformAt (D : Bool) (program : Program) (inputs : ProgramInputs)
    (hi : program.inputs = some inputs) (name : String) (ub : StdMap String String)
    (data rootData : Container)
    (hl : data.hasProperty (resolve ub name) = false)
    (hg : rootData.hasProperty (resolve ub name) = false) (names : List String)
    (hother : ∀ m ∈ names, m ≠ name → isFloatUniform (inputs.type m) = true →
      inputs.location m ≠ inputs.location name) :
    ∀ (dc res : DrawCall) (k j : Nat), dc._program = some program →
      dc._uniformBindings = ub → dc._data = data → dc._rootData = rootData →
      noUniformAt dc (inputs.location name) →
      bindInputs D names dc k j = .ok res → noUniformAt res (inputs.location name) := by
  induction names with
  | nil =>
    intro dc res k j _ _ _ _ hinv h
    simp only [bindInputs] at h
    cases h
    exact hinv
  | cons n rest ih =>
    intro dc res k j hp hub hd hr hinv h
    simp only [bindInputs] at h
    split at h
    · cases h
    · rename_i ty x hx
      have hstep := (bindProperty_step D dc x program inputs n k j ty hp hi hx).2
      obtain ⟨_, e2, _, _, e5, e6, e7⟩ := hstep.sameEnvironment
      have hinv2 : DrawCall.noUniformAt x (inputs.location name) :=
        hstep.noUniformAt (by rw [hd, hub]; exact hl)
        (by rw [hr, hub]; exact hg) (hother n (List.mem_cons_self _ _)) hinv
      have ih2 := fun k j => ih (fun m hm => hother m (List.mem_cons_of_mem _ hm)) x res k j
        (by rw [e5]; exact hp) (by rw [e2]; exact hub) (by rw [e6]; exact hd)
        (by rw [e7]; exact hr) hinv2
      split_ifs at h
      · exact ih2 _ _ h
      · exact ih2 _ _ h
      · exact ih2 _ _ h

/-- C6: for a float1/2/3/4/16 uniform input `name` whose effective property is in
neither container, binding that input returns without error and leaves the draw
call as it was, at whatever point of `configure` it happens; and when no other
float uniform input shares its hardware location, the draw call a successful
`configure` returns has no entry at that location in any uniform map. -/
theorem absent_uniform_is_omitted (DEBUG : Bool) (dc : DrawCall) (program : Program)
    (inputs : ProgramInputs) (data rootData : Container) (name : String)
    (hi : program.inputs = some inputs) (hname : name ∈ inputs.names)
    (ht : isFloatUniform (inputs.type name) = true)
    (hl : data.hasProperty (resolve dc._uniformBindings name) = false)
    (hg : rootData.hasProperty (resolve dc._uniformBindings name) = false)
    (hother : ∀ m ∈ inputs.names, m ≠ name → isFloatUniform (inputs.type m) = true →
      inputs.location m ≠ inputs.location name) :
    (∀ (dc1 : DrawCall) (k j : Nat), dc1._program = some program →
        dc1._uniformBindings = dc._uniformBindings → dc1._data = data →
        dc1._rootData = rootData →
        bindProperty DEBUG dc1 name k j = .ok (inputs.type name, dc1))
      ∧ (∀ res, configure DEBUG dc program data rootData = .ok res →
          noUniformAt res (inputs.location name)) := by
  constructor
  · intro dc1 k j hp hub hd hr
    exact bindProperty_absent_uniform DEBUG dc1 program inputs name k j hp hi hname ht
      (by rw [hd, hub]; exact hl) (by rw [hr, hub]; exact hg)
  · intro res h
    obtain ⟨ib, ins, mid, _, hins, hmid, hst⟩ := (configure_ok_iff _ _ _ _ _ _).mp h
    have e : ins = inputs := by rw [hi] at hins; cases hins; rfl
    subst e
    have hmidinv := bindInputs_noUniformAt DEBUG program ins hi name dc._uniformBindings
      data rootData hl hg ins.names hother (prepared dc program data rootData ib) mid 0 0
      rfl rfl rfl rfl ⟨rfl, rfl, rfl, rfl, rfl⟩ hmid
    obtain ⟨b, m, f, c, t, hres⟩ := bindStates_ok mid res hst
    subst hres
    exact hmidinv

/-- C6 (witness): the sample program configured on the local container without
"uColor": binding "uColor" changes nothing and the result has no entry at its
location 2. -/
theorem absent_uniform_is_omitted_witness :
    bindProperty false sampleReconfigured "uColor" 1 1
        = .ok (InputType.float4, sampleReconfigured)
      ∧ configure false sampleDrawCall sampleProgram sampleLocalNoColor emptyContainer
        = .ok sampleReconfigured
      ∧ noUniformAt sampleReconfigured 2 :=
  have h := absent_uniform_is_omitted false sampleDrawCall sampleProgram
    { inputs := [
      { name := "position", type := InputType.attribute, location := 0 },
      { name := "uDiffuseMap", type := InputType.sampler2d, location := 1 },
      { name := "uColor", type := InputType.float4, location := 2 } ] }
    sampleLocalNoColor emptyContainer "uColor" rfl (by decide) (by decide) (by decide)
    (by decide) (by decide)
  ⟨h.1 sampleReconfigured 1 1 rfl rfl rfl rfl, rfl, h.2 sampleReconfigured rfl⟩

theorem getElem?_concat_some {α : Type} (l : List α) (n m : α) (i : Nat)
    (h : (l ++ [n])[i]? = some m) : l[i]? = some m ∨ (i = l.length ∧ n = m) := by
  by_cases hi : i < l.length
  · left
    rwa [List.getElem?_append_left hi] at h
  · right
    rw [List.getElem?_append_right (by omega)] at h
    have h0 : i - l.length = 0 := by
      by_contra hne
      rw [List.getElem?_eq_none (by simp; omega)] at h
      cases h
    rw [h0] at h
    simp at h
    exact ⟨by omega, h⟩

theorem attributeInputsOf_concat (inputs : ProgramInputs) (done : List String) (n : String) :
    attributeInputsOf inputs (done ++ [n])
      = attributeInputsOf inputs done
          ++ (if inputs.type n = InputType.attribute then [n] else []) := by
  by_cases h : inputs.type n = InputType.attribute <;>
    simp [attributeInputsOf, List.filter_append, List.filter_cons, h]

theorem samplerInputsOf_concat (inputs : ProgramInputs) (done : List String) (n : String) :
    samplerInputsOf inputs (done ++ [n])
      = samplerInputsOf inputs done
          ++ (if inputs.type n = InputType.sampler2d then [n] else []) := by
  by_cases h : inputs.type n = InputType.sampler2d <;>
    simp [samplerInputsOf, List.filter_append, List.filter_cons, h]

theorem getElem?_lt_of_some {α : Type} (l : List α) (i : Nat) (m : α) (h : l[i]? = some m) :
    i < l.length := by
  by_contra hn
  rw [List.getElem?_eq_none (by omega)] at h
  cases h

theorem getElem?_set_same {α : Type} (l : List α) (k : Nat) (v : α) (h : k < l.length) :
    (l.set k v)[k]? = some v := by
  simp [List.getElem?_set, h]

theorem getElem?_set_other {α : Type} (l : List α) (k i : Nat) (v : α) (h : i ≠ k) :
    (l.set k v)[i]? = l[i]? :=
  List.getElem?_set_ne (Ne.symm h)

theorem boundSoFar_concat_neutral {inputs : ProgramInputs} {dc : DrawCall} {done : List String}
    {n : String} (hta : inputs.type n ≠ InputType.attribute)
    (hts : inputs.type n ≠ InputType.sampler2d) (hn : uniformHolds inputs dc n)
    (hinv : boundSoFar inputs done dc) : boundSoFar inputs (done ++ [n]) dc := by
  obtain ⟨hs, ha, hsamp, hu⟩ := hinv
  refine ⟨hs, ?_, ?_, ?_⟩
  · rw [attributeInputsOf_concat, if_neg hta, List.append_nil]
    exact ha
  · rw [samplerInputsOf_concat, if_neg hts, List.append_nil]
    exact hsamp
  · intro m hm
    rcases List.mem_append.mp hm with hm | hm
    · exact hu m hm
    · rw [List.mem_singleton.mp hm]
      exact hn

theorem uniformHolds_of_not_float {inputs : ProgramInputs} {dc : DrawCall} {n : String}
    (h : isFloatUniform (inputs.type n) = false) : uniformHolds inputs dc n := by
  refine ⟨?_, ?_, ?_, ?_, ?_⟩ <;> intro ht <;> rw [ht] at h <;> cases h

theorem boundSoFar_store_float1 {inputs : ProgramInputs} {dc : DrawCall} {done : List String}
    {n : String} (v : Nat) (ht : inputs.type n = InputType.float1)
    (hv : getDataProperty dc (resolve dc._uniformBindings n) = some (Value.float v))
    (huniq : ∀ m ∈ done, inputs.type m = inputs.type n →
      inputs.location m = inputs.location n → m = n)
    (hinv : boundSoFar inputs done dc) :
    boundSoFar inputs (done ++ [n])
      { dc with _uniformFloat := StdMap.insert dc._uniformFloat (inputs.location n) v } := by
  refine boundSoFar_concat_neutral (by rw [ht]; decide) (by rw [ht]; decide)
    (by
      unfold uniformHolds
      refine ⟨?_, ?_, ?_, ?_, ?_⟩ <;> intro h <;>
        first
          | exact ⟨v, hv, StdMap.find?_insert_self _ _ _⟩
          | (rw [ht] at h; cases h)) ?_
  obtain ⟨hs, ha, hsamp, hu⟩ := hinv
  refine ⟨hs, ha, hsamp, ?_⟩
  intro m hm
  obtain ⟨u1, u2, u3, u4, u5⟩ := hu m hm
  refine ⟨?_, u2, u3, u4, u5⟩
  intro htm
  obtain ⟨v2, hv2, hf2⟩ := u1 htm
  refine ⟨v2, hv2, ?_⟩
  by_cases hloc : inputs.location m = inputs.location n
  · have hmn := huniq m hm (htm.trans ht.symm) hloc
    subst hmn
    have e : v2 = v := by
      have h3 := hv2.symm.trans hv
      cases h3
      rfl
    subst e
    show StdMap.find? (StdMap.insert dc._uniformFloat (inputs.location m) v2) (inputs.location m)
      = some v2
    exact StdMap.find?_insert_self _ _ _
  · show StdMap.find? (StdMap.insert dc._uniformFloat (inputs.location n) v) (inputs.location m)
      = some v2
    rw [StdMap.find?_insert_ne _ _ _ _ (Ne.symm hloc)]
    exact hf2

theorem boundSoFar_store_float2 {inputs : ProgramInputs} {dc : DrawCall} {done : List String}
    {n : String} (v : Nat) (ht : inputs.type n = InputType.float2)
    (hv : getDataProperty dc (resolve dc._uniformBindings n) = some (Value.vector2 v))
    (huniq : ∀ m ∈ done, inputs.type m = inputs.type n →
      inputs.location m = inputs.location n → m = n)
    (hinv : boundSoFar inputs done dc) :
    boundSoFar inputs (done ++ [n])
      { dc with _uniformFloat2 := StdMap.insert dc._uniformFloat2 (inputs.location n) v } := by
  refine boundSoFar_concat_neutral (by rw [ht]; decide) (by rw [ht]; decide)
    (by
      unfold uniformHolds
      refine ⟨?_, ?_, ?_, ?_, ?_⟩ <;> intro h <;>
        first
          | exact ⟨v, hv, StdMap.find?_insert_self _ _ _⟩
          | (rw [ht] at h; cases h)) ?_
  obtain ⟨hs, ha, hsamp, hu⟩ := hinv
  refine ⟨hs, ha, hsamp, ?_⟩
  intro m hm
  obtain ⟨u1, u2, u3, u4, u5⟩ := hu m hm
  refine ⟨u1, ?_, u3, u4, u5⟩
  intro htm
  obtain ⟨v2, hv2, hf2⟩ := u2 htm
  refine ⟨v2, hv2, ?_⟩
  by_cases hloc : inputs.location m = inputs.location n
  · have hmn := huniq m hm (htm.trans ht.symm) hloc
    subst hmn
    have e : v2 = v := by
      have h3 := hv2.symm.trans hv
      cases h3
      rfl
    subst e
    show StdMap.find? (StdMap.insert dc._uniformFloat2 (inputs.location m) v2) (inputs.location m)
      = some v2
    exact StdMap.find?_insert_self _ _ _
  · show StdMap.find? (StdMap.insert dc._uniformFloat2 (inputs.location n) v) (inputs.location m)
      = some v2
    rw [StdMap.find?_insert_ne _ _ _ _ (Ne.symm hloc)]
    exact hf2

theorem boundSoFar_store_float3 {inputs : ProgramInputs} {dc : DrawCall} {done : List String}
    {n : String} (v : Nat) (ht : inputs.type n = InputType.float3)
    (hv : getDataProperty dc (resolve dc._uniformBindings n) = some (Value.vector3 v))
    (huniq : ∀ m ∈ done, inputs.type m = inputs.type n →
      inputs.location m = inputs.location n → m = n)
    (hinv : boundSoFar inputs done dc) :
    boundSoFar inputs (done ++ [n])
      { dc with _uniformFloat3 := StdMap.insert dc._uniformFloat3 (inputs.location n) v } := by
  refine boundSoFar_concat_neutral (by rw [ht]; decide) (by rw [ht]; decide)
    (by
      unfold uniformHolds
      refine ⟨?_, ?_, ?_, ?_, ?_⟩ <;> intro h <;>
        first
          | exact ⟨v, hv, StdMap.find?_insert_self _ _ _⟩
          | (rw [ht] at h; cases h)) ?_
  obtain ⟨hs, ha, hsamp, hu⟩ := hinv
  refine ⟨hs, ha, hsamp, ?_⟩
  intro m hm
  obtain ⟨u1, u2, u3, u4, u5⟩ := hu m hm
  refine ⟨u1, u2, ?_, u4, u5⟩
  intro htm
  obtain ⟨v2, hv2, hf2⟩ := u3 htm
  refine ⟨v2, hv2, ?_⟩
  by_cases hloc : inputs.location m = inputs.location n
  · have hmn := huniq m hm (htm.trans ht.symm) hloc
    subst hmn
    have e : v2 = v := by
      have h3 := hv2.symm.trans hv
      cases h3
      rfl
    subst e
    show StdMap.find? (StdMap.insert dc._uniformFloat3 (inputs.location m) v2) (inputs.location m)
      = some v2
    exact StdMap.find?_insert_self _ _ _
  · show StdMap.find? (StdMap.insert dc._uniformFloat3 (inputs.location n) v) (inputs.location m)
      = some v2
    rw [StdMap.find?_insert_ne _ _ _ _ (Ne.symm hloc)]
    exact hf2

theorem boundSoFar_store_float4 {inputs : ProgramInputs} {dc : DrawCall} {done : List String}
    {n : String} (v : Nat) (ht : inputs.type n = InputType.float4)
    (hv : getDataProperty dc (resolve dc._uniformBindings n) = some (Value.vector4 v))
    (huniq : ∀ m ∈ done, inputs.type m = inputs.type n →
      inputs.location m = inputs.location n → m = n)
    (hinv : boundSoFar inputs done dc) :
    boundSoFar inputs (done ++ [n])
      { dc with _uniformFloat4 := StdMap.insert dc._uniformFloat4 (inputs.location n) v } := by
  refine boundSoFar_concat_neutral (by rw [ht]; decide) (by rw [ht]; decide)
    (by
      unfold uniformHolds
      refine ⟨?_, ?_, ?_, ?_, ?_⟩ <;> intro h <;>
        first
          | exact ⟨v, hv, StdMap.find?_insert_self _ _ _⟩
          | (rw [ht] at h; cases h)) ?_
  obtain ⟨hs, ha, hsamp, hu⟩ := hinv
  refine ⟨hs, ha, hsamp, ?_⟩
  intro m hm
  obtain ⟨u1, u2, u3, u4, u5⟩ := hu m hm
  refine ⟨u1, u2, u3, ?_, u5⟩
  intro htm
  obtain ⟨v2, hv2, hf2⟩ := u4 htm
  refine ⟨v2, hv2, ?_⟩
  by_cases hloc : inputs.location m = inputs.location n
  · have hmn := huniq m hm (htm.trans ht.symm) hloc
    subst hmn
    have e : v2 = v := by
      have h3 := hv2.symm.trans hv
      cases h3
      rfl
    subst e
    show StdMap.find? (StdMap.insert dc._uniformFloat4 (inputs.location m) v2) (inputs.location m)
      = some v2
    exact StdMap.find?_insert_self _ _ _
  · show StdMap.find? (StdMap.insert dc._uniformFloat4 (inputs.location n) v) (inputs.location m)
      = some v2
    rw [StdMap.find?_insert_ne _ _ _ _ (Ne.symm hloc)]
    exact hf2

theorem boundSoFar_store_float16 {inputs : ProgramInputs} {dc : DrawCall} {done : List String}
    {n : String} (v : Nat) (ht : inputs.type n = InputType.float16)
    (hv : getDataProperty dc (resolve dc._uniformBindings n) = some (Value.matrix4x4 v))
    (huniq : ∀ m ∈ done, inputs.type m = inputs.type n →
      inputs.location m = inputs.location n → m = n)
    (hinv : boundSoFar inputs done dc) :
    boundSoFar inputs (done ++ [n])
      { dc with _uniformFloat16 := StdMap.insert dc._uniformFloat16 (inputs.location n) v } := by
  refine boundSoFar_concat_neutral (by rw [ht]; decide) (by rw [ht]; decide)
    (by
      unfold uniformHolds
      refine ⟨?_, ?_, ?_, ?_, ?_⟩ <;> intro h <;>
        first
          | exact ⟨v, hv, StdMap.find?_insert_self _ _ _⟩
          | (rw [ht] at h; cases h)) ?_
  obtain ⟨hs, ha, hsamp, hu⟩ := hinv
  refine ⟨hs, ha, hsamp, ?_⟩
  intro m hm
  obtain ⟨u1, u2, u3, u4, u5⟩ := hu m hm
  refine ⟨u1, u2, u3, u4, ?_⟩
  intro htm
  obtain ⟨v2, hv2, hf2⟩ := u5 htm
  refine ⟨v2, hv2, ?_⟩
  by_cases hloc : inputs.location m = inputs.location n
  · have hmn := huniq m hm (htm.trans ht.symm) hloc
    subst hmn
    have e : v2 = v := by
      have h3 := hv2.symm.trans hv
      cases h3
      rfl
    subst e
    show StdMap.find? (StdMap.insert dc._uniformFloat16 (inputs.location m) v2) (inputs.location m)
      = some v2
    exact StdMap.find?_insert_self _ _ _
  · show StdMap.find? (StdMap.insert dc._uniformFloat16 (inputs.location n) v) (inputs.location m)
      = some v2
    rw [StdMap.find?_insert_ne _ _ _ _ (Ne.symm hloc)]
    exact hf2

theorem boundSoFar_attribute {inputs : ProgramInputs} {dc : DrawCall} {done : List String}
    {n : String} (vb : VertexBuffer) (a : VertexAttribute)
    (ht : inputs.type n = InputType.attribute)
    (hv : getDataProperty dc (resolve dc._attributeBindings n) = some (Value.vertexBuffer vb))
    (ha : vb.attribute (attributeNameOf (resolve dc._attributeBindings n)) = some a)
    (hk : (attributeInputsOf inputs done).length < MAX_NUM_VERTEXBUFFERS)
    (hinv : boundSoFar inputs done dc) :
    boundSoFar inputs (done ++ [n])
      { dc with
        _vertexBuffers := dc._vertexBuffers.set (attributeInputsOf inputs done).length vb.id,
        _vertexBufferLocations :=
          dc._vertexBufferLocations.set (attributeInputsOf inputs done).length (inputs.location n),
        _vertexAttributeSizes :=
          dc._vertexAttributeSizes.set (attributeInputsOf inputs done).length a.size,
        _vertexSizes := dc._vertexSizes.set (attributeInputsOf inputs done).length vb.vertexSize,
        _vertexAttributeOffsets :=
          dc._vertexAttributeOffsets.set (attributeInputsOf inputs done).length a.offset } := by
  obtain ⟨hs, hattr, hsamp, hu⟩ := hinv
  obtain ⟨s1, s2, s3, s4, s5, s6, s7, s8, s9, s10⟩ := hs
  have hk8 : (attributeInputsOf inputs done).length < 8 := hk
  refine ⟨⟨s1, s2, s3, s4, s5, by simpa using s6, by simpa using s7, by simpa using s8,
    by simpa using s9, by simpa using s10⟩, ?_, ?_, ?_⟩
  · intro i m him
    rw [attributeInputsOf_concat, if_pos ht] at him
    rcases getElem?_concat_some _ _ _ _ him with hold | ⟨hi, hm⟩
    · have hlt := getElem?_lt_of_some _ _ _ hold
      have hne : i ≠ (attributeInputsOf inputs done).length := by omega
      obtain ⟨vb2, a2, h1, h2, h3, h4, h5, h6, h7⟩ := hattr i m hold
      exact ⟨vb2, a2, h1, h2, (getElem?_set_other _ _ _ _ hne).trans h3,
        (getElem?_set_other _ _ _ _ hne).trans h4, (getElem?_set_other _ _ _ _ hne).trans h5,
        (getElem?_set_other _ _ _ _ hne).trans h6, (getElem?_set_other _ _ _ _ hne).trans h7⟩
    · subst hi
      subst hm
      exact ⟨vb, a, hv, ha, getElem?_set_same _ _ _ (by omega), getElem?_set_same _ _ _ (by omega),
        getElem?_set_same _ _ _ (by omega), getElem?_set_same _ _ _ (by omega),
        getElem?_set_same _ _ _ (by omega)⟩
  · rw [samplerInputsOf_concat, if_neg (by rw [ht]; decide), List.append_nil]
    exact hsamp
  · intro m hm
    rcases List.mem_append.mp hm with hm | hm
    · exact hu m hm
    · rw [List.mem_singleton.mp hm]
      exact uniformHolds_of_not_float (by rw [ht]; rfl)

theorem boundSoFar_sampler {inputs : ProgramInputs} {dc : DrawCall} {done : List String}
    {n : String} (t : Texture)
    (ht : inputs.type n = InputType.sampler2d)
    (hv : getDataProperty dc (resolve dc._uniformBindings n) = some (Value.texture t))
    (hj : (samplerInputsOf inputs done).length < MAX_NUM_TEXTURES)
    (hinv : boundSoFar inputs done dc) :
    boundSoFar inputs (done ++ [n])
      { dc with
        _textures := dc._textures.set (samplerInputsOf inputs done).length t.id,
        _textureLocations :=
          dc._textureLocations.set (samplerInputsOf inputs done).length (inputs.location n),
        _textureWrapMode :=
          dc._textureWrapMode.set (samplerInputsOf inputs done).length
            (samplerStateOf dc._states n).1,
        _textureFilters :=
          dc._textureFilters.set (samplerInputsOf inputs done).length
            (samplerStateOf dc._states n).2.1,
        _textureMipFilters :=
          dc._textureMipFilters.set (samplerInputsOf inputs done).length
            (samplerStateOf dc._states n).2.2 } := by
  obtain ⟨hs, hattr, hsamp, hu⟩ := hinv
  obtain ⟨s1, s2, s3, s4, s5, s6, s7, s8, s9, s10⟩ := hs
  have hj8 : (samplerInputsOf inputs done).length < 8 := hj
  refine ⟨⟨by simpa using s1, by simpa using s2, by simpa using s3, by simpa using s4,
    by simpa using s5, s6, s7, s8, s9, s10⟩, ?_, ?_, ?_⟩
  · rw [attributeInputsOf_concat, if_neg (by rw [ht]; decide), List.append_nil]
    exact hattr
  · intro i m him
    rw [samplerInputsOf_concat, if_pos ht] at him
    rcases getElem?_concat_some _ _ _ _ him with hold | ⟨hi, hm⟩
    · have hlt := getElem?_lt_of_some _ _ _ hold
      have hne : i ≠ (samplerInputsOf inputs done).length := by omega
      obtain ⟨t2, h1, h2, h3, h4, h5, h6⟩ := hsamp i m hold
      exact ⟨t2, h1, (getElem?_set_other _ _ _ _ hne).trans h2,
        (getElem?_set_other _ _ _ _ hne).trans h3, (getElem?_set_other _ _ _ _ hne).trans h4,
        (getElem?_set_other _ _ _ _ hne).trans h5, (getElem?_set_other _ _ _ _ hne).trans h6⟩
    · subst hi
      subst hm
      exact ⟨t, hv, getElem?_set_same _ _ _ (by omega), getElem?_set_same _ _ _ (by omega),
        getElem?_set_same _ _ _ (by omega), getElem?_set_same _ _ _ (by omega),
        getElem?_set_same _ _ _ (by omega)⟩
  · intro m hm
    rcases List.mem_append.mp hm with hm | hm
    · exact hu m hm
    · rw [List.mem_singleton.mp hm]
      exact uniformHolds_of_not_float (by rw [ht]; rfl)

theorem BindStep.boundSoFar {inputs : ProgramInputs} {dc dc1 : DrawCall} {done : List String}
    {n : String}
    (h : BindStep inputs dc n (attributeInputsOf inputs done).length
      (samplerInputsOf inputs done).length dc1)
    (hname : inputs.hasName n = true) (hloc : 0 ≤ inputs.location n)
    (hsupA : inputs.type n = InputType.attribute →
      dataHasProperty dc (resolve dc._attributeBindings n) = true)
    (hsupU : inputs.type n ≠ InputType.attribute →
      dataHasProperty dc (resolve dc._uniformBindings n) = true)
    (huniq : isFloatUniform (inputs.type n) = true → ∀ m ∈ done,
      inputs.type m = inputs.type n → inputs.location m = inputs.location n → m = n)
    (hinv : boundSoFar inputs done dc) : boundSoFar inputs (done ++ [n]) dc1 := by
  cases h with
  | skips hs =>
    rcases hs with hs | hs | hs | hs | hs
    · rw [hname] at hs; cases hs
    · exact boundSoFar_concat_neutral (by rw [hs]; decide) (by rw [hs]; decide)
        (uniformHolds_of_not_float (by rw [hs]; rfl)) hinv
    · omega
    · rw [hsupA hs.1] at hs; cases hs.2
    · rw [hsupU hs.1] at hs; cases hs.2.2
  | bindsAttribute vb a ht _ _ hv ha hk => exact boundSoFar_attribute vb a ht hv ha hk hinv
  | bindsSampler t ht _ hv hj => exact boundSoFar_sampler t ht hv hj hinv
  | bindsFloat1 v ht _ hv =>
    exact boundSoFar_store_float1 v ht hv (huniq (by rw [ht]; rfl)) hinv
  | bindsFloat2 v ht _ hv =>
    exact boundSoFar_store_float2 v ht hv (huniq (by rw [ht]; rfl)) hinv
  | bindsFloat3 v ht _ hv =>
    exact boundSoFar_store_float3 v ht hv (huniq (by rw [ht]; rfl)) hinv
  | bindsFloat4 v ht _ hv =>
    exact boundSoFar_store_float4 v ht hv (huniq (by rw [ht]; rfl)) hinv
  | bindsFloat16 v ht _ hv =>
    exact boundSoFar_store_float16 v ht hv (huniq (by rw [ht]; rfl)) hinv

end DrawCall
end render
end minko

namespace minko

theorem StdMap.find?_touch_self {κ α : Type} [DecidableEq κ] (m : StdMap κ α) (k : κ) (d : α) :
    StdMap.find? (StdMap.touch m k d) k = some (StdMap.index m k d) := by
  unfold StdMap.touch StdMap.index StdMap.contains
  cases h : StdMap.find? m k with
  | none => simp [StdMap.find?_insert_self]
  | some v => simp [h]

theorem StdMap.find?_touch_ne {κ α : Type} [DecidableEq κ] (m : StdMap κ α) (k k2 : κ) (d : α)
    (hne : k ≠ k2) : StdMap.find? (StdMap.touch m k d) k2 = StdMap.find? m k2 := by
  unfold StdMap.touch
  split
  · rfl
  · exact StdMap.find?_insert_ne m k k2 d hne

theorem StdMap.index_touch_self {κ α : Type} [DecidableEq κ] (m : StdMap κ α) (k : κ)
    (d d2 : α) : StdMap.index (StdMap.touch m k d) k d2 = StdMap.index m k d := by
  simp [StdMap.index, StdMap.find?_touch_self]

theorem StdMap.index_touch_same {κ α : Type} [DecidableEq κ] (m : StdMap κ α) (k k2 : κ)
    (d : α) : StdMap.index (StdMap.touch m k d) k2 d = StdMap.index m k2 d := by
  by_cases h : k = k2
  · subst h; exact StdMap.index_touch_self m k d d
  · simp [StdMap.index, StdMap.find?_touch_ne m k k2 d h]

theorem StdMap.index_insert_self {κ α : Type} [DecidableEq κ] (m : StdMap κ α) (k : κ)
    (v d : α) : StdMap.index (StdMap.insert m k v) k d = v := by
  simp [StdMap.index, StdMap.find?_insert_self]

namespace render
namespace OpenGLES2Context

/-! ## Sampler state, render targets and deletion -/

theorem samplerWrapBlock_spec (zero : SamplerZero) (s : OpenGLES2Context) (position : Nat)
    (T : Int) (w : WrapMode) :
    (samplerWrapBlock zero s position T w)._currentTexture = s._currentTexture
    ∧ (samplerWrapBlock zero s position T w)._textureHasMipmaps = s._textureHasMipmaps
    ∧ (samplerWrapBlock zero s position T w)._currentTextureFilter = s._currentTextureFilter
    ∧ (samplerWrapBlock zero s position T w)._currentMipFilter = s._currentMipFilter
    ∧ (∀ d, StdMap.index (samplerWrapBlock zero s position T w)._currentWrapMode T d = w)
    ∧ (samplerWrapBlock zero s position T w).gl
        = s.gl ++ (if StdMap.index s._currentWrapMode T zero.wrap ≠ w
            then GLCall.glActiveTexture position :: wrapCalls w else []) := by
  unfold samplerWrapBlock
  by_cases h : StdMap.index s._currentWrapMode T zero.wrap = w
  · simp [h, StdMap.index_touch_self]
  · simp [h, StdMap.index_insert_self]

theorem samplerFilterBlock_spec (zero : SamplerZero) (s : OpenGLES2Context) (position : Nat)
    (T : Int) (active : Bool) (f : TextureFilter) (m : MipFilter) :
    (samplerFilterBlock zero s position T active f m)._currentTexture = s._currentTexture
    ∧ (samplerFilterBlock zero s position T active f m)._textureHasMipmaps
        = s._textureHasMipmaps
    ∧ (samplerFilterBlock zero s position T active f m)._currentWrapMode = s._currentWrapMode
    ∧ (∀ d, StdMap.index (samplerFilterBlock zero s position T active f m)._currentTextureFilter
        T d = f)
    ∧ (∀ d, StdMap.index (samplerFilterBlock zero s position T active f m)._currentMipFilter
        T d = m)
    ∧ (samplerFilterBlock zero s position T active f m).gl
        = s.gl ++ (if StdMap.index s._currentTextureFilter T zero.filter ≠ f
              ∨ StdMap.index s._currentMipFilter T zero.mip ≠ m
            then (if active then [] else [GLCall.glActiveTexture position]) ++ filterCalls f m
            else []) := by
  unfold samplerFilterBlock
  by_cases h1 : StdMap.index s._currentTextureFilter T zero.filter = f
  · by_cases h2 : StdMap.index s._currentMipFilter T zero.mip = m
    · simp [h1, h2, StdMap.index_touch_self]
    · simp [h1, h2, StdMap.index_insert_self]
  · simp [h1, StdMap.index_insert_self]

theorem setSamplerStateAt_spec (zero : SamplerZero) (s : OpenGLES2Context) (position : Nat)
    (w : WrapMode) (f : TextureFilter) (m : MipFilter) :
    (setSamplerStateAt zero s position w f m)._currentTexture = s._currentTexture
    ∧ (∀ k, StdMap.index (setSamplerStateAt zero s position w f m)._textureHasMipmaps k false
        = StdMap.index s._textureHasMipmaps k false)
    ∧ (∀ d, StdMap.index (setSamplerStateAt zero s position w f m)._currentWrapMode
        (s._currentTexture.getD position 0) d = w)
    ∧ (∀ d, StdMap.index (setSamplerStateAt zero s position w f m)._currentTextureFilter
        (s._currentTexture.getD position 0) d = f)
    ∧ (∀ d, StdMap.index (setSamplerStateAt zero s position w f m)._currentMipFilter
        (s._currentTexture.getD position 0) d = effectiveMip s position m)
    ∧ (setSamplerStateAt zero s position w f m).gl
        = s.gl ++ samplerCalls zero s position w f m := by
  unfold setSamplerStateAt checkForErrors
  dsimp only
  generalize hs1 :
    ({ s with
        _textureHasMipmaps :=
          StdMap.touch s._textureHasMipmaps (asUInt (s._currentTexture.getD position 0)) false }
      : OpenGLES2Context) = s1
  have e1 : s1._currentTexture = s._currentTexture := by rw [← hs1]
  have e2 : s1._textureHasMipmaps
      = StdMap.touch s._textureHasMipmaps (asUInt (s._currentTexture.getD position 0)) false := by
    rw [← hs1]
  have e3 : s1._currentWrapMode = s._currentWrapMode := by rw [← hs1]
  have e4 : s1._currentTextureFilter = s._currentTextureFilter := by rw [← hs1]
  have e5 : s1._currentMipFilter = s._currentMipFilter := by rw [← hs1]
  have e6 : s1.gl = s.gl := by rw [← hs1]
  obtain ⟨a1, a2, a3, a4, a5, a6⟩ :=
    samplerWrapBlock_spec zero s1 position (s._currentTexture.getD position 0) w
  generalize samplerWrapBlock zero s1 position (s._currentTexture.getD position 0) w = s2
    at a1 a2 a3 a4 a5 a6 ⊢
  obtain ⟨b1, b2, b3, b4, b5, b6⟩ :=
    samplerFilterBlock_spec zero s2 position (s._currentTexture.getD position 0)
      (decide (StdMap.index s._currentWrapMode (s._currentTexture.getD position 0) zero.wrap ≠ w))
      f (if ¬ StdMap.index s._textureHasMipmaps (asUInt (s._currentTexture.getD position 0)) false
          = true then MipFilter.NONE else m)
  refine ⟨by rw [b1, a1, e1], ?_, ?_, b4, ?_, ?_⟩
  · intro k
    rw [b2, a2, e2, StdMap.index_touch_same]
  · intro d
    rw [b3]
    exact a5 d
  · intro d
    rw [b5 d]
    rfl
  · rw [b6, a6, e6, a3, a4, e3, e4, e5, List.append_assoc]
    unfold samplerCalls effectiveMip
    by_cases hw : StdMap.index s._currentWrapMode (s._currentTexture.getD position 0) zero.wrap = w
      <;> simp [hw]

theorem setTextureAt_cache (s : OpenGLES2Context) (position : Nat) (t location : Int)
    (hpos : position < s._currentTexture.length) :
    (setTextureAt s position t location)._currentTexture.getD position 0 = t
    ∧ (setTextureAt s position t location)._currentTexture.length = s._currentTexture.length
    ∧ (setTextureAt s position t location)._textureHasMipmaps = s._textureHasMipmaps
    ∧ (setTextureAt s position t location)._currentWrapMode = s._currentWrapMode
    ∧ (setTextureAt s position t location)._currentTextureFilter = s._currentTextureFilter
    ∧ (setTextureAt s position t location)._currentMipFilter = s._currentMipFilter := by
  unfold setTextureAt checkForErrors emit
  simp only [List.getD_eq_getElem?_getD]
  by_cases hd : s._currentTexture[position]?.getD 0 = t
  · by_cases hu : t > 0 ∧ location ≥ 0 <;> simp [hd, hu]
  · have hd2 : ¬ s._currentTexture[position] = t := by simpa [hpos] using hd
    by_cases hu : t > 0 ∧ location ≥ 0 <;> simp [hd2, hu, hpos]

/-- C11: after `setTextureAt(u1, T, l1); setSamplerStateAt(u1, wrap, filter, mip);
setTextureAt(u2, T, l2)`, the call `setSamplerStateAt(u2, wrap, filter, mip)`
issues no call at all (so no `glTexParameteri` and no `glActiveTexture`),
whatever the texture `T` and the units `u1`, `u2` below 8. -/
theorem sampler_state_keyed_by_texture (zero : SamplerZero) (s : OpenGLES2Context)
    (u1 u2 : Nat) (T l1 l2 : Int) (w : WrapMode) (f : TextureFilter) (m : MipFilter)
    (h1 : u1 < 8) (h2 : u2 < 8) (hlen : s._currentTexture.length = 8) :
    issued
        (setTextureAt (setSamplerStateAt zero (setTextureAt s u1 T l1) u1 w f m) u2 T l2)
        (setSamplerStateAt zero
          (setTextureAt (setSamplerStateAt zero (setTextureAt s u1 T l1) u1 w f m) u2 T l2)
          u2 w f m)
      = [] := by
  obtain ⟨a1, a2, a3, _, _, _⟩ := setTextureAt_cache s u1 T l1 (by omega)
  generalize setTextureAt s u1 T l1 = sA at a1 a2 a3 ⊢
  obtain ⟨b1, b2, b3, b4, b5, _⟩ := setSamplerStateAt_spec zero sA u1 w f m
  rw [a1] at b3 b4 b5
  have b5e : effectiveMip sA u1 m
      = if ¬ StdMap.index sA._textureHasMipmaps (asUInt T) false = true
          then MipFilter.NONE else m := by
    unfold effectiveMip
    rw [a1]
  generalize setSamplerStateAt zero sA u1 w f m = sB at b1 b2 b3 b4 b5 ⊢
  obtain ⟨c1, _, c3, c4, c5, c6⟩ := setTextureAt_cache sB u2 T l2 (by rw [b1, a2, hlen]; exact h2)
  generalize setTextureAt sB u2 T l2 = sC at c1 c3 c4 c5 c6 ⊢
  apply issued_append
  rw [(setSamplerStateAt_spec zero sC u2 w f m).2.2.2.2.2]
  have hcalls : samplerCalls zero sC u2 w f m = [] := by
    unfold samplerCalls effectiveMip
    rw [c1, c3, c4, c5, c6, b2, b3, b4, b5, b5e]
    simp
  rw [hcalls]

/-- C11 (witness): texture 1 of the sample context on units 0 and 3. -/
theorem sampler_state_keyed_by_texture_witness :
    issued
        (setTextureAt (setSamplerStateAt sampleZero (setTextureAt sampleContext 0 1 0) 0
          WrapMode.REPEAT TextureFilter.LINEAR MipFilter.LINEAR) 3 1 0)
        (setSamplerStateAt sampleZero
          (setTextureAt (setSamplerStateAt sampleZero (setTextureAt sampleContext 0 1 0) 0
            WrapMode.REPEAT TextureFilter.LINEAR MipFilter.LINEAR) 3 1 0)
          3 WrapMode.REPEAT TextureFilter.LINEAR MipFilter.LINEAR)
      = [] :=
  sampler_state_keyed_by_texture sampleZero sampleContext 0 3 1 0 0 WrapMode.REPEAT
    TextureFilter.LINEAR MipFilter.LINEAR (by decide) (by decide) (by decide)

theorem mem_filterCalls_none (f : TextureFilter) (c : GLCall)
    (hc : c ∈ filterCalls f MipFilter.NONE) (hmin : isMinFilterCall c = true) :
    c = GLCall.glTexParameteri (plainMinFilter f) := by
  cases f <;> simp [filterCalls] at hc <;> rcases hc with rfl | rfl <;>
    simp [isMinFilterCall, plainMinFilter] at hmin ⊢

theorem not_min_of_mem_wrapCalls (w : WrapMode) (c : GLCall) (hc : c ∈ wrapCalls w) :
    isMinFilterCall c = false := by
  cases w <;> simp [wrapCalls] at hc <;> rcases hc with rfl | rfl <;> rfl

/-- C12: when the texture of the unit has no mip maps (it was created without
them, or it has no entry at all), after `setSamplerStateAt` the cached mip
filter of that texture is `NONE`, and every minification filter the call sends
is the one without mip maps (`GL_NEAREST` for `NEAREST`, `GL_LINEAR` for
`LINEAR`), whatever mip filter was requested. -/
theorem mip_filter_forced_to_none (zero : SamplerZero) (s : OpenGLES2Context) (position : Nat)
    (w : WrapMode) (f : TextureFilter) (m : MipFilter)
    (hnm : StdMap.index s._textureHasMipmaps (asUInt (s._currentTexture.getD position 0)) false
      = false) :
    StdMap.find? (setSamplerStateAt zero s position w f m)._currentMipFilter
        (s._currentTexture.getD position 0) = some MipFilter.NONE
    ∧ ∀ c ∈ issued s (setSamplerStateAt zero s position w f m),
        isMinFilterCall c = true → c = GLCall.glTexParameteri (plainMinFilter f) := by
  obtain ⟨_, _, _, _, b5, b6⟩ := setSamplerStateAt_spec zero s position w f m
  have he : effectiveMip s position m = MipFilter.NONE := by
    unfold effectiveMip
    rw [hnm]
    rfl
  rw [he] at b5
  constructor
  · have h1 := b5 MipFilter.LINEAR
    unfold StdMap.index at h1
    cases hf : StdMap.find? (setSamplerStateAt zero s position w f m)._currentMipFilter
        (s._currentTexture.getD position 0) with
    | none => rw [hf] at h1; cases h1
    | some v => rw [hf] at h1; simp at h1; rw [h1]
  · rw [issued_append s _ _ b6]
    intro c hc hmin
    unfold samplerCalls at hc
    rw [he] at hc
    rcases List.mem_append.mp hc with hc | hc
    · split_ifs at hc
      · rcases List.mem_cons.mp hc with rfl | hc
        · cases hmin
        · rw [not_min_of_mem_wrapCalls w c hc] at hmin; cases hmin
      · cases hc
    · split_ifs at hc
      · rcases List.mem_append.mp hc with hc | hc
        · simp at hc
        · exact mem_filterCalls_none f c hc hmin
      · rcases List.mem_append.mp hc with hc | hc
        · simp at hc; subst hc; cases hmin
        · exact mem_filterCalls_none f c hc hmin
      · cases hc

/-- C12 (witness): unit 0 of the sample context holding texture 1, created
without mip maps, with `LINEAR` mip filtering requested. -/
theorem mip_filter_forced_to_none_witness :
    StdMap.find? (setSamplerStateAt sampleZero (setTextureAt sampleContext 0 1 0) 0
        WrapMode.REPEAT TextureFilter.LINEAR MipFilter.LINEAR)._currentMipFilter
        ((setTextureAt sampleContext 0 1 0)._currentTexture.getD 0 0) = some MipFilter.NONE
    ∧ ∀ c ∈ issued (setTextureAt sampleContext 0 1 0)
          (setSamplerStateAt sampleZero (setTextureAt sampleContext 0 1 0) 0
            WrapMode.REPEAT TextureFilter.LINEAR MipFilter.LINEAR),
        isMinFilterCall c = true → c = GLCall.glTexParameteri (plainMinFilter TextureFilter.LINEAR) :=
  mip_filter_forced_to_none sampleZero (setTextureAt sampleContext 0 1 0) 0 WrapMode.REPEAT
    TextureFilter.LINEAR MipFilter.LINEAR (by decide)

end OpenGLES2Context
end render
end minko

namespace minko
namespace render
namespace OpenGLES2Context

/-- C13: for a texture `T` that is not the cached current target,
`setRenderToTexture(T, d)` fails with the logic error and hands back the very
state it was given (no call issued, no cache field changed) when `T` has no
framebuffer entry, and succeeds making `T` the cached current target when it
has one. -/
theorem setRenderToTexture_requires_buffers (s : OpenGLES2Context) (T : Nat) (d : Bool)
    (hne : T ≠ s._currentTarget) :
    (StdMap.contains s._frameBuffers T = false →
        setRenderToTexture s T d
          = .error (Failure.logic_error "this texture cannot be used for RTT", s))
    ∧ (StdMap.contains s._frameBuffers T = true →
        ∃ s1, setRenderToTexture s T d = .ok s1 ∧ s1._currentTarget = T) := by
  constructor
  · intro h
    simp [setRenderToTexture, hne, h]
  · intro h
    obtain ⟨s1, h1, h2, _⟩ := setRenderToTexture_ok s T d hne h
    exact ⟨s1, h1, h2⟩

/-- C13 (witness): texture 5 has no buffers in the sample context, texture 1 has. -/
theorem setRenderToTexture_requires_buffers_witness :
    setRenderToTexture sampleContext 5 true
        = .error (Failure.logic_error "this texture cannot be used for RTT", sampleContext)
    ∧ ∃ s1, setRenderToTexture sampleContext 1 true = .ok s1 ∧ s1._currentTarget = 1 :=
  ⟨(setRenderToTexture_requires_buffers sampleContext 5 true (by decide)).1 (by decide),
    (setRenderToTexture_requires_buffers sampleContext 1 true (by decide)).2 (by decide)⟩

/-- C14 (code at the failing input): program 1 is created, made current and
deleted; the cached current program is still 1 afterwards and a new
`setProgram(1)` issues no call, so no `glUseProgram`. -/
theorem deleteProgram_leaves_current_program_stale :
    1 ∈ (setProgram (createProgram (create 258 (0, 0, 640, 480)) 1).2 1)._programs
    ∧ (setProgram (createProgram (create 258 (0, 0, 640, 480)) 1).2 1)._currentProgram = 1
    ∧ (deleteProgram (setProgram (createProgram (create 258 (0, 0, 640, 480)) 1).2 1)
        1)._currentProgram = 1
    ∧ issued
        (deleteProgram (setProgram (createProgram (create 258 (0, 0, 640, 480)) 1).2 1) 1)
        (setProgram
          (deleteProgram (setProgram (createProgram (create 258 (0, 0, 640, 480)) 1).2 1) 1) 1)
      = [] := by
  decide

/-- The sample context with texture 1 made the render target. -/
theorem sampleTargeted_ok : setRenderToTexture sampleContext 1 true = .ok sampleTargeted := rfl

/-- C15 (code at the failing input): texture 1, created with offscreen buffers,
is the current render target when it is deleted; afterwards the cache has no
framebuffer, renderbuffer, size, mip-map or sampler-state entry for it, but the
cached current target is still 1 and `setRenderToTexture(1, true)` returns
normally without issuing any call. -/
theorem deleteTexture_leaves_current_target_stale :
    sampleTargeted._currentTarget = 1
    ∧ StdMap.contains (deleteTexture sampleTargeted 1)._frameBuffers 1 = false
    ∧ StdMap.contains (deleteTexture sampleTargeted 1)._renderBuffers 1 = false
    ∧ StdMap.contains (deleteTexture sampleTargeted 1)._textureSizes 1 = false
    ∧ StdMap.contains (deleteTexture sampleTargeted 1)._textureHasMipmaps 1 = false
    ∧ StdMap.contains (deleteTexture sampleTargeted 1)._currentWrapMode 1 = false
    ∧ StdMap.contains (deleteTexture sampleTargeted 1)._currentTextureFilter 1 = false
    ∧ StdMap.contains (deleteTexture sampleTargeted 1)._currentMipFilter 1 = false
    ∧ (deleteTexture sampleTargeted 1)._currentTarget = 1
    ∧ setRenderToTexture (deleteTexture sampleTargeted 1) 1 true
        = .ok (deleteTexture sampleTargeted 1) := by
  refine ⟨by decide, by decide, by decide, by decide, by decide, by decide, by decide,
    by decide, by decide, rfl⟩

end OpenGLES2Context
end render
end minko


namespace minko
namespace render
namespace OpenGLES2Context


theorem noDrawSince_refl (s : OpenGLES2Context) : noDrawSince s s := ⟨[], by simp, rfl⟩

theorem noDrawSince_trans {a b c : OpenGLES2Context} (h1 : noDrawSince a b)
    (h2 : noDrawSince b c) : noDrawSince a c := by
  obtain ⟨l1, e1, f1⟩ := h1
  obtain ⟨l2, e2, f2⟩ := h2
  exact ⟨l1 ++ l2, by rw [e2, e1, List.append_assoc], by rw [List.filter_append, f1, f2]; rfl⟩

theorem noDrawSince_of_gl {s t : OpenGLES2Context} (l : List GLCall) (h : t.gl = s.gl ++ l)
    (hl : l.filter isDraw = []) : noDrawSince s t := ⟨l, h, hl⟩

theorem noDrawSince_setRenderToBackBuffer (s : OpenGLES2Context) :
    noDrawSince s (setRenderToBackBuffer s) := by
  unfold setRenderToBackBuffer checkForErrors emit
  split_ifs <;> simp [noDrawSince, isDraw]

theorem noDrawSince_setRenderToTexture (s t : OpenGLES2Context) (T : Nat) (d : Bool)
    (h : setRenderToTexture s T d = .ok t) : noDrawSince s t := by
  by_cases h1 : T = s._currentTarget
  · simp [setRenderToTexture, h1] at h
    subst h
    exact noDrawSince_refl s
  · by_cases h2 : StdMap.contains s._frameBuffers T = true
    · cases d <;> simp [setRenderToTexture, h1, h2, checkForErrors, emit] at h <;> subst h <;>
        simp [noDrawSince, isDraw]
    · simp [setRenderToTexture, h1, h2] at h

theorem noDrawSince_setProgram (s : OpenGLES2Context) (p : Nat) :
    noDrawSince s (setProgram s p) := by
  unfold setProgram checkForErrors emit
  split_ifs <;> simp [noDrawSince, isDraw]

theorem noDrawSince_setBlendMode (s : OpenGLES2Context) (b : Nat) :
    noDrawSince s (setBlendMode s b) := by
  unfold setBlendMode checkForErrors emit
  split_ifs <;> simp [noDrawSince, isDraw]

theorem noDrawSince_setDepthTest (s : OpenGLES2Context) (m : Bool) (f : CompareMode) :
    noDrawSince s (setDepthTest s m f) := by
  unfold setDepthTest checkForErrors emit
  split_ifs <;> simp [noDrawSince, isDraw]

theorem noDrawSince_setTriangleCulling (s : OpenGLES2Context) (c : TriangleCulling) :
    noDrawSince s (setTriangleCulling s c) := by
  unfold setTriangleCulling checkForErrors emit
  split_ifs <;> cases c <;> simp [noDrawSince, isDraw]

theorem noDrawSince_setTextureAt (s : OpenGLES2Context) (p : Nat) (t l : Int) :
    noDrawSince s (setTextureAt s p t l) := by
  unfold setTextureAt checkForErrors emit
  simp only [List.getD_eq_getElem?_getD]
  by_cases hd : s._currentTexture[p]?.getD 0 = t <;> by_cases hu : t > 0 ∧ l ≥ 0 <;>
    simp [hd, hu, noDrawSince, isDraw]

theorem noDrawSince_setVertexBufferAt (s : OpenGLES2Context) (p v a b c : Nat) :
    noDrawSince s (setVertexBufferAt s p v a b c) := by
  unfold setVertexBufferAt checkForErrors emit
  simp only [List.getD_eq_getElem?_getD]
  by_cases h1 : s._currentVertexBuffer[p]?.getD 0 = v ∧ s._currentVertexSize[p]?.getD 0 = a
      ∧ s._currentVertexStride[p]?.getD 0 = b ∧ s._currentVertexOffset[p]?.getD 0 = p
  · simp only [h1, and_self, if_true]
    exact noDrawSince_refl s
  · simp only [h1, if_false]
    by_cases h2 : v > 0 <;> simp [h2, noDrawSince, isDraw]

theorem noDrawSince_emit (s : OpenGLES2Context) (c : GLCall) (h : isDraw c = false) :
    noDrawSince s (checkForErrors (emit s c)) :=
  ⟨[c], rfl, by simp [h]⟩

theorem samplerCalls_noDraw (zero : SamplerZero) (s : OpenGLES2Context) (p : Nat)
    (w : WrapMode) (f : TextureFilter) (m : MipFilter) :
    (samplerCalls zero s p w f m).filter isDraw = [] := by
  unfold samplerCalls
  generalize effectiveMip s p m = e
  cases w <;> cases f <;> cases e <;> split_ifs <;> rfl

theorem noDrawSince_setSamplerStateAt (zero : SamplerZero) (s : OpenGLES2Context) (p : Nat)
    (w : WrapMode) (f : TextureFilter) (m : MipFilter) :
    noDrawSince s (setSamplerStateAt zero s p w f m) :=
  ⟨_, (setSamplerStateAt_spec zero s p w f m).2.2.2.2.2, samplerCalls_noDraw zero s p w f m⟩

theorem noDrawSince_foldl {α : Type} (f : OpenGLES2Context → α → OpenGLES2Context)
    (hf : ∀ c a, noDrawSince c (f c a)) (l : List α) :
    ∀ s, noDrawSince s (l.foldl f s) := by
  induction l with
  | nil => intro s; exact noDrawSince_refl s
  | cons a rest ih => intro s; exact noDrawSince_trans (hf s a) (ih (f s a))

theorem noDrawSince_setUniform1f (s : OpenGLES2Context) (l : Int) (v : Nat) :
    noDrawSince s (setUniform1f s l v) := noDrawSince_emit s (GLCall.glUniform1f l v) rfl

theorem noDrawSince_setUniform2f (s : OpenGLES2Context) (l : Int) (v : Nat) :
    noDrawSince s (setUniform2f s l v) := noDrawSince_emit s (GLCall.glUniform2f l v) rfl

theorem noDrawSince_setUniform3f (s : OpenGLES2Context) (l : Int) (v : Nat) :
    noDrawSince s (setUniform3f s l v) := noDrawSince_emit s (GLCall.glUniform3f l v) rfl

theorem noDrawSince_setUniform4f (s : OpenGLES2Context) (l : Int) (v : Nat) :
    noDrawSince s (setUniform4f s l v) := noDrawSince_emit s (GLCall.glUniform4f l v) rfl

theorem noDrawSince_setUniformMatrix (s : OpenGLES2Context) (l : Int) (n : Nat) (t : Bool)
    (v : Nat) : noDrawSince s (setUniformMatrix s l n t v) :=
  noDrawSince_emit s (GLCall.glUniformMatrix4fv l n t v) rfl

theorem noDrawSince_renderUniforms (dc : DrawCall) (s : OpenGLES2Context) :
    noDrawSince s (DrawCall.renderUniforms dc s) := by
  unfold DrawCall.renderUniforms
  refine noDrawSince_trans (noDrawSince_trans (noDrawSince_trans (noDrawSince_trans
    (noDrawSince_foldl _ (fun c (a : Int × Nat) => noDrawSince_setUniform1f c a.1 a.2) _ _)
    (noDrawSince_foldl _ (fun c (a : Int × Nat) => noDrawSince_setUniform2f c a.1 a.2) _ _))
    (noDrawSince_foldl _ (fun c (a : Int × Nat) => noDrawSince_setUniform3f c a.1 a.2) _ _))
    (noDrawSince_foldl _ (fun c (a : Int × Nat) => noDrawSince_setUniform4f c a.1 a.2) _ _))
    (noDrawSince_foldl _ (fun c (a : Int × Nat) => noDrawSince_setUniformMatrix c a.1 1 true a.2) _ _)

theorem noDrawSince_renderTextures (zero : SamplerZero) (dc : DrawCall) (ids : List Nat) :
    ∀ s, noDrawSince s (DrawCall.renderTextures zero dc ids s) := by
  induction ids with
  | nil => intro s; exact noDrawSince_refl s
  | cons i rest ih =>
    intro s
    simp only [DrawCall.renderTextures]
    refine noDrawSince_trans ?_ (ih _)
    split_ifs
    · exact noDrawSince_trans (noDrawSince_setTextureAt _ _ _ _)
        (noDrawSince_setSamplerStateAt _ _ _ _ _ _)
    · exact noDrawSince_setTextureAt _ _ _ _

theorem noDrawSince_renderVertexBuffers (dc : DrawCall) (ids : List Nat) :
    ∀ s t, DrawCall.renderVertexBuffers dc ids s = .ok t → noDrawSince s t := by
  induction ids with
  | nil =>
    intro s t h
    simp only [DrawCall.renderVertexBuffers] at h
    cases h
    exact noDrawSince_refl s
  | cons i rest ih =>
    intro s t h
    simp only [DrawCall.renderVertexBuffers] at h
    split_ifs at h
    · exact noDrawSince_trans (noDrawSince_setVertexBufferAt _ _ _ _ _ _) (ih _ _ h)
    · exact ih _ _ h

theorem drawTriangles_spec (s : OpenGLES2Context) (indexBuffer : Nat) (numTriangles : Int) :
    (drawTriangles s indexBuffer numTriangles).gl
        = s.gl ++ ((if s._currentIndexBuffer ≠ indexBuffer
              then [GLCall.glBindBuffer GLBufferTarget.ELEMENT_ARRAY_BUFFER indexBuffer] else [])
            ++ [GLCall.glDrawElements (numTriangles * 3)])
    ∧ (drawTriangles s indexBuffer numTriangles)._currentIndexBuffer = indexBuffer := by
  unfold drawTriangles checkForErrors emit
  by_cases h : s._currentIndexBuffer = indexBuffer <;> simp [h]

end OpenGLES2Context

namespace DrawCall

open OpenGLES2Context

theorem render_ok_noDrawSince (zero : SamplerZero) (dc : DrawCall)
    (context res : OpenGLES2Context) (h : render zero dc context = .ok res) :
    ∃ c, noDrawSince context c
      ∧ res = drawTriangles c (asUInt dc._indexBuffer) ((dc._numIndices / 3 : Nat) : Int) := by
  unfold render at h
  dsimp only at h
  split at h
  · cases h
  · rename_i c1 h1
    have n1 : noDrawSince context c1 := by
      split at h1
      · exact noDrawSince_setRenderToTexture _ _ _ _ h1
      · cases h1
        exact noDrawSince_setRenderToBackBuffer context
    split at h
    · cases h
    · rename_i program _
      split at h
      · cases h
      · rename_i c5 h5
        cases h
        refine ⟨_, ?_, rfl⟩
        refine noDrawSince_trans n1 (noDrawSince_trans (noDrawSince_setProgram _ _)
          (noDrawSince_trans (noDrawSince_renderUniforms dc _)
          (noDrawSince_trans (noDrawSince_renderTextures zero dc _ _)
          (noDrawSince_trans (noDrawSince_renderVertexBuffers dc _ _ _ h5)
          (noDrawSince_trans (noDrawSince_setBlendMode _ _)
          (noDrawSince_trans (noDrawSince_setDepthTest _ _ _)
            (noDrawSince_setTriangleCulling _ _)))))))

/-- C16 (counterexample): the sample draw call resolved with target texture 5,
rendered on a context in which texture 5 was created without offscreen buffers:
`render` fails in `setRenderToTexture` and hands back the context with nothing
issued, so no draw is submitted. -/
theorem render_without_target_buffers_submits_no_draw :
    sampleWithTarget._target = some { id := 5, isReady := true }
    ∧ samplePlainTexture._textures = [5]
    ∧ render sampleZero sampleWithTarget samplePlainTexture
        = .error (Failure.logic_error "this texture cannot be used for RTT", samplePlainTexture) :=
  ⟨by decide, by decide, rfl⟩

/-- C16 (amended): whenever `render` returns, it has submitted exactly one draw,
a `glDrawElements` of `3 * (numIndices / 3)` indices issued last, and the cached
index buffer is the draw call's; `drawTriangles` binds the index buffer
beforehand exactly when its id differs from the cached one and leaves that id
in the cache. `render` does not return in every state: when the draw call's
target is not the cached current target and has no framebuffer entry, it fails
in `setRenderToTexture` with the context unchanged. -/
theorem render_submits_one_draw (zero : SamplerZero) (dc : DrawCall)
    (context : OpenGLES2Context) :
    (∀ res, render zero dc context = .ok res →
        (issued context res).filter isDraw
            = [GLCall.glDrawElements (3 * ((dc._numIndices / 3 : Nat) : Int))]
        ∧ res.gl.getLast? = some (GLCall.glDrawElements (3 * ((dc._numIndices / 3 : Nat) : Int)))
        ∧ res._currentIndexBuffer = asUInt dc._indexBuffer)
    ∧ (∀ (s : OpenGLES2Context) (indexBuffer : Nat) (numTriangles : Int),
        issued s (drawTriangles s indexBuffer numTriangles)
            = (if s._currentIndexBuffer ≠ indexBuffer
                then [GLCall.glBindBuffer GLBufferTarget.ELEMENT_ARRAY_BUFFER indexBuffer]
                else [])
              ++ [GLCall.glDrawElements (numTriangles * 3)]
        ∧ (drawTriangles s indexBuffer numTriangles)._currentIndexBuffer = indexBuffer)
    ∧ (∀ target, dc._target = some target → asUInt target.id ≠ context._currentTarget →
        StdMap.contains context._frameBuffers (asUInt target.id) = false →
        render zero dc context
          = .error (Failure.logic_error "this texture cannot be used for RTT", context)) := by
  refine ⟨?_, ?_, ?_⟩
  · intro res h
    obtain ⟨c, ⟨l, hl, hf⟩, hres⟩ := render_ok_noDrawSince zero dc context res h
    obtain ⟨d1, d2⟩ := drawTriangles_spec c (asUInt dc._indexBuffer)
      ((dc._numIndices / 3 : Nat) : Int)
    rw [← hres] at d1 d2
    rw [hl, List.append_assoc, Int.mul_comm] at d1
    refine ⟨?_, ?_, d2⟩
    · rw [issued_append context res _ d1, List.filter_append, hf, List.filter_append]
      split_ifs <;> simp [isDraw]
    · rw [d1, ← List.append_assoc, ← List.append_assoc]
      simp
  · intro s ib n
    obtain ⟨d1, d2⟩ := drawTriangles_spec s ib n
    exact ⟨issued_append s _ _ d1, d2⟩
  · intro target ht hne hfb
    unfold render
    simp [ht, setRenderToTexture, hne, hfb]

/-- C16 (witness): the configured sample draw call (36 indices, index buffer 7)
rendered on the sample context. -/
theorem render_submits_one_draw_witness :
    ∃ res, render sampleZero sampleConfigured sampleContext = .ok res
      ∧ (issued sampleContext res).filter isDraw = [GLCall.glDrawElements 36]
      ∧ res._currentIndexBuffer = 7 := by
  have hok : ∃ res, render sampleZero sampleConfigured sampleContext = .ok res := ⟨_, rfl⟩
  obtain ⟨res, h⟩ := hok
  have h1 := (render_submits_one_draw sampleZero sampleConfigured sampleContext).1 res h
  exact ⟨res, h, h1.1, h1.2.2⟩

end DrawCall
end render
end minko

namespace minko
namespace render
namespace DrawCall

theorem attributeSlotsSoFar_concat_neutral {inputs : ProgramInputs} {ab : StdMap String String}
    {data rootData : Container} {dc : DrawCall} {done : List String} {n : String}
    (hta : inputs.type n ≠ InputType.attribute)
    (hinv : attributeSlotsSoFar inputs ab data rootData done dc) :
    attributeSlotsSoFar inputs ab data rootData (done ++ [n]) dc := by
  unfold attributeSlotsSoFar
  rw [attributeInputsOf_concat, if_neg hta, List.append_nil]
  exact hinv

theorem attributeSlotsSoFar_skipped {inputs : ProgramInputs} {ab : StdMap String String}
    {data rootData : Container} {dc : DrawCall} {done : List String} {n : String}
    (hta : inputs.type n = InputType.attribute)
    (hskip : ¬ attributeSupplied inputs ab data rootData n)
    (hinv : attributeSlotsSoFar inputs ab data rootData done dc) :
    attributeSlotsSoFar inputs ab data rootData (done ++ [n]) dc := by
  obtain ⟨hs, hattr, hfree⟩ := hinv
  refine ⟨hs, ?_, ?_⟩
  · intro i m him
    rw [attributeInputsOf_concat, if_pos hta] at him
    rcases getElem?_concat_some _ _ _ _ him with hold | ⟨hi, hm⟩
    · exact hattr i m hold
    · subst hm
      exact ⟨fun h => absurd h hskip, fun _ h8 => hfree i (by omega) h8⟩
  · intro i hi h8
    rw [attributeInputsOf_concat, if_pos hta] at hi
    simp only [List.length_append, List.length_singleton] at hi
    exact hfree i (by omega) h8

theorem attributeSlotsSoFar_attribute {inputs : ProgramInputs} {dc : DrawCall}
    {done : List String} {n : String} (vb : VertexBuffer) (a : VertexAttribute)
    (ht : inputs.type n = InputType.attribute) (hl : 0 ≤ inputs.location n)
    (hh : dataHasProperty dc (resolve dc._attributeBindings n) = true)
    (hv : getDataProperty dc (resolve dc._attributeBindings n) = some (Value.vertexBuffer vb))
    (ha : vb.attribute (attributeNameOf (resolve dc._attributeBindings n)) = some a)
    (hk : (attributeInputsOf inputs done).length < MAX_NUM_VERTEXBUFFERS)
    (hinv : attributeSlotsSoFar inputs dc._attributeBindings dc._data dc._rootData done dc) :
    attributeSlotsSoFar inputs dc._attributeBindings dc._data dc._rootData (done ++ [n])
      { dc with
        _vertexBuffers := dc._vertexBuffers.set (attributeInputsOf inputs done).length vb.id,
        _vertexBufferLocations :=
          dc._vertexBufferLocations.set (attributeInputsOf inputs done).length (inputs.location n),
        _vertexAttributeSizes :=
          dc._vertexAttributeSizes.set (attributeInputsOf inputs done).length a.size,
        _vertexSizes := dc._vertexSizes.set (attributeInputsOf inputs done).length vb.vertexSize,
        _vertexAttributeOffsets :=
          dc._vertexAttributeOffsets.set (attributeInputsOf inputs done).length a.offset } := by
  obtain ⟨hs, hattr, hfree⟩ := hinv
  obtain ⟨s1, s2, s3, s4, s5, s6, s7, s8, s9, s10⟩ := hs
  have hk8 : (attributeInputsOf inputs done).length < 8 := hk
  refine ⟨⟨s1, s2, s3, s4, s5, by simpa using s6, by simpa using s7, by simpa using s8,
    by simpa using s9, by simpa using s10⟩, ?_, ?_⟩
  · intro i m him
    rw [attributeInputsOf_concat, if_pos ht] at him
    rcases getElem?_concat_some _ _ _ _ him with hold | ⟨hi, hm⟩
    · have hlt := getElem?_lt_of_some _ _ _ hold
      have hne : i ≠ (attributeInputsOf inputs done).length := by omega
      obtain ⟨hb, hu⟩ := hattr i m hold
      constructor
      · intro hsup
        obtain ⟨vb2, a2, h1, h2, h3, h4, h5, h6, h7⟩ := hb hsup
        exact ⟨vb2, a2, h1, h2, (getElem?_set_other _ _ _ _ hne).trans h3,
          (getElem?_set_other _ _ _ _ hne).trans h4, (getElem?_set_other _ _ _ _ hne).trans h5,
          (getElem?_set_other _ _ _ _ hne).trans h6, (getElem?_set_other _ _ _ _ hne).trans h7⟩
      · intro hskip h8
        obtain ⟨h3, h4, h5, h6, h7⟩ := hu hskip h8
        exact ⟨(getElem?_set_other _ _ _ _ hne).trans h3,
          (getElem?_set_other _ _ _ _ hne).trans h4, (getElem?_set_other _ _ _ _ hne).trans h5,
          (getElem?_set_other _ _ _ _ hne).trans h6, (getElem?_set_other _ _ _ _ hne).trans h7⟩
    · subst hi
      subst hm
      constructor
      · intro _
        exact ⟨vb, a, hv, ha, getElem?_set_same _ _ _ (by omega),
          getElem?_set_same _ _ _ (by omega), getElem?_set_same _ _ _ (by omega),
          getElem?_set_same _ _ _ (by omega), getElem?_set_same _ _ _ (by omega)⟩
      · intro hskip
        exact absurd ⟨hl, hh⟩ hskip
  · intro i hi h8
    rw [attributeInputsOf_concat, if_pos ht] at hi
    simp only [List.length_append, List.length_singleton] at hi
    have hne : i ≠ (attributeInputsOf inputs done).length := by omega
    obtain ⟨h3, h4, h5, h6, h7⟩ := hfree i (by omega) h8
    exact ⟨(getElem?_set_other _ _ _ _ hne).trans h3,
      (getElem?_set_other _ _ _ _ hne).trans h4, (getElem?_set_other _ _ _ _ hne).trans h5,
      (getElem?_set_other _ _ _ _ hne).trans h6, (getElem?_set_other _ _ _ _ hne).trans h7⟩

theorem BindStep.attributeSlotsSoFar {inputs : ProgramInputs} {dc dc1 : DrawCall}
    {done : List String} {n : String} {j : Nat}
    (h : BindStep inputs dc n (attributeInputsOf inputs done).length j dc1)
    (hname : inputs.hasName n = true)
    (hinv : DrawCall.attributeSlotsSoFar inputs dc._attributeBindings dc._data dc._rootData
      done dc) :
    DrawCall.attributeSlotsSoFar inputs dc._attributeBindings dc._data dc._rootData
      (done ++ [n]) dc1 := by
  cases h with
  | skips hs =>
    by_cases hta : inputs.type n = InputType.attribute
    · refine attributeSlotsSoFar_skipped hta ?_ hinv
      rintro ⟨hl, hh⟩
      rcases hs with hs | hs | hs | hs | hs
      · rw [hname] at hs; cases hs
      · rw [hta] at hs; cases hs
      · omega
      · have : dataHasProperty dc (resolve dc._attributeBindings n) = true := hh
        rw [this] at hs; cases hs.2
      · exact hs.1 hta
    · exact attributeSlotsSoFar_concat_neutral hta hinv
  | bindsAttribute vb a ht hl hh hv ha hk =>
    exact attributeSlotsSoFar_attribute vb a ht hl hh hv ha hk hinv
  | bindsSampler t ht _ hv hj =>
    have hj8 : j < 8 := hj
    obtain ⟨⟨s1, s2, s3, s4, s5, s6, s7, s8, s9, s10⟩, hattr, hfree⟩ :=
      attributeSlotsSoFar_concat_neutral (n := n) (by rw [ht]; decide) hinv
    exact ⟨⟨by simpa using s1, by simpa using s2, by simpa using s3, by simpa using s4,
      by simpa using s5, s6, s7, s8, s9, s10⟩, hattr, hfree⟩
  | bindsFloat1 v ht _ hv =>
    exact attributeSlotsSoFar_concat_neutral (n := n) (by rw [ht]; decide) hinv
  | bindsFloat2 v ht _ hv =>
    exact attributeSlotsSoFar_concat_neutral (n := n) (by rw [ht]; decide) hinv
  | bindsFloat3 v ht _ hv =>
    exact attributeSlotsSoFar_concat_neutral (n := n) (by rw [ht]; decide) hinv
  | bindsFloat4 v ht _ hv =>
    exact attributeSlotsSoFar_concat_neutral (n := n) (by rw [ht]; decide) hinv
  | bindsFloat16 v ht _ hv =>
    exact attributeSlotsSoFar_concat_neutral (n := n) (by rw [ht]; decide) hinv

theorem bindInputs_attributeSlotsSoFar (D : Bool) (program : Program) (inputs : ProgramInputs)
    (hi : program.inputs = some inputs) (ab : StdMap String String)
    (data rootData : Container) (rest : List String) :
    ∀ (done : List String) (dc res : DrawCall) (j : Nat), done ++ rest = inputs.names →
      dc._program = some program → dc._attributeBindings = ab →
      dc._data = data → dc._rootData = rootData →
      attributeSlotsSoFar inputs ab data rootData done dc →
      bindInputs D rest dc (attributeInputsOf inputs done).length j = .ok res →
      attributeSlotsSoFar inputs ab data rootData (done ++ rest) res := by
  induction rest with
  | nil =>
    intro done dc res j _ _ _ _ _ hinv h
    simp only [bindInputs] at h
    cases h
    rw [List.append_nil]
    exact hinv
  | cons n rest ih =>
    intro done dc res j hall hp hab hd hr hinv h
    simp only [bindInputs] at h
    split at h
    · cases h
    · rename_i ty x hx
      have hn : n ∈ inputs.names := by rw [← hall]; simp
      obtain ⟨hty, hstep⟩ := bindProperty_step D dc x program inputs n _ _ ty hp hi hx
      rw [hasName_of_mem inputs n hn, if_pos rfl] at hty
      obtain ⟨e1, _, _, _, e5, e6, e7⟩ := hstep.sameEnvironment
      subst hab hd hr
      have hinv2 := hstep.attributeSlotsSoFar (hasName_of_mem inputs n hn) hinv
      have ih2 := fun j2 => ih (done ++ [n]) x res j2 (by rw [List.append_assoc]; exact hall)
        (by rw [e5]; exact hp) e1 e6 e7 hinv2
      rw [List.append_assoc] at ih2
      rw [attributeInputsOf_concat] at ih2
      subst hty
      split_ifs at h with h1 h2
      · rw [if_pos h1] at ih2
        simp only [List.length_append, List.length_singleton] at ih2
        exact ih2 _ h
      · rw [if_neg h1] at ih2
        simp only [List.append_nil] at ih2
        exact ih2 _ h
      · rw [if_neg h1] at ih2
        simp only [List.append_nil] at ih2
        exact ih2 _ h

theorem attributeSlotsSoFar_prepared (inputs : ProgramInputs) (ab : StdMap String String)
    (dc : DrawCall) (program : Program) (data rootData : Container) (ib : IndexBuffer) :
    attributeSlotsSoFar inputs ab data rootData [] (prepared dc program data rootData ib) := by
  refine ⟨?_, ?_, ?_⟩
  · simp [slotVectorsSized, prepared, reset, MAX_NUM_TEXTURES, MAX_NUM_VERTEXBUFFERS]
  · intro i n h
    simp [attributeInputsOf] at h
  · intro i _ h8
    have h8b : i < MAX_NUM_VERTEXBUFFERS := h8
    simp [attributeSlotUnbound, prepared, reset, List.getElem?_replicate, h8b]

/-- C17 (counterexample): `gapProgram` declares the attributes "normal" then
"position" and the container supplies only "position". `configure` returns, the
skipped "normal" has consumed slot 0, which is left unbound, and "position",
the first attribute actually bound, sits in slot 1: the bound slots are not a
prefix of the 8 slots. -/
theorem skipped_attribute_consumes_a_slot :
    configure false sampleDrawCall gapProgram sampleLocal emptyContainer = .ok gapConfigured
      ∧ sampleLocal.hasProperty "normal" = false ∧ emptyContainer.hasProperty "normal" = false
      ∧ sampleLocal.hasProperty "position" = true
      ∧ gapConfigured._vertexBuffers = [-1, 11, -1, -1, -1, -1, -1, -1]
      ∧ gapConfigured._vertexBufferLocations = [-1, 1, -1, -1, -1, -1, -1, -1] :=
  ⟨rfl, by decide, by decide, by decide, by decide, by decide⟩

/-- C17 (amended): every attribute input consumes one slot, bound or skipped.
After a `configure` that returns, the i-th attribute input in declaration order
(skipped ones counted) owns slot i: the slot holds its vertex buffer when the
input was bound (non-negative location, property in one of the containers) and,
for i below 8, is unbound (all five entries -1) when the input was skipped;
every slot from the number of attribute inputs on is unbound. -/
theorem attribute_slot_is_declaration_index (DEBUG : Bool) (dc : DrawCall) (program : Program)
    (inputs : ProgramInputs) (data rootData : Container) (res : DrawCall)
    (hi : program.inputs = some inputs)
    (hok : configure DEBUG dc program data rootData = .ok res) :
    (∀ i n, (attributeInputsOf inputs inputs.names)[i]? = some n →
        (attributeSupplied inputs dc._attributeBindings data rootData n →
            attributeSlotHolds inputs res i n)
        ∧ (¬ attributeSupplied inputs dc._attributeBindings data rootData n → i < 8 →
            attributeSlotUnbound res i))
      ∧ (∀ i, (attributeInputsOf inputs inputs.names).length ≤ i → i < 8 →
          attributeSlotUnbound res i) := by
  obtain ⟨ib, ins, mid, _, hins, hmid, hst⟩ := (configure_ok_iff _ _ _ _ _ _).mp hok
  have e : ins = inputs := by rw [hi] at hins; cases hins; rfl
  subst e
  have hmidinv := bindInputs_attributeSlotsSoFar DEBUG program ins hi dc._attributeBindings
    data rootData ins.names [] (prepared dc program data rootData ib) mid 0 rfl rfl rfl rfl rfl
    (attributeSlotsSoFar_prepared ins dc._attributeBindings dc program data rootData ib) hmid
  obtain ⟨b, m, f, c, t, hres⟩ := bindStates_ok mid res hst
  subst hres
  obtain ⟨_, ha, hf⟩ := hmidinv
  exact ⟨ha, hf⟩

/-- C17 (witness): `gapProgram` on `sampleLocal`: the skipped "normal" leaves
slot 0 unbound and the bound "position" fills slot 1. -/
theorem attribute_slot_is_declaration_index_witness :
    configure false sampleDrawCall gapProgram sampleLocal emptyContainer = .ok gapConfigured
      ∧ attributeSlotUnbound gapConfigured 0
      ∧ attributeSlotHolds { inputs := [
          { name := "normal", type := InputType.attribute, location := 0 },
          { name := "position", type := InputType.attribute, location := 1 } ] }
          gapConfigured 1 "position"
      ∧ attributeSlotUnbound gapConfigured 2 :=
  have h := attribute_slot_is_declaration_index false sampleDrawCall gapProgram
    { inputs := [
      { name := "normal", type := InputType.attribute, location := 0 },
      { name := "position", type := InputType.attribute, location := 1 } ] }
    sampleLocal emptyContainer gapConfigured rfl rfl
  ⟨rfl, (h.1 0 "normal" (by decide)).2 (by unfold attributeSupplied; decide) (by decide),
    (h.1 1 "position" (by decide)).1 (by unfold attributeSupplied; decide),
    h.2 2 (by decide) (by decide)⟩

end DrawCall
end render
end minko

namespace minko
namespace render
namespace DrawCall

/-- C18 (evaluation): `nineAttributes` declares nine attribute inputs, all
supplied by `nineLocal`. In a build without `DEBUG` the loop of `bind` reaches
the ninth input with slot index 8 and `bindVertexAttribute` performs the store
`_vertexBuffers[8] = ...` past the 8 entries, after the first eight slots are
filled; no exception is thrown before that store. Only a build with `DEBUG`
throws `std::invalid_argument` instead. -/
theorem ninth_attribute_is_written_out_of_bounds :
    (nineAttributes.inputs.map (fun p => p.inputs.length)) = some 9
      ∧ (∀ n ∈ ["a0", "a1", "a2", "a3", "a4", "a5", "a6", "a7", "a8"],
          nineLocal.hasProperty n = true)
      ∧ failureOf (configure false sampleDrawCall nineAttributes nineLocal emptyContainer)
          = some (Failure.write_out_of_bounds 8)
      ∧ (leftBy (configure false sampleDrawCall nineAttributes nineLocal emptyContainer))._vertexBuffers
          = [10, 11, 12, 13, 14, 15, 16, 17]
      ∧ failureOf (configure true sampleDrawCall nineAttributes nineLocal emptyContainer)
          = some (Failure.invalid_argument "vertexBufferId") := by
  refine ⟨by decide, by decide, by decide, by decide, by decide⟩

/-- C19 (counterexample): `unknownProgram` declares the input "uMystery" of
semantic type `unknown`; `configure` returns normally, with or without `DEBUG`,
and the draw call it leaves has the slots and uniform maps of `sampleConfigured`. -/
theorem configure_with_unknown_input_succeeds :
    (unknownProgram.inputs.map (fun p => p.type "uMystery")) = some InputType.unknown
      ∧ failureOf (configure false sampleDrawCall unknownProgram sampleLocal emptyContainer) = none
      ∧ failureOf (configure true sampleDrawCall unknownProgram sampleLocal emptyContainer) = none
      ∧ leftBy (configure false sampleDrawCall unknownProgram sampleLocal emptyContainer)
          = { sampleConfigured with _program := some unknownProgram } := by
  refine ⟨by decide, by decide, by decide, by decide⟩

/-- C19 (amended): an input of semantic type `unknown` is ignored. `bindProperty`
returns `unknown` for it without raising and leaves the draw call as it was, and
the loop of `bind` goes on with the remaining inputs with both slot counters
unchanged, so `configure` ends as it would without that step. -/
theorem unknown_input_is_ignored (DEBUG : Bool) (dc : DrawCall) (program : Program)
    (inputs : ProgramInputs) (name : String) (numVertexBuffers numTextures : Nat)
    (hp : dc._program = some program) (hi : program.inputs = some inputs)
    (ht : inputs.type name = InputType.unknown) :
    bindProperty DEBUG dc name numVertexBuffers numTextures = .ok (InputType.unknown, dc)
      ∧ ∀ rest, bindInputs DEBUG (name :: rest) dc numVertexBuffers numTextures
          = bindInputs DEBUG rest dc numVertexBuffers numTextures := by
  have h1 : bindProperty DEBUG dc name numVertexBuffers numTextures
      = .ok (InputType.unknown, dc) := by
    unfold bindProperty
    simp only [hp, hi]
    split
    · rfl
    · simp only [ht]
  refine ⟨h1, ?_⟩
  intro rest
  simp only [bindInputs, h1]
  simp

/-- C19 (witness): the input "uMystery" of `unknownProgram`, met by the loop
with counters 1 and 1. -/
theorem unknown_input_is_ignored_witness :
    bindProperty false sampleWithUnknown "uMystery" 1 1 = .ok (InputType.unknown, sampleWithUnknown)
      ∧ bindInputs false ["uMystery"] sampleWithUnknown 1 1 = .ok sampleWithUnknown :=
  have h := unknown_input_is_ignored false sampleWithUnknown unknownProgram
    { inputs := [
      { name := "position", type := InputType.attribute, location := 0 },
      { name := "uDiffuseMap", type := InputType.sampler2d, location := 1 },
      { name := "uColor", type := InputType.float4, location := 2 },
      { name := "uMystery", type := InputType.unknown, location := 3 } ] }
    "uMystery" 1 1 rfl rfl (by decide)
  ⟨h.1, h.2 []⟩

/-- C20 (evaluation): `sampleProgram` declares the sampler "uDiffuseMap" at
location 1 and neither container has that property. `bindTextureSampler2D`
looks the property up without asking `dataHasProperty` first, so `configure`
ends in the failure of that lookup, while `bindVertexAttribute` and
`bindUniform`, which do ask, return the draw call unchanged for an input whose
property is absent. -/
theorem absent_sampler_is_not_skipped :
    sampleLocalNoTexture.hasProperty "uDiffuseMap" = false
      ∧ emptyContainer.hasProperty "uDiffuseMap" = false
      ∧ failureOf (configure false sampleDrawCall sampleProgram sampleLocalNoTexture emptyContainer)
          = some (Failure.missing_property "uDiffuseMap")
      ∧ failureOf (configure true sampleDrawCall sampleProgram sampleLocalNoTexture emptyContainer)
          = some (Failure.missing_property "uDiffuseMap")
      ∧ failureOf (bindTextureSampler2D false sampleNoTexturePrepared "uDiffuseMap" 0)
          = some (Failure.missing_property "uDiffuseMap")
      ∧ failureOf (bindUniform false
            { sampleNoTexturePrepared with _data := emptyContainer } "uColor") = none
      ∧ failureOf (bindVertexAttribute false
            { sampleNoTexturePrepared with _data := emptyContainer } "position" 0) = none := by
  refine ⟨by decide, by decide, by decide, by decide, by decide, by decide, by decide⟩

end DrawCall
end render
end minko

namespace minko
namespace render
namespace DrawCall

theorem find_last_of_split (pre suf : List Char) (c : Char) (h : c ∉ suf) :
    find_last_of (pre ++ c :: suf) c = some pre.length := by
  unfold find_last_of
  have hrev : (pre ++ c :: suf).reverse = suf.reverse ++ c :: pre.reverse := by simp
  have hidx : List.indexOf c (pre ++ c :: suf).reverse = suf.length := by
    rw [hrev, List.indexOf_append_of_not_mem (by simpa using h), List.indexOf_cons_self]
    simp
  simp only [hidx]
  rw [if_pos (by simp; omega)]
  congr 1
  simp

theorem find_last_of_absent (s : List Char) (c : Char) (h : c ∉ s) :
    find_last_of s c = none := by
  unfold find_last_of
  have hidx : List.indexOf c s.reverse = s.length := by
    rw [← List.length_reverse s]
    exact List.indexOf_eq_length.mpr (by simpa using h)
  simp only [hidx]
  rw [if_neg (by omega)]

end DrawCall
end render
end minko

namespace minko
namespace render
namespace DrawCall

end DrawCall
end render
end minko

namespace minko
namespace render
namespace OpenGLES2Context

/-- C23 (evaluation): programs 1 and 2 are created and linked on a fresh
context and program 1 is made current. `getProgramInputs(2)` then issues
`glUseProgram(2)` without touching `_currentProgram`: the hardware uses program
2 while the cache still says 1, so the following `setProgram(1)` is skipped and
the hardware keeps using program 2. -/
theorem getProgramInputs_leaves_current_program_stale :
    twoPrograms._currentProgram = 1 ∧ activeProgram twoPrograms.gl = 1
      ∧ getProgramInputs twoPrograms 2
          [{ name := "uColor", type := some InputType.float4, location := 0 }]
          [{ name := "position", location := 0 }]
        = .ok ({ inputs := [
              { name := "uColor", type := InputType.float4, location := 0 },
              { name := "position", type := InputType.attribute, location := 0 }] },
            twoProgramsIntrospected)
      ∧ twoProgramsIntrospected._currentProgram = 1
      ∧ activeProgram twoProgramsIntrospected.gl = 2
      ∧ issued twoProgramsIntrospected (setProgram twoProgramsIntrospected 1) = []
      ∧ activeProgram (setProgram twoProgramsIntrospected 1).gl = 2 := by
  refine ⟨by decide, by decide, rfl, by decide, by decide, by decide, by decide⟩

/-- C24 (evaluation): texture 1 is created on a fresh context and bound to unit
0 through `setTextureAt`. A second `createTexture` then issues
`glBindTexture(GL_TEXTURE_2D, 2)` on the active unit 0 without touching
`_currentTexture`: the hardware has texture 2 on unit 0 while the cache still
says 1, so the following `setTextureAt(0, 1, 0)` skips the bind and unit 0 keeps
texture 2. -/
theorem createTexture_rebinds_unit_behind_the_cache :
    textureOnUnit._currentTexture.getD 0 0 = 1
      ∧ boundTextures textureOnUnit.gl = (0, [1, 0, 0, 0, 0, 0, 0, 0])
      ∧ createTexture textureOnUnit 4 4 false false 2 0 0 true = .ok (2, secondTextureCreated)
      ∧ secondTextureCreated._currentTexture.getD 0 0 = 1
      ∧ boundTextures secondTextureCreated.gl = (0, [2, 0, 0, 0, 0, 0, 0, 0])
      ∧ issued secondTextureCreated (setTextureAt secondTextureCreated 0 1 0)
          = [GLCall.glUniform1i 0 0]
      ∧ boundTextures (setTextureAt secondTextureCreated 0 1 0).gl
          = (0, [2, 0, 0, 0, 0, 0, 0, 0]) := by
  refine ⟨by decide, by decide, rfl, by decide, by decide, by decide, by decide⟩

theorem hardwareCulling_create (DEFAULT : Nat) (viewport : Nat × Nat × Nat × Nat) :
    hardwareCulling (create DEFAULT viewport).gl = (true, GLFace.BACK)
      ∧ (create DEFAULT viewport)._currentTriangleCulling = TriangleCulling.BACK := by
  constructor <;> rfl

theorem cullingCoherent_setTriangleCulling (s : OpenGLES2Context) (m : TriangleCulling)
    (h : cullingCoherent s) : cullingCoherent (setTriangleCulling s m) := by
  obtain ⟨h1, h2⟩ := h
  unfold cullingCoherent at *
  unfold setTriangleCulling
  split
  · exact ⟨h1, h2⟩
  · rename_i hne
    cases hc : s._currentTriangleCulling <;> cases m <;>
      simp_all [emit, checkForErrors, hardwareCulling, List.foldl_append, cullStep, cullFaceOf]

/-- C27: from the constructed context, after every finite sequence of
`setTriangleCulling` calls `GL_CULL_FACE` is enabled on the hardware exactly when
the cached culling mode is not `NONE`, and when it is not `NONE` the hardware
cull face is that of the cached mode (`GL_BACK`, `GL_FRONT`, or
`GL_FRONT_AND_BACK` for `BOTH`). -/
theorem culling_cache_matches_hardware (DEFAULT : Nat) (viewport : Nat × Nat × Nat × Nat)
    (modes : List TriangleCulling) :
    cullingCoherent (modes.foldl setTriangleCulling (create DEFAULT viewport)) := by
  have hstart : cullingCoherent (create DEFAULT viewport) := by
    obtain ⟨h1, h2⟩ := hardwareCulling_create DEFAULT viewport
    unfold cullingCoherent
    rw [h1, h2]
    simp [cullFaceOf]
  generalize create DEFAULT viewport = s at hstart
  induction modes generalizing s with
  | nil => exact hstart
  | cons m rest ih => exact ih _ (cullingCoherent_setTriangleCulling s m hstart)

end OpenGLES2Context
end render
end minko

namespace minko
namespace render
namespace OpenGLES2Context

theorem isPowerOfTwo_of_and_pred (w : Nat) : w ≠ 0 → w &&& (w - 1) = 0 → isPowerOfTwo w := by
  induction w using Nat.strong_induction_on with
  | _ w ih =>
    intro h0 hand
    by_cases h1 : w = 1
    · exact ⟨0, by rw [h1]; rfl⟩
    · have hdiv : (w &&& (w - 1)) / 2 = w / 2 &&& (w - 1) / 2 := Nat.and_div_two
      rw [hand] at hdiv
      rcases Nat.even_or_odd w with he | ho
      · obtain ⟨m, hm⟩ := he
        have hm1 : w / 2 = m := by omega
        have hm2 : (w - 1) / 2 = m - 1 := by omega
        rw [hm1, hm2] at hdiv
        obtain ⟨k, hk⟩ := ih m (by omega) (by omega) hdiv.symm
        exact ⟨k + 1, by rw [pow_succ, ← hk]; omega⟩
      · obtain ⟨m, hm⟩ := ho
        have hm1 : w / 2 = m := by omega
        have hm2 : (w - 1) / 2 = m := by omega
        rw [hm1, hm2, Nat.and_self] at hdiv
        omega

theorem and_pred_of_isPowerOfTwo (w : Nat) (h : isPowerOfTwo w) :
    w ≠ 0 ∧ w &&& (w - 1) = 0 := by
  obtain ⟨k, rfl⟩ := h
  refine ⟨by positivity, ?_⟩
  rw [Nat.and_pow_two_sub_one_eq_mod]
  exact Nat.mod_self _

theorem powerOfTwo_test_iff (w : Nat) : (w ≠ 0 ∧ w &&& (w - 1) = 0) ↔ isPowerOfTwo w :=
  ⟨fun h => isPowerOfTwo_of_and_pred w h.1 h.2, and_pred_of_isPowerOfTwo w⟩

/-- C25: `createTexture(width, height, mipMapping, rtt)` is rejected with
`std::invalid_argument` exactly when `width` or `height` is not a power of two
(zero included), whatever the driver answers; the rejected call hands back the
context it was given, so no call has been issued and no entry has been added to
the texture list or to the size, mip-map and sampler-state maps. -/
theorem createTexture_rejects_non_powers_of_two (s : OpenGLES2Context) (width height : Nat)
    (mipMapping rtt : Bool) (texture frameBuffer renderBuffer : Nat) (complete : Bool) :
    ((∃ what s1, createTexture s width height mipMapping rtt texture frameBuffer renderBuffer
          complete = .error (Failure.invalid_argument what, s1))
        ↔ ¬ isPowerOfTwo width ∨ ¬ isPowerOfTwo height)
      ∧ (∀ what s1, createTexture s width height mipMapping rtt texture frameBuffer renderBuffer
          complete = .error (Failure.invalid_argument what, s1) →
            s1 = s ∧ issued s s1 = [] ∧ s1._textures = s._textures
              ∧ s1._textureSizes = s._textureSizes
              ∧ s1._textureHasMipmaps = s._textureHasMipmaps
              ∧ s1._currentWrapMode = s._currentWrapMode
              ∧ s1._currentTextureFilter = s._currentTextureFilter
              ∧ s1._currentMipFilter = s._currentMipFilter) := by
  have key : ∀ what s1, createTexture s width height mipMapping rtt texture frameBuffer
      renderBuffer complete = .error (Failure.invalid_argument what, s1) →
      s1 = s ∧ (¬ isPowerOfTwo width ∨ ¬ isPowerOfTwo height) := by
    intro what s1 h
    unfold createTexture at h
    split at h
    · rename_i hw
      cases h
      exact ⟨rfl, Or.inl (fun hp => hw ((powerOfTwo_test_iff width).mpr hp))⟩
    · split at h
      · rename_i hh
        cases h
        exact ⟨rfl, Or.inr (fun hp => hh ((powerOfTwo_test_iff height).mpr hp))⟩
      · exfalso
        cases rtt <;> cases complete <;> simp [createRTTBuffers] at h
  refine ⟨⟨?_, ?_⟩, ?_⟩
  · rintro ⟨what, s1, h⟩
    exact (key what s1 h).2
  · intro h
    by_cases hw : isPowerOfTwo width
    · have hh : ¬ isPowerOfTwo height := by
        rcases h with h | h
        · exact absurd hw h
        · exact h
      refine ⟨"height", s, ?_⟩
      unfold createTexture
      rw [if_neg (by simpa using (powerOfTwo_test_iff width).mpr hw),
        if_pos (fun hc => hh ((powerOfTwo_test_iff height).mp hc))]
    · refine ⟨"width", s, ?_⟩
      unfold createTexture
      rw [if_pos (fun hc => hw ((powerOfTwo_test_iff width).mp hc))]
  · intro what s1 h
    obtain ⟨e, _⟩ := key what s1 h
    subst e
    exact ⟨rfl, by simp [issued], rfl, rfl, rfl, rfl, rfl, rfl⟩

/-- C25 (witness): a 6 x 4 texture is rejected for its width, a 4 x 0 one for its height. -/
theorem createTexture_rejects_non_powers_of_two_witness :
    (¬ isPowerOfTwo 6 ∨ ¬ isPowerOfTwo 4)
      ∧ createTexture sampleContext 6 4 false true 9 9 9 true
          = .error (Failure.invalid_argument "width", sampleContext)
      ∧ createTexture sampleContext 4 0 true false 9 9 9 true
          = .error (Failure.invalid_argument "height", sampleContext) :=
  ⟨(createTexture_rejects_non_powers_of_two sampleContext 6 4 false true 9 9 9 true).1.mp
      ⟨"width", sampleContext, rfl⟩, rfl, rfl⟩

end OpenGLES2Context
end render
end minko

namespace minko
namespace math

theorem cover_step (t : Nat → Bool) (a L K : Nat) (hKL : K ≤ L)
    (h : ∀ i j, j < L → t (i + j) = true → a.testBit i = true) :
    ∀ i j, j < L + K → t (i + j) = true → (a ||| a >>> K).testBit i = true := by
  intro i j hj ht
  rw [Nat.testBit_or, Nat.testBit_shiftRight]
  by_cases hjl : j < L
  · rw [h i j hjl ht]
    rfl
  · have h2 : a.testBit (K + i) = true :=
      h (K + i) (j - K) (by omega) (by rw [show K + i + (j - K) = i + j by omega]; exact ht)
    rw [h2]
    simp

theorem sound_step (t : Nat → Bool) (a K : Nat)
    (h : ∀ i, a.testBit i = true → ∃ j, t (i + j) = true) :
    ∀ i, (a ||| a >>> K).testBit i = true → ∃ j, t (i + j) = true := by
  intro i hi
  rw [Nat.testBit_or, Nat.testBit_shiftRight, Bool.or_eq_true] at hi
  rcases hi with hi | hi
  · exact h i hi
  · obtain ⟨j, hj⟩ := h (K + i) hi
    exact ⟨K + j, by rw [show i + (K + j) = K + i + j by omega]; exact hj⟩

theorem smear_eq (y n : Nat) (hlt : y < 2 ^ n) (hn : n ≤ 32) (hhi : n = 0 ∨ 2 ^ (n - 1) ≤ y) :
    ((((y ||| y >>> 1) ||| (y ||| y >>> 1) >>> 2)
        ||| ((y ||| y >>> 1) ||| (y ||| y >>> 1) >>> 2) >>> 4)
      ||| (((y ||| y >>> 1) ||| (y ||| y >>> 1) >>> 2)
        ||| ((y ||| y >>> 1) ||| (y ||| y >>> 1) >>> 2) >>> 4) >>> 8)
      ||| ((((y ||| y >>> 1) ||| (y ||| y >>> 1) >>> 2)
        ||| ((y ||| y >>> 1) ||| (y ||| y >>> 1) >>> 2) >>> 4)
      ||| (((y ||| y >>> 1) ||| (y ||| y >>> 1) >>> 2)
        ||| ((y ||| y >>> 1) ||| (y ||| y >>> 1) >>> 2) >>> 4) >>> 8) >>> 16
      = 2 ^ n - 1 := by
  have c0 : ∀ i j, j < 1 → y.testBit (i + j) = true → y.testBit i = true := by
    intro i j hj h
    have : j = 0 := by omega
    subst this
    exact h
  have c1 := cover_step y.testBit _ 1 1 (le_refl _) c0
  have c2 := cover_step y.testBit _ 2 2 (le_refl _) c1
  have c3 := cover_step y.testBit _ 4 4 (le_refl _) c2
  have c4 := cover_step y.testBit _ 8 8 (le_refl _) c3
  have c5 := cover_step y.testBit _ 16 16 (le_refl _) c4
  have s0 : ∀ i, y.testBit i = true → ∃ j, y.testBit (i + j) = true := fun i h => ⟨0, h⟩
  have s1 := sound_step y.testBit _ 1 s0
  have s2 := sound_step y.testBit _ 2 s1
  have s3 := sound_step y.testBit _ 4 s2
  have s4 := sound_step y.testBit _ 8 s3
  have s5 := sound_step y.testBit _ 16 s4
  have hhigh : ∀ j, n ≤ j → y.testBit j = false := by
    intro j hj
    exact Nat.testBit_lt_two_pow (lt_of_lt_of_le hlt (Nat.pow_le_pow_right (by decide) hj))
  apply Nat.eq_of_testBit_eq
  intro i
  rw [Nat.testBit_two_pow_sub_one]
  by_cases hi : i < n
  · rw [decide_eq_true hi]
    have hn0 : n ≠ 0 := by omega
    have hle : 2 ^ (n - 1) ≤ y := by
      rcases hhi with h | h
      · exact absurd h hn0
      · exact h
    have htop : y.testBit (n - 1) = true := by
      by_contra hc
      have hc2 : y.testBit (n - 1) = false := by simpa using hc
      have : y < 2 ^ (n - 1) := by
        apply Nat.lt_pow_two_of_testBit
        intro j hj
        by_cases hjn : j = n - 1
        · rw [hjn]; exact hc2
        · exact hhigh j (by omega)
      omega
    exact c5 i (n - 1 - i) (by omega) (by rw [show i + (n - 1 - i) = n - 1 by omega]; exact htop)
  · rw [decide_eq_false hi]
    apply Bool.eq_false_iff.mpr
    intro hc
    obtain ⟨j, hj⟩ := s5 i hc
    rw [hhigh (i + j) (by omega)] at hj
    cases hj

theorem clp2_of_pred (x n : Nat)
    (hlt : (x + 4294967295) % 4294967296 < 2 ^ n) (hn : n ≤ 32)
    (hhi : n = 0 ∨ 2 ^ (n - 1) ≤ (x + 4294967295) % 4294967296) :
    clp2 x = (2 ^ n - 1 + 1) % 4294967296 := by
  unfold clp2
  simp only []
  rw [smear_eq _ n hlt hn hhi]

theorem clp2_in_range (x : Nat) (h1 : 1 ≤ x) (h2 : x ≤ 2 ^ 31) :
    clp2 x = 2 ^ Nat.size (x - 1) ∧ Nat.size (x - 1) ≤ 31 := by
  have h31 : (2 : Nat) ^ 31 = 2147483648 := by norm_num
  have hy : (x + 4294967295) % 4294967296 = x - 1 := by omega
  have hsz : Nat.size (x - 1) ≤ 31 := Nat.size_le.mpr (by omega)
  have hpow : 2 ^ Nat.size (x - 1) ≤ 2 ^ 31 := Nat.pow_le_pow_right (by decide) hsz
  have hpos : 0 < 2 ^ Nat.size (x - 1) := by positivity
  have h := clp2_of_pred x (Nat.size (x - 1)) (by rw [hy]; exact Nat.lt_size_self _) (by omega)
    (by
      rw [hy]
      by_cases hn : Nat.size (x - 1) = 0
      · exact Or.inl hn
      · exact Or.inr (Nat.lt_size.mp (by omega)))
  refine ⟨?_, hsz⟩
  rw [h]
  omega

theorem clp2_wraps (x : Nat) (h : 2 ^ 31 ≤ (x + 4294967295) % 4294967296) : clp2 x = 0 := by
  have h32 : (2 : Nat) ^ 32 = 4294967296 := by norm_num
  have hm : (x + 4294967295) % 4294967296 < 4294967296 := Nat.mod_lt _ (by decide)
  have h2 := clp2_of_pred x 32 (by rw [h32]; exact hm) (le_refl _) (Or.inr h)
  rw [h2, h32]

/-- C26: for `1 <= x <= 2^31`, `clp2(x)` is a power of two, is at least `x`
and is at most every power of two that is at least `x`; it equals `x` exactly
when `x` is a power of two, and it passes the width and height test of
`createTexture`. Outside that range the arithmetic wraps: `clp2(0) = 0` and
`clp2(x) = 0` for `2^31 < x < 2^32`. -/
theorem clp2_is_least_power_of_two (x : Nat) :
    (1 ≤ x → x ≤ 2 ^ 31 →
        (∃ k, clp2 x = 2 ^ k ∧ x ≤ 2 ^ k ∧ ∀ j, x ≤ 2 ^ j → 2 ^ k ≤ 2 ^ j)
        ∧ (clp2 x = x ↔ ∃ k, x = 2 ^ k)
        ∧ (clp2 x ≠ 0 ∧ clp2 x &&& (clp2 x - 1) = 0))
      ∧ clp2 0 = 0
      ∧ (2 ^ 31 < x → x < 2 ^ 32 → clp2 x = 0) := by
  refine ⟨?_, ?_, ?_⟩
  · intro h1 h2
    obtain ⟨hc, hsz⟩ := clp2_in_range x h1 h2
    have hge : x ≤ 2 ^ Nat.size (x - 1) := by
      have := Nat.lt_size_self (x - 1)
      omega
    have hmin : ∀ j, x ≤ 2 ^ j → 2 ^ Nat.size (x - 1) ≤ 2 ^ j := by
      intro j hj
      exact Nat.pow_le_pow_right (by decide) (Nat.size_le.mpr (by omega))
    refine ⟨⟨_, hc, hge, hmin⟩, ?_, ?_⟩
    · constructor
      · intro he
        exact ⟨_, by rw [← he]; exact hc⟩
      · rintro ⟨k, hk⟩
        rw [hc]
        exact le_antisymm (le_of_le_of_eq (hmin k (le_of_eq hk)) hk.symm) hge
    · rw [hc]
      exact render.OpenGLES2Context.and_pred_of_isPowerOfTwo _ ⟨_, rfl⟩
  · exact clp2_wraps 0 (by norm_num)
  · intro h1 h2
    have h31 : (2 : Nat) ^ 31 = 2147483648 := by norm_num
    have h32 : (2 : Nat) ^ 32 = 4294967296 := by norm_num
    exact clp2_wraps x (by omega)

/-- C26 (witness): `clp2(5) = 8`, `clp2(640) = 1024`, `clp2(8) = 8`,
`clp2(2^31 + 1) = 0`. -/
theorem clp2_is_least_power_of_two_witness :
    (∃ k, clp2 640 = 2 ^ k ∧ 640 ≤ 2 ^ k ∧ ∀ j, 640 ≤ 2 ^ j → 2 ^ k ≤ 2 ^ j)
      ∧ clp2 640 = 1024 ∧ clp2 5 = 8 ∧ clp2 8 = 8
      ∧ clp2 2147483649 = 0 :=
  ⟨((clp2_is_least_power_of_two 640).1 (by decide) (by norm_num)).1, by decide, by decide,
    by decide,
    (clp2_is_least_power_of_two 2147483649).2.2 (by norm_num) (by norm_num)⟩

end math
end minko

namespace minko
namespace component
namespace ParticleSystem

theorem removeAttribute_attrs (vb : render.VertexBuffer) (name : String) :
    (removeAttribute vb name).vertexAttributes
      = vb.vertexAttributes.filter (fun a => decide (a.name ≠ name)) := rfl

theorem removeOptional_attrs (comps : List (String × Nat × Nat)) :
    ∀ vb : render.VertexBuffer, (removeOptional comps vb).vertexAttributes
      = vb.vertexAttributes.filter (fun a => decide (a.name ∉ comps.map (fun c => c.1))) := by
  induction comps with
  | nil =>
    intro vb
    simp [removeOptional]
  | cons c rest ih =>
    intro vb
    unfold removeOptional
    split
    · rw [ih, removeAttribute_attrs, List.filter_filter]
      congr 1
      funext a
      by_cases h : a.name = c.1 <;> simp [h]
    · rename_i hno
      rw [ih]
      apply List.filter_congr
      intro a ha
      have hne : a.name ≠ c.1 := by
        intro he
        apply hno
        unfold hasAttribute
        rw [List.any_eq_true]
        exact ⟨a, ha, by simpa using he⟩
      simp [hne]

theorem addOptional_attrs (format : Nat) (comps : List (String × Nat × Nat)) :
    ∀ (vb : render.VertexBuffer) (attrOffset : Nat),
      (addOptional format comps vb attrOffset).vertexAttributes
        = vb.vertexAttributes
          ++ (addOptional format comps { id := 0, vertexSize := 0, vertexAttributes := [] }
              attrOffset).vertexAttributes := by
  induction comps with
  | nil =>
    intro vb off
    simp [addOptional]
  | cons c rest ih =>
    intro vb off
    unfold addOptional
    split
    · rw [ih (addAttribute vb c.1 c.2.2 off), ih (addAttribute _ c.1 c.2.2 off)]
      simp [addAttribute]
    · exact ih vb off

theorem writes_match_declared (flags : VertexComponentFlags) (format : Nat) :
    (particleWrites flags format).drop 3
        = writesDeclaredBy (addOptional format (OPTIONAL_COMPONENTS flags)
            { id := 0, vertexSize := 0, vertexAttributes := [] } 5).vertexAttributes
      ∧ (∀ a ∈ (addOptional format (OPTIONAL_COMPONENTS flags)
            { id := 0, vertexSize := 0, vertexAttributes := [] } 5).vertexAttributes,
          isOptional a = true ∧ ((componentFields a.name).length : Int) = a.size
            ∧ 5 ≤ a.offset) := by
  by_cases h1 : (format &&& flags.SIZE) ≠ 0 <;>
  by_cases h2 : (format &&& flags.COLOR) ≠ 0 <;>
  by_cases h3 : (format &&& flags.TIME) ≠ 0 <;>
  by_cases h4 : (format &&& flags.OLD_POSITION) ≠ 0 <;>
  by_cases h5 : (format &&& flags.ROTATION) ≠ 0 <;>
  by_cases h6 : (format &&& flags.SPRITE_INDEX) ≠ 0 <;>
  simp [particleWrites, OPTIONAL_COMPONENTS, addOptional, addAttribute, writesDeclaredBy,
    laidOutFrom, componentFields, isOptional, h1, h2, h3, h4, h5, h6]

theorem addComponents_optional_attrs (flags : VertexComponentFlags) (ps : ParticleSystem)
    (components : Nat) (blockVSInit : Bool) (h : ps._format ≠ components) :
    (addComponents flags ps components blockVSInit)._format = ps._format ||| components
      ∧ (addComponents flags ps components blockVSInit).particleVertices.vertexAttributes.filter
          isOptional
        = (addOptional (ps._format ||| components) (OPTIONAL_COMPONENTS flags)
            { id := 0, vertexSize := 0, vertexAttributes := [] } 5).vertexAttributes := by
  have hattrs : (addComponents flags ps components blockVSInit).particleVertices.vertexAttributes
      = (removeOptional (OPTIONAL_COMPONENTS flags) ps.particleVertices).vertexAttributes
        ++ (addOptional (ps._format ||| components) (OPTIONAL_COMPONENTS flags)
            { id := 0, vertexSize := 0, vertexAttributes := [] } 5).vertexAttributes := by
    unfold addComponents
    rw [if_neg h]
    cases blockVSInit <;> simp only [] <;> exact addOptional_attrs _ _ _ _
  have hfmt : (addComponents flags ps components blockVSInit)._format
      = ps._format ||| components := by
    unfold addComponents
    rw [if_neg h]
    cases blockVSInit <;> rfl
  refine ⟨hfmt, ?_⟩
  rw [hattrs, List.filter_append, removeOptional_attrs, List.filter_filter]
  have hnil : List.filter (fun a => isOptional a && decide (a.name ∉
      (OPTIONAL_COMPONENTS flags).map (fun c => c.1))) ps.particleVertices.vertexAttributes
      = [] := by
    rw [List.filter_eq_nil_iff]
    intro a _
    simp [isOptional, OPTIONAL_COMPONENTS]
    tauto
  rw [hnil, List.nil_append, List.filter_eq_self]
  intro a ha
  exact ((writes_match_declared flags (ps._format ||| components)).2 a ha).1

/-- C28: after `addComponents` has rebuilt the vertex format, the floats
`updateVertexBuffer` writes for a live particle after x, y, z (float offsets 2,
3, 4) are exactly the fields of the optional attributes declared on the vertex
buffer, in declaration order, each component starting at its declared attribute
offset and taking as many floats as its declared size; the first offset is 5. -/
theorem particle_writes_match_declared_offsets (flags : VertexComponentFlags)
    (ps : ParticleSystem) (components : Nat) (blockVSInit : Bool)
    (h : ps._format ≠ components) :
    (particleWrites flags (addComponents flags ps components blockVSInit)._format).take 3
        = [(2, ParticleField.x), (3, ParticleField.y), (4, ParticleField.z)]
      ∧ (particleWrites flags (addComponents flags ps components blockVSInit)._format).drop 3
        = writesDeclaredBy
            ((addComponents flags ps components blockVSInit).particleVertices.vertexAttributes.filter
              isOptional)
      ∧ (∀ a ∈ (addComponents flags ps components blockVSInit).particleVertices.vertexAttributes,
          isOptional a = true →
            ((componentFields a.name).length : Int) = a.size ∧ 5 ≤ a.offset) := by
  obtain ⟨hfmt, hopt⟩ := addComponents_optional_attrs flags ps components blockVSInit h
  obtain ⟨hw, hsz⟩ := writes_match_declared flags (ps._format ||| components)
  refine ⟨?_, ?_, ?_⟩
  · generalize (addComponents flags ps components blockVSInit)._format = format
    by_cases h1 : (format &&& flags.SIZE) ≠ 0 <;>
    by_cases h2 : (format &&& flags.COLOR) ≠ 0 <;>
    by_cases h3 : (format &&& flags.TIME) ≠ 0 <;>
    by_cases h4 : (format &&& flags.OLD_POSITION) ≠ 0 <;>
    by_cases h5 : (format &&& flags.ROTATION) ≠ 0 <;>
    by_cases h6 : (format &&& flags.SPRITE_INDEX) ≠ 0 <;>
    simp [particleWrites, h1, h2, h3, h4, h5, h6]
  · rw [hfmt, hopt]
    exact hw
  · intro a ha hoa
    have hmem : a ∈ (addComponents flags ps components
        blockVSInit).particleVertices.vertexAttributes.filter isOptional :=
      List.mem_filter.mpr ⟨ha, hoa⟩
    rw [hopt] at hmem
    exact (hsz a hmem).2

/-- C28 (witness): a fresh system to which the components COLOR and ROTATION are
added: "color" is declared at offset 5 with size 3, "rotation" at offset 8, and
the writes for a live particle are r, g, b at 5, 6, 7 and the rotation at 8. -/
theorem particle_writes_match_declared_offsets_witness :
    (addComponents sampleFlags (create sampleFlags) 18 false).particleVertices.vertexAttributes
        = [{ name := "offset", size := 2, offset := 0 },
           { name := "position", size := 3, offset := 2 },
           { name := "color", size := 3, offset := 5 },
           { name := "rotation", size := 1, offset := 8 }]
      ∧ (particleWrites sampleFlags (addComponents sampleFlags (create sampleFlags) 18
            false)._format).drop 3
        = writesDeclaredBy ((addComponents sampleFlags (create sampleFlags) 18
            false).particleVertices.vertexAttributes.filter isOptional)
      ∧ particleWrites sampleFlags 18
        = [(2, ParticleField.x), (3, ParticleField.y), (4, ParticleField.z),
           (5, ParticleField.r), (6, ParticleField.g), (7, ParticleField.b),
           (8, ParticleField.rotation)] :=
  ⟨by decide,
    (particle_writes_match_declared_offsets sampleFlags (create sampleFlags) 18 false
      (by decide)).2.1,
    by decide⟩

end ParticleSystem
end component
end minko

namespace minko
namespace component
namespace ParticleSystem

theorem fastForwardLoop_zero_step (fuel : Nat) :
    ∀ (time : ℚ) (ps : ParticleSystem), 0 < time → fastForwardLoop fuel time 0 ps = none := by
  induction fuel with
  | zero =>
    intro time ps _
    rfl
  | succ n ih =>
    intro time ps ht
    unfold fastForwardLoop
    rw [if_pos ht, sub_zero]
    exact ih time _ ht

/-- C29 (evaluation): a freshly constructed system has update step 0, and
`fastForward(1)` with the default `updatesPerSecond = 0` keeps the step 0: the
loop `while (time > updateStep)` subtracts 0 from `time` at every turn, so for
every number of turns allowed it is still running. `frameBeginHandler` guards
the same loop with `if (_updateStep == 0)` and returns after one update. -/
theorem fastForward_with_zero_step_never_returns (flags : VertexComponentFlags) (fuel : Nat) :
    (create flags)._updateStep = 0
      ∧ fastForward fuel (create flags) 1 0 = none
      ∧ (frameBeginHandler fuel (playing (create flags) true) 0 16).isSome = true := by
  refine ⟨rfl, ?_, ?_⟩
  · unfold fastForward
    simp only [ne_eq, not_true_eq_false, if_false]
    exact fastForwardLoop_zero_step fuel 1 _ (by norm_num)
  · simp [frameBeginHandler, playing, create]

/-- C30 (evaluation): `playing(value)` assigns `true` whatever `value` is, so
the system is playing after `pause()` and after `stop()` as well; a
`frameBeginHandler` that follows `pause()` performs an `updateSystem` and an
`updateVertexBuffer`. -/
theorem pause_leaves_the_system_playing (ps : ParticleSystem) (value : Bool) :
    (playing ps value)._playing = true
      ∧ (pause ps)._playing = true ∧ (stop ps)._playing = true
      ∧ (create sampleFlags)._playing = false
      ∧ (pause (create sampleFlags))._playing = true
      ∧ (frameBeginHandler 0 (pause (create sampleFlags)) 0 16).map (fun r => r.events)
          = some [ParticleEvent.updateSystem (2 / 125) true, ParticleEvent.updateVertexBuffer] := by
  refine ⟨rfl, rfl, rfl, rfl, rfl, ?_⟩
  simp [frameBeginHandler, pause, playing, create, updateSystem, updateVertexBuffer]
  norm_num

end ParticleSystem
end component
end minko

namespace minko
namespace render
namespace DrawCall

theorem dataHasProperty_of_getDataProperty (dc : DrawCall) (p : String) (v : Value)
    (h : getDataProperty dc p = some v) : dataHasProperty dc p = true := by
  unfold getDataProperty at h
  unfold dataHasProperty
  by_cases h1 : dc._data.hasProperty p = true
  · simp [h1]
  · simp only [h1, Bool.false_eq_true, if_false] at h
    have : dc._rootData.hasProperty p = true := by
      simp [Container.hasProperty, Container.get, StdMap.contains] at h ⊢
      rw [h]
      rfl
    simp [this]

theorem bindVertexAttribute_supplied (D : Bool) (dc : DrawCall) (program : Program)
    (inputs : ProgramInputs) (n : String) (k : Nat) (vb : VertexBuffer)
    (hp : dc._program = some program) (hi : program.inputs = some inputs)
    (hl : 0 ≤ inputs.location n)
    (hv : getDataProperty dc (resolve dc._attributeBindings n) = some (Value.vertexBuffer vb))
    (hk : k < MAX_NUM_VERTEXBUFFERS) :
    (∀ a, vb.attribute (attributeNameOf (resolve dc._attributeBindings n)) = some a →
        bindVertexAttribute D dc n k = .ok { dc with
          _vertexBuffers := dc._vertexBuffers.set k vb.id,
          _vertexBufferLocations := dc._vertexBufferLocations.set k (inputs.location n),
          _vertexAttributeSizes := dc._vertexAttributeSizes.set k a.size,
          _vertexSizes := dc._vertexSizes.set k vb.vertexSize,
          _vertexAttributeOffsets := dc._vertexAttributeOffsets.set k a.offset })
      ∧ (vb.attribute (attributeNameOf (resolve dc._attributeBindings n)) = none →
        bindVertexAttribute D dc n k
          = .error (Failure.missing_attribute
              (attributeNameOf (resolve dc._attributeBindings n)), dc)) := by
  have hh := dataHasProperty_of_getDataProperty dc _ _ hv
  have hk2 : ¬ k ≥ MAX_NUM_VERTEXBUFFERS := by omega
  have hl2 : ¬ inputs.location n < 0 := by omega
  constructor
  · intro a ha
    unfold bindVertexAttribute
    simp only [hp, hi, hk2, and_false, if_false, hl2, hh, not_true_eq_false, hv, ha]
  · intro ha
    unfold bindVertexAttribute
    simp only [hp, hi, hk2, and_false, if_false, hl2, hh, not_true_eq_false, hv, ha]

/-- C22: the attribute name `bindVertexAttribute` passes to
`vertexBuffer->attribute(...)` is the part of the property name after its last
'.': for `pre ++ "." ++ suf` with no '.' in `suf` it is `suf`, for a name
without '.' it is the name itself, for a name ending in '.' it is empty. For an
input with a non-negative location whose resolved property name `p` holds a
vertex buffer, `bindVertexAttribute` fetches the attribute of that name from the
vertex buffer: when the buffer declares it, the call returns the draw call with
slot `k` holding that attribute's size and offset (next to the buffer's id, the
location and the vertex size); when it does not, the call fails on that name. -/
theorem attribute_name_follows_last_dot (p : String) :
    (∀ pre suf : List Char, p.data = pre ++ '.' :: suf → '.' ∉ suf →
        attributeNameOf p = String.mk suf)
      ∧ ('.' ∉ p.data → attributeNameOf p = p)
      ∧ (∀ pre : List Char, p.data = pre ++ ['.'] → attributeNameOf p = "")
      ∧ (∀ (DEBUG : Bool) (dc : DrawCall) (program : Program) (inputs : ProgramInputs)
          (n : String) (k : Nat) (vb : VertexBuffer),
          dc._program = some program → program.inputs = some inputs →
          0 ≤ inputs.location n → resolve dc._attributeBindings n = p →
          getDataProperty dc p = some (Value.vertexBuffer vb) → k < MAX_NUM_VERTEXBUFFERS →
          (∀ a, vb.attribute (attributeNameOf p) = some a →
              bindVertexAttribute DEBUG dc n k = .ok { dc with
                _vertexBuffers := dc._vertexBuffers.set k vb.id,
                _vertexBufferLocations := dc._vertexBufferLocations.set k (inputs.location n),
                _vertexAttributeSizes := dc._vertexAttributeSizes.set k a.size,
                _vertexSizes := dc._vertexSizes.set k vb.vertexSize,
                _vertexAttributeOffsets := dc._vertexAttributeOffsets.set k a.offset })
            ∧ (vb.attribute (attributeNameOf p) = none →
              bindVertexAttribute DEBUG dc n k
                = .error (Failure.missing_attribute (attributeNameOf p), dc))) := by
  have h1 : ∀ pre suf : List Char, p.data = pre ++ '.' :: suf → '.' ∉ suf →
      attributeNameOf p = String.mk suf := by
    intro pre suf hp hs
    unfold attributeNameOf
    rw [hp, find_last_of_split pre suf '.' hs]
    simp
  refine ⟨h1, ?_, ?_, ?_⟩
  · intro h
    unfold attributeNameOf
    rw [find_last_of_absent p.data '.' h]
    rfl
  · intro pre hp
    exact h1 pre [] hp (by simp)
  · intro D dc program inputs n k vb hp hi hl hr hv hk
    subst hr
    exact bindVertexAttribute_supplied D dc program inputs n k vb hp hi hl hv hk

/-- C22 (witness): the attribute input "uv" bound to the property
"geometry.vertices.uv", whose vertex buffer declares "position" (size 3, offset
0) and "uv" (size 2, offset 3): `bindVertexAttribute` fetches "uv" and stores
size 2 and offset 3 in slot 0. The names "position" and "geometry." give
"position" and the empty name. -/
theorem attribute_name_follows_last_dot_witness :
    attributeNameOf "geometry.vertices.uv" = "uv"
      ∧ bindVertexAttribute false uvDrawCall "uv" 0 = .ok { uvDrawCall with
          _vertexBuffers := uvDrawCall._vertexBuffers.set 0 12,
          _vertexBufferLocations := uvDrawCall._vertexBufferLocations.set 0 0,
          _vertexAttributeSizes := uvDrawCall._vertexAttributeSizes.set 0 2,
          _vertexSizes := uvDrawCall._vertexSizes.set 0 5,
          _vertexAttributeOffsets := uvDrawCall._vertexAttributeOffsets.set 0 3 }
      ∧ attributeNameOf "position" = "position"
      ∧ attributeNameOf "geometry." = "" :=
  ⟨(attribute_name_follows_last_dot "geometry.vertices.uv").1 "geometry.vertices".data "uv".data
      (by decide) (by decide),
    ((attribute_name_follows_last_dot "geometry.vertices.uv").2.2.2 false uvDrawCall uvProgram
      { inputs := [{ name := "uv", type := InputType.attribute, location := 0 }] } "uv" 0
      { id := 12, vertexSize := 5, vertexAttributes := [
        { name := "position", size := 3, offset := 0 }, { name := "uv", size := 2, offset := 3 }] }
      rfl rfl (by decide) (by decide) (by decide) (by decide)).1
      { name := "uv", size := 2, offset := 3 } (by decide),
    (attribute_name_follows_last_dot "position").2.1 (by decide),
    (attribute_name_follows_last_dot "geometry.").2.2.1 "geometry".data (by decide)⟩

end DrawCall
end render
end minko
